import Mathlib

/-!
# CodeEcho feedback pipeline: retry policy, heuristic analyzer, aggregation

A shallow embedding of the TypeScript sources
`src/services/enhanced-feedback-analyzer.ts`, `src/services/mcp.service.ts` and
`src/routes/feedback.routes.ts`, followed by theorems about them.

Conventions of the embedding:
* an `async` function is its sequential meaning: `await` is a plain call;
* a remote collaborator (GitHub, Stack Exchange, the AI backend) is a parameter;
* a JavaScript string is the list of its UTF-16 code units, so that `length`,
  `substring` and `slice` count what the source counts.
-/

namespace CodeEcho

/-! ## Retry policy (`EnhancedFeedbackAnalyzer.retryOperation`) -/

/-- What `retryOperation` does that an observer can see, in order. -/
inductive RetryEvent where
  /-- One `await operation()`. -/
  | invoke : RetryEvent
  /-- One `setTimeout(resolve, ms)` that is awaited. -/
  | wait (ms : Nat) : RetryEvent
  deriving DecidableEq

/-- An operation `() => Promise<T>`: from the state of the world it either
resolves with a value or rejects with an error, and leaves a new state. -/
abbrev Operation (σ ε α : Type) := σ → Except ε α × σ

/-- The end of a `retryOperation` call: the value it resolves with or the value
it throws (`lastError`, which is `undefined` = `none` until a failure is caught),
the state of the world, and the trace of invocations and waits. -/
structure RetryOutcome (σ ε α : Type) where
  result : Except (Option ε) α
  state : σ
  trace : List RetryEvent

/-- The `for (let attempt = ...; attempt <= this.retryAttempts; attempt++)` loop of
`retryOperation`, entered with the current `attempt` and `lastError`. -/
def retryLoop {σ ε α : Type} (retryAttempts retryDelay : Nat) (operation : Operation σ ε α)
    (attempt : Nat) (lastError : Option ε) (s : σ) (trace : List RetryEvent) :
    RetryOutcome σ ε α :=
  if attempt ≤ retryAttempts then
    match operation s with
    | (Except.ok v, s1) => ⟨Except.ok v, s1, trace ++ [RetryEvent.invoke]⟩
    | (Except.error e, s1) =>
      if attempt < retryAttempts then
        retryLoop retryAttempts retryDelay operation (attempt + 1) (some e) s1
          (trace ++ [RetryEvent.invoke, RetryEvent.wait (retryDelay * attempt)])
      else
        retryLoop retryAttempts retryDelay operation (attempt + 1) (some e) s1
          (trace ++ [RetryEvent.invoke])
  else
    ⟨Except.error lastError, s, trace⟩
termination_by retryAttempts + 1 - attempt

/-- The field `private retryAttempts: number = 3`. -/
def retryAttempts : Nat := 3

/-- The field `private retryDelay: number = 1000` (milliseconds). -/
def retryDelay : Nat := 1000

/-- The method `retryOperation(operation)`: `lastError` starts undefined, `attempt` starts at 1. -/
def retryOperation {σ ε α : Type} (operation : Operation σ ε α) (s : σ) : RetryOutcome σ ε α :=
  retryLoop retryAttempts retryDelay operation 1 none s []

/-- Number of invocations of the operation in a trace. -/
def invocations (trace : List RetryEvent) : Nat :=
  (trace.filter (fun ev => decide (ev = RetryEvent.invoke))).length

/-- The waits of a trace, in order. -/
def delays : List RetryEvent → List Nat
  | [] => []
  | RetryEvent.invoke :: rest => delays rest
  | RetryEvent.wait ms :: rest => ms :: delays rest

/-- Sum of all waits of a trace, in milliseconds. -/
def totalDelay (trace : List RetryEvent) : Nat := (delays trace).sum

/-- State of the world after `n` invocations of the operation, one after the other. -/
def stateAfter {σ ε α : Type} (operation : Operation σ ε α) : Nat → σ → σ
  | 0, s => s
  | n + 1, s => stateAfter operation n (operation s).2

/-- Result of the `n`-th invocation (counted from 0) of the operation started in `s`. -/
def resultAt {σ ε α : Type} (operation : Operation σ ε α) (n : Nat) (s : σ) : Except ε α :=
  (operation (stateAfter operation n s)).1

/-- A stub operation over a call counter: the first `k` calls reject with the number
of the call, every later call resolves with `v`. -/
def failThenSucceed {α : Type} (k : Nat) (v : α) : Operation Nat Nat α :=
  fun n => if n < k then (Except.error n, n + 1) else (Except.ok v, n + 1)

/-- A stub operation over a call counter that rejects every call with the number
of the call. -/
def alwaysFail {α : Type} : Operation Nat Nat α :=
  fun n => (Except.error n, n + 1)

/-! ## JavaScript strings -/

/-- A JavaScript string: the list of its UTF-16 code units. -/
abbrev JsString := List Nat

/-- UTF-16 code units of one Unicode scalar value. -/
def utf16 (c : Char) : List Nat :=
  if c.toNat < 65536 then [c.toNat]
  else [55296 + (c.toNat - 65536) / 1024, 56320 + (c.toNat - 65536) % 1024]

/-- The JavaScript string written as the literal `s`. -/
def js (s : String) : JsString := s.toList.flatMap utf16

/-- Code units that ECMAScript counts as white space or as a line terminator; this is
the set removed by `String.prototype.trim` and matched by `\s` in a regular expression. -/
def isWhiteSpace (c : Nat) : Bool :=
  c = 9 || c = 10 || c = 11 || c = 12 || c = 13 || c = 32 || c = 160 || c = 5760 ||
  (8192 ≤ c && c ≤ 8202) || c = 8232 || c = 8233 || c = 8239 || c = 8287 ||
  c = 12288 || c = 65279

/-- The call `s.trim()`. -/
def trim (s : JsString) : JsString :=
  ((s.dropWhile isWhiteSpace).reverse.dropWhile isWhiteSpace).reverse

/-- Truthiness of a string: every string but the empty one. -/
def truthy (s : JsString) : Bool := !s.isEmpty

/-- The expression `x || d` for an optional string `x`: `d` when `x` is missing or empty. -/
def orElse (x : Option JsString) (d : JsString) : JsString :=
  match x with
  | some s => if truthy s then s else d
  | none => d

/-- The lower-case form of one code unit under the Unicode case mapping that
`String.prototype.toLowerCase` applies, for the code units of Basic Latin and Latin-1
Supplement and for the letters U+0130, U+0131, U+017F and U+212A. The capital letters
U+0041..U+005A and U+00C0..U+00DE (without the multiplication sign U+00D7) move by 32,
U+0130 becomes `i` followed by the combining dot U+0307, the Kelvin sign U+212A becomes
`k`, and every other code unit of that range, the dotless i U+0131 and the long s U+017F
among them, is its own lower-case form. A code unit outside that range is left as it
is, which is the Unicode mapping for some of them only; see `InCaseModel`. -/
def lowerCodeUnit (c : Nat) : List Nat :=
  if (65 ≤ c ∧ c ≤ 90) ∨ (192 ≤ c ∧ c ≤ 214) ∨ (216 ≤ c ∧ c ≤ 222) then [c + 32]
  else if c = 304 then [105, 775]
  else if c = 8490 then [107]
  else [c]

/-- The call `s.toLowerCase()`: the lower-case forms of the code units, in order. -/
def toLowerCase (s : JsString) : JsString := s.flatMap lowerCodeUnit

/-- Every code unit of the string is one on which `lowerCodeUnit` is the Unicode case
mapping: a code unit of Basic Latin or Latin-1 Supplement, or one of U+0130, U+0131,
U+017F and U+212A. None of these has a lower-case form that depends on its neighbours,
so on such a string `toLowerCase` is what `String.prototype.toLowerCase` returns. -/
def InCaseModel (s : JsString) : Prop :=
  ∀ c ∈ s, c < 256 ∨ c = 304 ∨ c = 305 ∨ c = 383 ∨ c = 8490

instance (s : JsString) : Decidable (InCaseModel s) := by
  unfold InCaseModel
  infer_instance

/-- The call `s.includes(w)`: `w` occurs in `s` as a contiguous run of code units. -/
def includes (s w : JsString) : Bool := decide (w <:+: s)

/-- The call `s.split('\n')`. -/
def splitLines : JsString → List JsString
  | [] => [[]]
  | c :: rest =>
    if c = 10 then [] :: splitLines rest
    else
      match splitLines rest with
      | [] => [[c]]
      | line :: lines => (c :: line) :: lines

/-- Separator class `[\s-]` of the regular expression used on titles. -/
def isTitleSeparator (c : Nat) : Bool := isWhiteSpace c || c = 45

/-- The call `s.split(/[\s-]+/)`, scanning left to right; `inRun` says that the code unit
before the current one was a separator, so that a run of separators splits once. -/
def splitTitleAux (inRun : Bool) : JsString → List JsString
  | [] => [[]]
  | c :: rest =>
    if isTitleSeparator c then
      if inRun then splitTitleAux true rest else [] :: splitTitleAux true rest
    else
      match splitTitleAux false rest with
      | [] => [[c]]
      | word :: words => (c :: word) :: words

/-- The call `s.split(/[\s-]+/)`. -/
def splitTitle (s : JsString) : List JsString := splitTitleAux false s

/-- The call `parts.join(' ')`. -/
def joinSpace : List JsString → JsString
  | [] => []
  | [p] => p
  | p :: q :: rest => p ++ 32 :: joinSpace (q :: rest)

/-- The expression `[...new Set(xs)]`: the elements of `xs` added one by one to a set that keeps
insertion order, an element already in the set being skipped. -/
def setSpread (xs : List JsString) : List JsString :=
  xs.foldl (fun acc x => if x ∈ acc then acc else acc ++ [x]) []

/-! ## JavaScript numbers -/

/-- A JavaScript number (IEEE 754 binary64): `NaN`, an infinity, or the finite value
`m * 2 ^ e`. A finite value is kept in lowest terms: `m` is odd, or `m = 0` and `e = 0`.
The two zeros are not told apart (`-0 === 0`, and both are falsy). -/
inductive JsNum where
  | nan : JsNum
  | inf (negative : Bool) : JsNum
  | fin (m : Int) (e : Int) : JsNum
  deriving DecidableEq

namespace JsNum

/-- Number of binary digits of `a`, counted by halving `a` at most `fuel` times. -/
def bitLengthAux : Nat → Nat → Nat
  | 0, _ => 0
  | fuel + 1, a => if a = 0 then 0 else bitLengthAux fuel (a / 2) + 1

/-- Number of binary digits of `a` (`a` halvings are more than enough). -/
def bitLength (a : Nat) : Nat := bitLengthAux a a

/-- Number of trailing zero bits of `a`, counted by halving `a` at most `fuel` times. -/
def trailingZerosAux : Nat → Nat → Nat
  | 0, _ => 0
  | fuel + 1, a => if a ≠ 0 ∧ a % 2 = 0 then trailingZerosAux fuel (a / 2) + 1 else 0

/-- Number of trailing zero bits of `a` (`0` for `a = 0`). -/
def trailingZeros (a : Nat) : Nat := trailingZerosAux a a

/-- The value `m * 2 ^ e` in lowest terms. -/
def normalize (m e : Int) : JsNum :=
  if m = 0 then fin 0 0
  else fin (m / 2 ^ trailingZeros m.natAbs) (e + trailingZeros m.natAbs)

/-- The integer nearest to `a / 2 ^ shift`, a tie going to the even one. -/
def roundHalfEven (a shift : Nat) : Nat :=
  if shift = 0 then a
  else
    let q := a / 2 ^ shift
    let r := a % 2 ^ shift
    let half := 2 ^ (shift - 1)
    if r > half ∨ (r = half ∧ q % 2 = 1) then q + 1 else q

/-- The binary64 value nearest to the exact value `m * 2 ^ e` (round to nearest, ties
to even): 53 significant bits, least exponent `-1074`, overflow to an infinity from
`2 ^ 1024` on. -/
def round64 (m e : Int) : JsNum :=
  if m = 0 then fin 0 0
  else
    let a := m.natAbs
    let q : Int := max ((bitLength a : Int) + e - 53) (-1074)
    if q ≤ e then
      if (bitLength a : Int) + e > 1024 then inf (decide (m < 0)) else normalize m e
    else
      let r := roundHalfEven a (q - e).toNat
      if (bitLength r : Int) + q > 1024 then inf (decide (m < 0))
      else normalize (if m < 0 then -(r : Int) else (r : Int)) q

/-- The number written as the integer literal `n`. -/
def ofInt (n : Int) : JsNum := round64 n 0

/-- The product `x * y`. -/
def mul : JsNum → JsNum → JsNum
  | nan, _ => nan
  | _, nan => nan
  | inf a, inf b => inf (a != b)
  | inf a, fin m _ => if m = 0 then nan else inf (a != decide (m < 0))
  | fin m _, inf b => if m = 0 then nan else inf (decide (m < 0) != b)
  | fin m1 e1, fin m2 e2 => round64 (m1 * m2) (e1 + e2)

/-- The sum `x + y`. -/
def add : JsNum → JsNum → JsNum
  | nan, _ => nan
  | _, nan => nan
  | inf a, inf b => if a = b then inf a else nan
  | inf a, fin _ _ => inf a
  | fin _ _, inf b => inf b
  | fin m1 e1, fin m2 e2 =>
    round64 (m1 * 2 ^ (e1 - min e1 e2).toNat + m2 * 2 ^ (e2 - min e1 e2).toNat) (min e1 e2)

/-- Truthiness of a number: every number but `0` and `NaN`. -/
def truthy : JsNum → Bool
  | nan => false
  | inf _ => true
  | fin m _ => decide (m ≠ 0)

/-- The comparison `x >= y` (false as soon as one side is `NaN`). -/
def ge : JsNum → JsNum → Bool
  | nan, _ => false
  | _, nan => false
  | inf a, inf b => !a || b
  | inf a, fin _ _ => !a
  | fin _ _, inf b => b
  | fin m1 e1, fin m2 e2 =>
    decide (m2 * 2 ^ (e2 - min e1 e2).toNat ≤ m1 * 2 ^ (e1 - min e1 e2).toNat)

/-- The literal `0.01`: the binary64 value nearest to one hundredth. -/
def hundredth : JsNum := fin 5764607523034235 (-59)

end JsNum

/-- The expression `x || 0` for an optional number `x`: `0` when `x` is missing, `0` or `NaN`. -/
def orZero (x : Option JsNum) : JsNum :=
  match x with
  | some v => if v.truthy then v else JsNum.ofInt 0
  | none => JsNum.ofInt 0

/-- The operand `x` of an arithmetic operator for an optional number `x`: `undefined`
converts to `NaN`. -/
def toNumber (x : Option JsNum) : JsNum :=
  match x with
  | some v => v
  | none => JsNum.nan

/-! ## Heuristic analyzer (`MCPService` in `mcp.service.ts`) -/

/-- The `source` argument of `analyzeFeedbackItem`: `'github' | 'stackoverflow'`. -/
inductive Source where
  | github : Source
  | stackoverflow : Source
  deriving DecidableEq

/-- The `sentiment` field of a `FeedbackAnalysis`. -/
inductive Sentiment where
  | positive : Sentiment
  | negative : Sentiment
  | neutral : Sentiment
  deriving DecidableEq

/-- An item handed to the heuristic analyzer (`item: any`): an object holding the
properties that `analyzeFeedbackItem` and `calculateEngagementScore` read. A property
the object does not have is `none`; strings, string arrays and numbers are the value
types the interfaces `GitHubIssue` and `StackOverflowQuestion` give these properties. -/
structure Item where
  title : Option JsString := none
  body : Option JsString := none
  url : Option JsString := none
  link : Option JsString := none
  tags : Option (List JsString) := none
  labels : Option (List JsString) := none
  created_at : Option JsString := none
  creation_date : Option JsString := none
  score : Option JsNum := none
  view_count : Option JsNum := none
  answer_count : Option JsNum := none
  comments : Option JsNum := none
  reactions : Option JsNum := none
  deriving DecidableEq

/-- The interface `FeedbackAnalysis`. -/
structure FeedbackAnalysis where
  source : Source
  title : JsString
  url : JsString
  sentiment : Sentiment
  topics : List JsString
  summary : JsString
  engagement_score : JsNum
  created_at : Option JsString
  deriving DecidableEq

/-- The method `calculateEngagementScore(item)`: the Stack Overflow formula when the item has a
`view_count` property, the GitHub formula otherwise. -/
def calculateEngagementScore (item : Item) : JsNum :=
  if item.view_count.isSome then
    JsNum.add
      (JsNum.add (JsNum.mul (toNumber item.score) (JsNum.ofInt 2))
        (JsNum.mul (toNumber item.view_count) JsNum.hundredth))
      (JsNum.mul (toNumber item.answer_count) (JsNum.ofInt 3))
  else
    let commentWeight := orZero item.comments
    let reactionWeight := orZero item.reactions
    JsNum.add (JsNum.mul commentWeight (JsNum.ofInt 2)) reactionWeight

/-- The table `sentimentKeywords.positive`. -/
def positiveKeywords : List JsString :=
  [js "great", js "awesome", js "good", js "thanks", js "helpful", js "works", js "solved",
    js "fixed"]

/-- The table `sentimentKeywords.negative`. -/
def negativeKeywords : List JsString :=
  [js "bug", js "issue", js "error", js "problem", js "fail", js "crash", js "broken",
    js "not working"]

/-- The template literal that joins title and body: title, a line feed, body, each
replaced by the empty string when missing or empty. -/
def itemText (item : Item) : JsString :=
  orElse item.title [] ++ 10 :: orElse item.body []

/-- The constant `positiveCount`: how many entries of the positive table pass
`word => lowerText.includes(word)`. -/
def positiveCount (text : JsString) : Nat :=
  (positiveKeywords.filter (fun word => includes (toLowerCase text) word)).length

/-- The constant `negativeCount`: how many entries of the negative table pass
`word => lowerText.includes(word)`. -/
def negativeCount (text : JsString) : Nat :=
  (negativeKeywords.filter (fun word => includes (toLowerCase text) word)).length

/-- The `if / else if / else` that turns the two counts into a sentiment. -/
def sentimentOf (text : JsString) : Sentiment :=
  if positiveCount text > negativeCount text then Sentiment.positive
  else if negativeCount text > positiveCount text then Sentiment.negative
  else Sentiment.neutral

/-- The constant `explicitTopics`: the tags of a Stack Overflow item, the labels of a GitHub item,
`[]` when the property is missing. -/
def explicitTopics (item : Item) (source : Source) : List JsString :=
  match source with
  | Source.stackoverflow => item.tags.getD []
  | Source.github => item.labels.getD []

/-- The constant `titleWords`: the lower-cased title split on `/[\s-]+/`, the words of more than
3 code units kept, the first 3 of those taken. -/
def titleWords (item : Item) : List JsString :=
  ((splitTitle (toLowerCase (orElse item.title []))).filter
    (fun word => decide (word.length > 3))).take 3

/-- The constant `topics` before truncation: `[...new Set([...explicitTopics, ...titleWords])]`. -/
def allTopics (item : Item) (source : Source) : List JsString :=
  setSpread (explicitTopics item source ++ titleWords item)

/-- The constant `summary` before the fallback: the lines of the text whose `trim()` is not empty,
the first two of them joined by a space, cut by `substring(0, 200)`. -/
def summaryOf (text : JsString) : JsString :=
  (joinSpace (((splitLines text).filter (fun line => truthy (trim line))).take 2)).take 200

/-- The property `url` of the result: `item.url || ''` for GitHub, `item.link || ''`
for Stack Overflow. -/
def itemUrl (item : Item) (source : Source) : JsString :=
  match source with
  | Source.github => orElse item.url []
  | Source.stackoverflow => orElse item.link []

/-- The property `created_at` of the result. -/
def itemCreatedAt (item : Item) (source : Source) : Option JsString :=
  match source with
  | Source.github => item.created_at
  | Source.stackoverflow => item.creation_date

/-- The method `analyzeFeedbackItem(item, source)`. No step of the `try` block throws on an `Item`,
so the `catch` block, which would answer with the summary `'Error analyzing content'`,
is never entered and is not part of this function. -/
def analyzeFeedbackItem (item : Item) (source : Source) : FeedbackAnalysis :=
  let text := itemText item
  if !truthy (trim text) then
    { source := source
      title := orElse item.title (js "Untitled")
      url := itemUrl item source
      sentiment := Sentiment.neutral
      topics := []
      summary := js "No content available"
      engagement_score := calculateEngagementScore item
      created_at := itemCreatedAt item source }
  else
    { source := source
      title := orElse item.title (js "Untitled")
      url := itemUrl item source
      sentiment := sentimentOf text
      topics := (allTopics item source).take 5
      summary := orElse (some (summaryOf text)) (js "No content available")
      engagement_score := calculateEngagementScore item
      created_at := itemCreatedAt item source }

/-! ## Aggregation (`MCPService.analyzeRecentFeedback`) -/

/-- Insertion step of a stable sort under a comparator `cmp`, where `cmp a b > 0` means
that `a` comes after `b`: `x`, which stood before all of the list, goes in front of the
first entry it does not have to come after. -/
def sortInsert {α : Type} (cmp : α → α → Int) (x : α) : List α → List α
  | [] => [x]
  | y :: ys => if cmp x y ≤ 0 then x :: y :: ys else y :: sortInsert cmp x ys

/-- The call `xs.sort(cmp)`. `Array.prototype.sort` is stable, and for a consistent comparator
its result is the one list that is a stable ordering of `xs`; this is that list
(for an inconsistent comparator ECMAScript leaves the order to the implementation). -/
def sortBy {α : Type} (cmp : α → α → Int) : List α → List α
  | [] => []
  | x :: xs => sortInsert cmp x (sortBy cmp xs)

/-- The call `xs.slice(0, limit)` for an integer `limit`: the first `limit` entries, or all but
the last `-limit` when `limit` is negative. -/
def sliceTo {α : Type} (xs : List α) (limit : Int) : List α :=
  if limit < 0 then xs.take (xs.length - limit.natAbs) else xs.take limit.toNat

/-- The comparator `(a, b) => new Date(b.created_at).getTime() - new Date(a.created_at).getTime()`.
`getTime s` is the time value of `new Date(s)`, `none` for an invalid date (`NaN`). A
`NaN` difference counts as `+0` in `sort`. Time values are integers below `2 ^ 53`, so
the sign of the difference is the sign of the exact difference. -/
def compareCreatedAt (getTime : Option JsString → Option Int) (a b : FeedbackAnalysis) : Int :=
  match getTime b.created_at, getTime a.created_at with
  | some tb, some ta => tb - ta
  | _, _ => 0

/-- What `analyzeRecentFeedback` returns. -/
structure RecentFeedback where
  total_items : Nat
  github_items : Nat
  stackoverflow_items : Nat
  analysis : List FeedbackAnalysis
  error : Option JsString := none

/-- The method `analyzeRecentFeedback(limit = 5)`. The two adapters are parameters: each maps the
limit it is called with to the items it fetched (an adapter never throws, it answers
`[]`). On `Item`s nothing in the `try` block throws, so the `catch` block is left out. -/
def analyzeRecentFeedback (getTime : Option JsString → Option Int)
    (ingestGitHubFeedback ingestStackOverflowFeedback : Int → List Item)
    (limit : Option Int) : RecentFeedback :=
  let limit := limit.getD 5
  let githubIssues := ingestGitHubFeedback limit
  let stackoverflowQuestions := ingestStackOverflowFeedback limit
  let githubAnalysis := githubIssues.map (fun issue => analyzeFeedbackItem issue Source.github)
  let stackoverflowAnalysis :=
    stackoverflowQuestions.map (fun question => analyzeFeedbackItem question Source.stackoverflow)
  let allAnalysis :=
    sliceTo (sortBy (compareCreatedAt getTime) (githubAnalysis ++ stackoverflowAnalysis)) limit
  { total_items := allAnalysis.length
    github_items := githubAnalysis.length
    stackoverflow_items := stackoverflowAnalysis.length
    analysis := allAnalysis }

/-! ## HTTP route `GET /analyze` (`feedback.routes.ts`) -/

/-- The interface `GitHubFeedback`: an item as `ingestGitHubFeedback` returns it. -/
structure GitHubFeedback where
  title : JsString
  body : Option JsString
  number : JsNum
  state : JsString
  url : JsString
  created_at : JsString
  updated_at : JsString
  labels : List JsString
  deriving DecidableEq

/-- The interface `StackOverflowFeedback`: an item as `ingestStackOverflowFeedback`
returns it. -/
structure StackOverflowFeedback where
  title : JsString
  body : Option JsString
  tags : List JsString
  link : JsString
  score : JsNum
  view_count : JsNum
  answer_count : JsNum
  creation_date : JsString
  question_id : JsNum
  deriving DecidableEq

/-- The properties a `FeedbackItem` carries besides `title`, `body` and `source`. -/
inductive SourceFields where
  | none : SourceFields
  | github (number : JsNum) (state url created_at updated_at : JsString)
      (labels : List JsString) : SourceFields
  | stackoverflow (tags : List JsString) (link : JsString) (score view_count answer_count : JsNum)
      (creation_date : JsString) (question_id : JsNum) : SourceFields
  deriving DecidableEq

/-- The interface `FeedbackItem` of the AI analyzer. -/
structure FeedbackItem where
  title : JsString
  body : JsString
  source : JsString
  fields : SourceFields := SourceFields.none
  deriving DecidableEq

/-- The query string of a request: `req.query.type`, `req.query.source` and
`req.query.limit`, each `none` when the parameter is absent. -/
structure Query where
  type : Option JsString := none
  source : Option JsString := none
  limit : Option JsString := none
  deriving DecidableEq

/-- The `data` object of a `GET /analyze` response. -/
structure AnalyzeData (ρ : Type) where
  type : JsString
  source : JsString
  total_items : Nat
  github_items : Option Nat := none
  stackoverflow_items : Option Nat := none
  analysis : List ρ

/-- An HTTP response: the status code and the JSON body. -/
structure Response (ρ : Type) where
  status : Nat
  success : Bool
  message : JsString
  data : Option (AnalyzeData ρ) := none
  error : Option JsString := none

/-- Value of the code unit `c` as a digit (`0`-`9`, `a`-`z`, `A`-`Z`). -/
def digitValue (c : Nat) : Option Nat :=
  if 48 ≤ c ∧ c ≤ 57 then some (c - 48)
  else if 97 ≤ c ∧ c ≤ 122 then some (c - 87)
  else if 65 ≤ c ∧ c ≤ 90 then some (c - 55)
  else none

/-- The code unit `c` is a digit of the given radix. -/
def isDigitOf (radix : Nat) (c : Nat) : Bool :=
  match digitValue c with
  | some d => decide (d < radix)
  | none => false

/-- The call `parseInt(input)` without a radix argument; `none` is `NaN`. Leading white space is
skipped, a sign is read, a prefix `0x` or `0X` selects radix 16, and the longest run of
digits is the value. An absent `input` is the string `"undefined"`, which has no digits.
The value is the exact integer (a JavaScript number keeps it exactly up to `2 ^ 53`). -/
def parseInt (input : Option JsString) : Option Int :=
  match input with
  | none => none
  | some s =>
    let s1 := s.dropWhile isWhiteSpace
    let negative := s1.head? = some 45
    let s2 := if s1.head? = some 45 ∨ s1.head? = some 43 then s1.tail else s1
    let hex := s2.take 2 = [48, 120] ∨ s2.take 2 = [48, 88]
    let radix := if hex then 16 else 10
    let s3 := if hex then s2.drop 2 else s2
    let digits := s3.takeWhile (isDigitOf radix)
    if digits = [] then none
    else
      let value : Nat := digits.foldl (fun acc c => acc * radix + (digitValue c).getD 0) 0
      some (if negative then -(value : Int) else (value : Int))

/-- The expression `parseInt(req.query.limit) || 5`. -/
def effectiveLimit (query : Query) : Int :=
  match parseInt query.limit with
  | some n => if n = 0 then 5 else n
  | none => 5

/-- What the route handlers use from outside: the two adapters of `mcpService` (each
maps the limit it is called with to the items it returns) and `batchAnalyzeFeedback`
of the AI analyzer, which resolves with one result per item or rejects with an error
message. -/
structure Services (ρ : Type) where
  ingestGitHubFeedback : Int → List GitHubFeedback
  ingestStackOverflowFeedback : Int → List StackOverflowFeedback
  batchAnalyzeFeedback : List FeedbackItem → JsString → Except JsString (List ρ)

/-- The object literal that turns a fetched GitHub item into a `FeedbackItem`. -/
def ofGitHubFeedback (item : GitHubFeedback) : FeedbackItem :=
  { title := item.title
    body := orElse item.body []
    source := js "github"
    fields := SourceFields.github item.number item.state item.url item.created_at
      item.updated_at item.labels }

/-- The object literal that turns a fetched Stack Overflow item into a `FeedbackItem`. -/
def ofStackOverflowFeedback (item : StackOverflowFeedback) : FeedbackItem :=
  { title := item.title
    body := orElse item.body []
    source := js "stackoverflow"
    fields := SourceFields.stackoverflow item.tags item.link item.score item.view_count
      item.answer_count item.creation_date item.question_id }

/-- The array `feedbackToAnalyze` when the handler reaches its emptiness check: the GitHub items,
if the source is `github` or `all`, followed by the Stack Overflow items, if the source
is `stackoverflow` or `all`. -/
def feedbackToAnalyze {ρ : Type} (services : Services ρ) (query : Query) : List FeedbackItem :=
  let source := orElse query.source (js "all")
  let limit := effectiveLimit query
  (if source = js "github" ∨ source = js "all" then
      (services.ingestGitHubFeedback limit).map ofGitHubFeedback
    else []) ++
  (if source = js "stackoverflow" ∨ source = js "all" then
      (services.ingestStackOverflowFeedback limit).map ofStackOverflowFeedback
    else [])

/-- The end of one request: the response sent, the module-level array `storedAnalyses`
afterwards, and the calls of `batchAnalyzeFeedback` made, with their arguments. -/
structure HandlerOutcome (ρ : Type) where
  response : Response ρ
  storedAnalyses : List ρ
  analyzerCalls : List (List FeedbackItem × JsString)

/-- The handler of `router.get('/analyze', ...)`, run on a request with the given query
while the module-level array holds `storedAnalyses`. -/
def getAnalyze {ρ : Type} (services : Services ρ) (query : Query) (storedAnalyses : List ρ) :
    HandlerOutcome ρ :=
  let type := orElse query.type (js "general")
  let source := orElse query.source (js "all")
  let items := feedbackToAnalyze services query
  if items.length = 0 then
    { response :=
        { status := 404
          success := false
          message := js "No feedback found from specified sources"
          data := some { type := type, source := source, total_items := 0, analysis := [] } }
      storedAnalyses := storedAnalyses
      analyzerCalls := [] }
  else
    match services.batchAnalyzeFeedback items type with
    | Except.ok analysisResults =>
      { response :=
          { status := 200
            success := true
            message := js "Feedback analyzed successfully"
            data := some
              { type := type
                source := source
                total_items := analysisResults.length
                github_items :=
                  some (items.filter (fun item => decide (item.source = js "github"))).length
                stackoverflow_items :=
                  some (items.filter (fun item => decide (item.source = js "stackoverflow"))).length
                analysis := analysisResults } }
        storedAnalyses := storedAnalyses ++ analysisResults
        analyzerCalls := [(items, type)] }
    | Except.error message =>
      { response :=
          { status := 500
            success := false
            message := js "Failed to analyze feedback"
            error := some message }
        storedAnalyses := storedAnalyses
        analyzerCalls := [(items, type)] }

/-- Services for examples: GitHub has one issue, Stack Overflow has nothing, and the
analyzer answers with the titles of the items. -/
def exampleServices : Services JsString :=
  { ingestGitHubFeedback := fun _ =>
      [{ title := js "Crash", body := none, number := JsNum.ofInt 1, state := js "open",
         url := js "u", created_at := js "100", updated_at := js "100", labels := [] }]
    ingestStackOverflowFeedback := fun _ => []
    batchAnalyzeFeedback := fun items _ => Except.ok (items.map (fun item => item.title)) }

/-! ## Definitions that follow the specification's wording -/

/-- Number of occurrences of the word `w` in `text`: the positions of `text` at which
`w` starts. -/
def occurrences (w text : JsString) : Nat :=
  (text.tails.filter (fun t => decide (w <+: t))).length

/-- Number of occurrences in `text` of the words of a keyword table, all words together. -/
def keywordOccurrences (table : List JsString) (text : JsString) : Nat :=
  (table.map (fun w => occurrences w text)).sum

/-- The sentiment read off the numbers of keyword occurrences in the lower-cased text:
positive if there are more positive occurrences, negative if more negative ones,
neutral on a tie. -/
def sentimentByOccurrences (text : JsString) : Sentiment :=
  if keywordOccurrences positiveKeywords (toLowerCase text) >
      keywordOccurrences negativeKeywords (toLowerCase text) then Sentiment.positive
  else if keywordOccurrences negativeKeywords (toLowerCase text) >
      keywordOccurrences positiveKeywords (toLowerCase text) then Sentiment.negative
  else Sentiment.neutral

/-- Two code units of which one is the lower-case form of the other, or that are
equal. -/
def SameLetter (a b : Nat) : Prop :=
  a = b ∨ lowerCodeUnit a = [b] ∨ lowerCodeUnit b = [a]

instance (a b : Nat) : Decidable (SameLetter a b) := by
  unfold SameLetter
  infer_instance

/-- Two strings that differ at most by lower-casing: at every position the two code
units are equal or one is the lower-case form of the other. -/
def CaseVariant (s t : JsString) : Prop := List.Forall₂ SameLetter s t

/-- Code unit `u` is the upper-case form of code unit `l`, as `toUpperCase` gives it:
`A`..`Z` for `a`..`z`, U+00C0..U+00DE for U+00E0..U+00FE (the division sign U+00F7 has
no case), `I` for the dotless i U+0131 and `S` for the long s U+017F. -/
def IsUpperCaseOf (u l : Nat) : Prop :=
  (97 ≤ l ∧ l ≤ 122 ∧ l = u + 32) ∨ (224 ≤ l ∧ l ≤ 254 ∧ l ≠ 247 ∧ l = u + 32) ∨
    (l = 305 ∧ u = 73) ∨ (l = 383 ∧ u = 83)

instance (u l : Nat) : Decidable (IsUpperCaseOf u l) := by
  unfold IsUpperCaseOf
  infer_instance

/-- A change of letter case at one position: `b` is `a`, or one of the two is the
lower-case form of the other, or `b` is the upper-case form of `a`. -/
def CaseChange (a b : Nat) : Prop := SameLetter a b ∨ IsUpperCaseOf b a

instance (a b : Nat) : Decidable (CaseChange a b) := by
  unfold CaseChange
  infer_instance

/-- The string `t` is the string `s` with the letter case of some of its characters
changed. -/
def CaseChanged (s t : JsString) : Prop := List.Forall₂ CaseChange s t

/-- The duplicate-free list of the elements of `xs` in the order of their first
occurrence: the first element, then the rest without it. -/
def firstOccurrences : List JsString → List JsString
  | [] => []
  | x :: xs => x :: (firstOccurrences xs).filter (fun y => decide (y ≠ x))

/-- A title made of three words that reads "bug bug good". -/
def bugBugGood : Item := { title := some (js "bug bug good") }

/-- A title that reads "works" with the Kelvin sign U+212A in the place of the `k`. -/
def kelvinWorks : Item := { title := some (js "wor\u212as") }

/-- A title that reads "fixed" with the dotless i U+0131 in the place of the `i`. -/
def dotlessFixed : Item := { title := some (js "f\u0131xed") }

/-- A title that reads "FIXED", the upper-case form of the title of `dotlessFixed`. -/
def upperFixed : Item := { title := some (js "FIXED") }

/-- Entry `a` is at least as recent as entry `b`: both `created_at` values are valid
dates and the time value of `a` is greater than or equal to that of `b`. -/
def AtLeastAsRecent (getTime : Option JsString → Option Int) (a b : FeedbackAnalysis) : Prop :=
  ∃ ta tb, getTime a.created_at = some ta ∧ getTime b.created_at = some tb ∧ tb ≤ ta

/-- The per-item analyses of two fetched lists, GitHub first: what
`analyzeRecentFeedback` sorts. -/
def perItemAnalyses (githubIssues stackoverflowQuestions : List Item) : List FeedbackAnalysis :=
  githubIssues.map (fun issue => analyzeFeedbackItem issue Source.github) ++
    stackoverflowQuestions.map (fun question => analyzeFeedbackItem question Source.stackoverflow)

/-- A date parser for examples: the date is the decimal number that the string spells
(`none` when the string is missing or spells no number). -/
def exampleGetTime (s : Option JsString) : Option Int :=
  match s with
  | none => none
  | some cs =>
    if cs ≠ [] ∧ cs.all (fun c => decide (48 ≤ c ∧ c ≤ 57)) = true then
      some (cs.foldl (fun acc c => acc * 10 + ((c - 48 : Nat) : Int)) 0)
    else none

/-- Two fetched GitHub issues for examples, created at the times 100 and 300. -/
def exampleIssues : List Item :=
  [{ title := some (js "first"), created_at := some (js "100") },
   { title := some (js "second"), created_at := some (js "300") }]

/-- One fetched Stack Overflow question for examples, created at the time 200. -/
def exampleQuestions : List Item :=
  [{ title := some (js "third"), creation_date := some (js "200") }]

/-- Two fetched GitHub issues for examples: the first has a `created_at` that is no
date, the second was created at the time 300. -/
def undatedThenDated : List Item :=
  [{ title := some (js "undated"), created_at := some (js "soon") },
   { title := some (js "dated"), created_at := some (js "300") }]

/-- Three fetched GitHub issues for examples: created at the time 100, at no valid date
and at the time 300. -/
def datedUndatedDated : List Item :=
  [{ title := some (js "first"), created_at := some (js "100") },
   { title := some (js "undated"), created_at := some (js "soon") },
   { title := some (js "last"), created_at := some (js "300") }]

/-- The `created_at` values of the entries of a result of `analyzeRecentFeedback`, in
order. -/
def createdAts (result : RecentFeedback) : List (Option JsString) :=
  result.analysis.map (fun a => a.created_at)

/-! ## Sign of a number -/

/-- The number `x` is not `NaN` and not negative: `x >= 0` holds. -/
def JsNum.NonNeg (x : JsNum) : Prop := JsNum.ge x (JsNum.ofInt 0) = true

instance (x : JsNum) : Decidable (JsNum.NonNeg x) := by
  unfold JsNum.NonNeg
  infer_instance

/-- A Q&A-style item that was voted down: score -1, no views, no answers. -/
def downvotedQuestion : Item :=
  { score := some (JsNum.ofInt (-1)), view_count := some (JsNum.ofInt 0),
    answer_count := some (JsNum.ofInt 0) }

/-- A tracker-style item that carries a negative `comments` number. -/
def negativeComments : Item := { comments := some (JsNum.ofInt (-1)) }

/-! ## JSON values and objects -/

/-- A value that `JSON.parse` can return. -/
inductive Json where
  | null : Json
  | bool (b : Bool) : Json
  | num (x : JsNum) : Json
  | str (s : JsString) : Json
  | arr (items : List Json) : Json
  | obj (members : List (JsString × Json)) : Json

/-- An object as the sequence of its property definitions, in the order in which they
are made; a later definition of a key overrides an earlier one. -/
abbrev JsObject := List (JsString × Json)

/-- The value of the property `key` of an object: the last definition of `key`, `none`
(that is `undefined`) when there is none. -/
def JsObject.get (o : JsObject) (key : JsString) : Option Json :=
  o.foldl (fun found member => if member.1 = key then some member.2 else found) none

/-- Truthiness of a JSON value: `null`, `false`, `0`, `NaN` and `""` are falsy. -/
def Json.truthy : Json → Bool
  | Json.null => false
  | Json.bool b => b
  | Json.num x => x.truthy
  | Json.str s => !s.isEmpty
  | Json.arr _ => true
  | Json.obj _ => true

/-- The expression `x || d` for a property value `x` that may be `undefined`. -/
def Json.orDefault (x : Option Json) (d : Json) : Json :=
  match x with
  | some v => if v.truthy then v else d
  | none => d

/-- The property key of the array index `i`: its decimal numeral. -/
def indexKey (i : Nat) : JsString := js (Nat.repr i)

/-- The own enumerable properties of a value, which `...value` copies into an object
literal: the members of an object, the indexed elements of an array, the indexed code
units of a string, nothing for a number or a boolean. -/
def Json.ownProperties : Json → JsObject
  | Json.obj members => members
  | Json.arr items => items.enum.map (fun p => (indexKey p.1, p.2))
  | Json.str s => s.enum.map (fun p => (indexKey p.1, Json.str [p.2]))
  | _ => []

/-- The property read `value.key` for one of the property names that
`parseAnalysisResponse` reads (`confidence`, `mainPoints`, `technicalAreas`, `severity`,
`actionItems`); only an object can have such a property. -/
def Json.prop (value : Json) (key : JsString) : Option Json :=
  match value with
  | Json.obj members => JsObject.get members key
  | _ => none

/-! ## AI analyzer (`EnhancedFeedbackAnalyzer`) -/

/-- The `metadata` of an `AnalysisResult`. -/
structure Metadata where
  processingTime : Int
  modelUsed : JsString
  promptTokens : JsNum
  completionTokens : JsNum

/-- The interface `AnalysisResult`. The fields hold what the code stores in them: `type`
is the string given as type, `confidence` is any JSON value, `analysis` is an object. -/
structure AnalysisResult where
  type : JsString
  source : JsString
  confidence : Json
  analysis : JsObject
  metadata : Metadata

/-- The optional argument `usage` of `parseAnalysisResponse`. -/
structure Usage where
  promptTokens : JsNum
  completionTokens : JsNum

/-- The literal `0.8`: the binary64 value nearest to four fifths. -/
def JsNum.fourFifths : JsNum := JsNum.fin 3602879701896397 (-52)

/-- The message of the error that `parseAnalysisResponse` throws. -/
def parseErrorMessage : JsString := js "Failed to parse analysis response"

/-- The method `parseAnalysisResponse(response, type, source, usage?)`. `jsonParse` is
`JSON.parse`, `none` standing for a thrown `SyntaxError`. Reading a property of `null`
throws a `TypeError`. Either error is caught by the `catch` block, which throws the
parse error. `useAzure` is the field of that name. -/
def parseAnalysisResponse (jsonParse : JsString → Option Json) (useAzure : Bool)
    (response type source : JsString) (usage : Option Usage) : Except JsString AnalysisResult :=
  match jsonParse response with
  | none => Except.error parseErrorMessage
  | some Json.null => Except.error parseErrorMessage
  | some parsedResponse =>
    Except.ok
      { type := type
        source := source
        confidence := Json.orDefault (parsedResponse.prop (js "confidence"))
          (Json.num JsNum.fourFifths)
        analysis :=
          [(js "mainPoints", Json.orDefault (parsedResponse.prop (js "mainPoints")) (Json.arr [])),
           (js "technicalAreas",
             Json.orDefault (parsedResponse.prop (js "technicalAreas")) (Json.arr [])),
           (js "severity",
             Json.orDefault (parsedResponse.prop (js "severity")) (Json.str (js "medium"))),
           (js "actionItems",
             Json.orDefault (parsedResponse.prop (js "actionItems")) (Json.arr []))] ++
          parsedResponse.ownProperties
        metadata :=
          { processingTime := 0
            modelUsed := if useAzure then js "azure" else js "openai"
            promptTokens := orZero (usage.map (fun u => u.promptTokens))
            completionTokens := orZero (usage.map (fun u => u.completionTokens)) } }

/-- The interface `PromptTemplate`. -/
structure PromptTemplate where
  systemMessage : JsString
  userMessageTemplate : JsString

/-- The method `createDefaultPrompt()`. -/
def createDefaultPrompt : PromptTemplate :=
  { systemMessage := js (
    "You are an advanced feedback analysis system for Microsoft Teams development.\n" ++
    "Your task is to analyze developer feedback and extract detailed insights using the following framework:\n" ++
    "\n" ++
    "1. PROBLEM IDENTIFICATION\n" ++
    "- Identify core issues/requests\n" ++
    "- Categorize feedback type\n" ++
    "- Assess severity and impact\n" ++
    "\n" ++
    "2. TECHNICAL ANALYSIS\n" ++
    "- Identify affected components\n" ++
    "- Analyze technical dependencies\n" ++
    "- Evaluate implementation complexity\n" ++
    "\n" ++
    "3. USER IMPACT\n" ++
    "- Assess user experience impact\n" ++
    "- Identify affected user segments\n" ++
    "- Evaluate business impact\n" ++
    "\n" ++
    "4. ACTIONABLE INSIGHTS\n" ++
    "- Provide specific recommendations\n" ++
    "- Suggest implementation approaches\n" ++
    "- Identify potential risks\n" ++
    "\n" ++
    "Provide your analysis in a structured JSON format that includes confidence scores and metadata.")
    userMessageTemplate := js (
    "Analyze the following feedback with high attention to detail:\n" ++
    "\n" ++
    "FEEDBACK SOURCE: \x7b\x7bsource\x7d\x7d\n" ++
    "TITLE: \x7b\x7btitle\x7d\x7d\n" ++
    "DESCRIPTION: \x7b\x7bbody\x7d\x7d\n" ++
    "\n" ++
    "Provide a comprehensive analysis including:\n" ++
    "1. Main problem/request identification\n" ++
    "2. Technical impact assessment\n" ++
    "3. User experience implications\n" ++
    "4. Actionable recommendations\n" ++
    "5. Priority and severity assessment") }

/-- The replacement text of `String.prototype.replace` for a string pattern: in the
replacement string `$$` stands for `$`, `$&` for the matched text, and `$` followed by a
backquote or by an apostrophe for the text before or after the match; every other
code unit stands for itself. -/
def expandReplacement (matched before after : JsString) : JsString → JsString
  | [] => []
  | 36 :: 36 :: rest => 36 :: expandReplacement matched before after rest
  | 36 :: 38 :: rest => matched ++ expandReplacement matched before after rest
  | 36 :: 96 :: rest => before ++ expandReplacement matched before after rest
  | 36 :: 39 :: rest => after ++ expandReplacement matched before after rest
  | c :: rest => c :: expandReplacement matched before after rest

/-- The text before and the text after the first occurrence of `pattern` in a string,
`none` when `pattern` does not occur. -/
def splitAtFirst (pattern : JsString) : JsString → Option (JsString × JsString)
  | [] => if pattern = [] then some ([], []) else none
  | c :: rest =>
    if pattern <+: c :: rest then some ([], (c :: rest).drop pattern.length)
    else (splitAtFirst pattern rest).map (fun p => (c :: p.1, p.2))

/-- The call `s.replace(pattern, replacement)` with a string pattern: the first
occurrence of the pattern is replaced. -/
def replace (s pattern replacement : JsString) : JsString :=
  match splitAtFirst pattern s with
  | none => s
  | some (before, after) =>
    before ++ expandReplacement pattern before after replacement ++ after

/-- The method `createAnalysisPrompt(feedback, type)`; `type` is not used. -/
def createAnalysisPrompt (feedback : FeedbackItem) (_type : JsString) : JsString :=
  replace
    (replace
      (replace createDefaultPrompt.userMessageTemplate (js "\x7b\x7bsource\x7d\x7d")
        feedback.source)
      (js "\x7b\x7btitle\x7d\x7d") feedback.title)
    (js "\x7b\x7bbody\x7d\x7d") feedback.body

/-- What `analyzeWithOpenAI` reads from the response of `chat.completions.create`:
`choices[0].message.content` (`none` for `null`) and the two token counts of `usage`
(`none` when `usage` or the count is missing). -/
structure ChatReply where
  content : Option JsString
  prompt_tokens : Option JsNum := none
  completion_tokens : Option JsNum := none

/-- An `EnhancedFeedbackAnalyzer` after its constructor has run: the field `useAzure`,
the client of the selected provider, `JSON.parse`, and `Date.now()` as a reading of the
state of the world. `getCompletions prompt` is the request of `analyzeWithAzure` and
resolves with `choices[0].text`; `chatCompletionsCreate system user` is the request of
`analyzeWithOpenAI`. A request that fails, or whose response has no first choice, is a
rejection. The constructor throws unless the selected client could be made, so the
checks for a missing client never fire. The model names and sampling options of the
requests are constants and are left out. -/
structure Analyzer (σ : Type) where
  useAzure : Bool
  getCompletions : JsString → Operation σ JsString JsString
  chatCompletionsCreate : JsString → JsString → Operation σ JsString ChatReply
  jsonParse : JsString → Option Json
  now : σ → Int

/-- The method `analyzeWithAzure(feedback, type)`. -/
def analyzeWithAzure {σ : Type} (analyzer : Analyzer σ) (feedback : FeedbackItem)
    (type : JsString) : Operation σ JsString AnalysisResult :=
  fun s =>
    match analyzer.getCompletions (createAnalysisPrompt feedback type) s with
    | (Except.ok text, s1) =>
      (parseAnalysisResponse analyzer.jsonParse analyzer.useAzure text type feedback.source none,
        s1)
    | (Except.error e, s1) => (Except.error e, s1)

/-- The method `analyzeWithOpenAI(feedback, type)`. -/
def analyzeWithOpenAI {σ : Type} (analyzer : Analyzer σ) (feedback : FeedbackItem)
    (type : JsString) : Operation σ JsString AnalysisResult :=
  fun s =>
    match analyzer.chatCompletionsCreate createDefaultPrompt.systemMessage
        (createAnalysisPrompt feedback type) s with
    | (Except.ok reply, s1) =>
      (parseAnalysisResponse analyzer.jsonParse analyzer.useAzure (orElse reply.content [])
        type feedback.source
        (some { promptTokens := orZero reply.prompt_tokens
                completionTokens := orZero reply.completion_tokens }),
        s1)
    | (Except.error e, s1) => (Except.error e, s1)

/-- The operation that `analyzeFeedback` hands to `retryOperation`: one request to the
selected provider followed by the parsing of its response. -/
def analysisOperation {σ : Type} (analyzer : Analyzer σ) (feedback : FeedbackItem)
    (type : JsString) : Operation σ JsString AnalysisResult :=
  fun s =>
    if analyzer.useAzure then analyzeWithAzure analyzer feedback type s
    else analyzeWithOpenAI analyzer feedback type s

/-- The end of an `analyzeFeedback` call: the result or the thrown value, the state of
the world, and the trace of the retry loop, in which every `invoke` is one request to
the provider. -/
structure AnalyzeOutcome (σ : Type) where
  result : Except (Option JsString) AnalysisResult
  state : σ
  trace : List RetryEvent

/-- The method `analyzeFeedback(feedback, type)`: the retried operation, the processing
time written into the metadata on success, the error thrown again on failure. -/
def analyzeFeedback {σ : Type} (analyzer : Analyzer σ) (feedback : FeedbackItem)
    (type : JsString) (s : σ) : AnalyzeOutcome σ :=
  let startTime := analyzer.now s
  let run := retryOperation (analysisOperation analyzer feedback type) s
  match run.result with
  | Except.ok result =>
    { result := Except.ok
        { result with
          metadata := { result.metadata with
            processingTime := analyzer.now run.state - startTime } }
      state := run.state
      trace := run.trace }
  | Except.error error => { result := Except.error error, state := run.state, trace := run.trace }

/-- The method `batchAnalyzeFeedback(feedbackItems, type)`: `Promise.all` over the
per-item analyses. `analyzeFeedback item type` is the outcome of the analysis of one
item, a result or the message of the error thrown. The promise resolves with the results
in the order of the items when every analysis succeeds and rejects when one fails (here
with the error of the first failing item of the list). -/
def batchAnalyzeFeedback {ρ : Type}
    (analyzeFeedback : FeedbackItem → JsString → Except JsString ρ) :
    List FeedbackItem → JsString → Except JsString (List ρ)
  | [], _ => Except.ok []
  | item :: rest, type =>
    match analyzeFeedback item type with
    | Except.error e => Except.error e
    | Except.ok result =>
      match batchAnalyzeFeedback analyzeFeedback rest type with
      | Except.error e => Except.error e
      | Except.ok results => Except.ok (result :: results)

/-! ## HTTP routes `GET /analyze/text` and `GET /analyses/view`, and the store -/

/-- The query string of a `GET /analyze/text` request. -/
structure TextQuery where
  text : Option JsString := none
  type : Option JsString := none

/-- A response of `GET /analyze/text`: the status code and the JSON body. -/
structure TextResponse (ρ : Type) where
  status : Nat
  success : Bool
  message : JsString
  type : Option JsString := none
  data : Option ρ := none

/-- The end of one `GET /analyze/text` request: the response sent, the module-level
array `storedAnalyses` afterwards, and the calls of `analyzeFeedback` made, with their
arguments. -/
structure TextOutcome (ρ : Type) where
  response : TextResponse ρ
  storedAnalyses : List ρ
  analyzerCalls : List (FeedbackItem × JsString)

/-- The ternary that validates the type parameter in `GET /analyze/text`. -/
def feedbackType (type : JsString) : JsString :=
  if type = js "bug" ∨ type = js "feature" ∨ type = js "sentiment" then type else js "general"

/-- The handler of `router.get('/analyze/text', ...)`. `analyzeFeedback item type` is the
outcome of `feedbackAnalyzer.analyzeFeedback`: a result or the message of the error
thrown. The destructuring default `type = 'general'` applies to a missing parameter. -/
def getAnalyzeText {ρ : Type} (analyzeFeedback : FeedbackItem → JsString → Except JsString ρ)
    (query : TextQuery) (storedAnalyses : List ρ) : TextOutcome ρ :=
  let type := query.type.getD (js "general")
  if !truthy (query.text.getD []) then
    { response :=
        { status := 400
          success := false
          message := js "Text parameter is required for analysis" }
      storedAnalyses := storedAnalyses
      analyzerCalls := [] }
  else
    let item : FeedbackItem :=
      { title := js "User Provided Feedback", body := query.text.getD [], source := js "user" }
    match analyzeFeedback item (feedbackType type) with
    | Except.ok analysis =>
      { response :=
          { status := 200
            success := true
            message := js "Feedback analyzed successfully"
            type := some (feedbackType type)
            data := some analysis }
        storedAnalyses := storedAnalyses ++ [analysis]
        analyzerCalls := [(item, feedbackType type)] }
    | Except.error message =>
      { response := { status := 400, success := false, message := message }
        storedAnalyses := storedAnalyses
        analyzerCalls := [(item, feedbackType type)] }

/-- The call `xs.slice(-k)`: the last `k` entries, all of them when there are fewer. -/
def sliceLast {α : Type} (xs : List α) (k : Nat) : List α := xs.drop (xs.length - k)

/-- A response of `GET /analyses/view`. -/
structure ViewResponse (ρ : Type) where
  status : Nat
  success : Bool
  message : JsString
  total : Nat
  analyses : List ρ

/-- The end of one `GET /analyses/view` request: the response and the store afterwards. -/
structure ViewOutcome (ρ : Type) where
  response : ViewResponse ρ
  storedAnalyses : List ρ

/-- The handler of `router.get('/analyses/view', ...)` with the window `k` of its `slice`. -/
def analysesView {ρ : Type} (k : Nat) (storedAnalyses : List ρ) : ViewOutcome ρ :=
  let analyses := sliceLast storedAnalyses k
  { response :=
      { status := 200
        success := true
        message := js "Stored analyses retrieved successfully"
        total := analyses.length
        analyses := analyses }
    storedAnalyses := storedAnalyses }

/-- The handler `GET /analyses/view` of `src/routes/feedback.routes.ts`: `slice(-10)`. -/
def getAnalysesView {ρ : Type} (storedAnalyses : List ρ) : ViewOutcome ρ :=
  analysesView 10 storedAnalyses

/-- The handler `GET /analyses/view` of `dist/routes/feedback.js`: `slice(-100)`. -/
def getAnalysesViewDist {ρ : Type} (storedAnalyses : List ρ) : ViewOutcome ρ :=
  analysesView 100 storedAnalyses

/-- A request to one of the three routes of `feedback.routes.ts` that touch the store. -/
inductive Request where
  | analyzeText (query : TextQuery) : Request
  | analyze (query : Query) : Request
  | view : Request

/-- The services of the route handlers when `batchAnalyzeFeedback` is the method of the
analyzer whose per-item outcome is `analyzeFeedback`. -/
def servicesOf {ρ : Type} (ingestGitHubFeedback : Int → List GitHubFeedback)
    (ingestStackOverflowFeedback : Int → List StackOverflowFeedback)
    (analyzeFeedback : FeedbackItem → JsString → Except JsString ρ) : Services ρ :=
  { ingestGitHubFeedback := ingestGitHubFeedback
    ingestStackOverflowFeedback := ingestStackOverflowFeedback
    batchAnalyzeFeedback := batchAnalyzeFeedback analyzeFeedback }

/-- The array `storedAnalyses` after one request has been handled. -/
def storeAfter {ρ : Type} (services : Services ρ)
    (analyzeFeedback : FeedbackItem → JsString → Except JsString ρ)
    (request : Request) (storedAnalyses : List ρ) : List ρ :=
  match request with
  | Request.analyzeText query => (getAnalyzeText analyzeFeedback query storedAnalyses).storedAnalyses
  | Request.analyze query => (getAnalyze services query storedAnalyses).storedAnalyses
  | Request.view => (getAnalysesView storedAnalyses).storedAnalyses

/-- The array `storedAnalyses` after a sequence of requests, handled one after the other. -/
def storeAfterAll {ρ : Type} (services : Services ρ)
    (analyzeFeedback : FeedbackItem → JsString → Except JsString ρ) :
    List Request → List ρ → List ρ
  | [], storedAnalyses => storedAnalyses
  | request :: rest, storedAnalyses =>
    storeAfterAll services analyzeFeedback rest
      (storeAfter services analyzeFeedback request storedAnalyses)

/-- The results that a request adds to the store: the analysis of a successful
`/analyze/text` request, the analyses of a successful `/analyze` request, nothing
otherwise. -/
def resultsOf {ρ : Type} (services : Services ρ)
    (analyzeFeedback : FeedbackItem → JsString → Except JsString ρ) (request : Request) :
    List ρ :=
  match request with
  | Request.analyzeText query =>
    ((getAnalyzeText analyzeFeedback query []).response.data).toList
  | Request.analyze query =>
    match (getAnalyze services query []).response.data with
    | some data => if (getAnalyze services query []).response.success then data.analysis else []
    | none => []
  | Request.view => []

/-- The request succeeded: it was answered with `success: true`. -/
def succeeded {ρ : Type} (services : Services ρ)
    (analyzeFeedback : FeedbackItem → JsString → Except JsString ρ) (request : Request) : Bool :=
  match request with
  | Request.analyzeText query => (getAnalyzeText analyzeFeedback query []).response.success
  | Request.analyze query => (getAnalyze services query []).response.success
  | Request.view => true

/-! ## Examples -/

/-- A stand-in for `JSON.parse` that knows the response texts of the examples: four
JSON texts with the values they denote; every other text, such as `not json` or the
empty text, counts as invalid. -/
def exampleJsonParse (text : JsString) : Option Json :=
  if text = js "\x7b\x7d" then some (Json.obj [])
  else if text = js "\x7b\"confidence\": 5\x7d" then
    some (Json.obj [(js "confidence", Json.num (JsNum.ofInt 5))])
  else if text = js "\x7b\"confidence\": 0\x7d" then
    some (Json.obj [(js "confidence", Json.num (JsNum.ofInt 0))])
  else if text = js "\x7b\"severity\": \"high\", \"impact\": \"wide\"\x7d" then
    some (Json.obj [(js "severity", Json.str (js "high")), (js "impact", Json.str (js "wide"))])
  else none

/-- A JSON value is a number in the closed interval from 0 to 1. -/
def Json.InUnitInterval (value : Json) : Prop :=
  ∃ x, value = Json.num x ∧ JsNum.ge x (JsNum.ofInt 0) = true ∧ JsNum.ge (JsNum.ofInt 1) x = true

/-- An OpenAI-backed analyzer over a call counter whose provider answers every request
with the text `reply` and counts the request. -/
def exampleAnalyzer (reply : JsString) : Analyzer Nat :=
  { useAzure := false
    getCompletions := fun _ n => (Except.ok reply, n + 1)
    chatCompletionsCreate := fun _ _ n => (Except.ok { content := some reply }, n + 1)
    jsonParse := exampleJsonParse
    now := fun n => 1000 * n }

/-- The per-item outcome of `analyzeFeedback` for an analyzer in a given state of the
world: the result, or the message of the thrown error (`'Unknown error'` for a thrown
value that is not an `Error`, as the route handlers put it). -/
def analyzeFeedbackIn {σ : Type} (analyzer : Analyzer σ) (s : σ) (item : FeedbackItem)
    (type : JsString) : Except JsString AnalysisResult :=
  match (analyzeFeedback analyzer item type s).result with
  | Except.ok result => Except.ok result
  | Except.error error => Except.error (error.getD (js "Unknown error"))

/-- A feedback item for examples. -/
def exampleItem : FeedbackItem :=
  { title := js "Crash", body := js "It crashes", source := js "user" }

/-- The provider of the analyzer answers every request for this item and type with a
text that is not valid JSON. -/
def AnswersInvalidJson {σ : Type} (analyzer : Analyzer σ) (feedback : FeedbackItem)
    (type : JsString) : Prop :=
  if analyzer.useAzure then
    ∀ s, ∃ text,
      (analyzer.getCompletions (createAnalysisPrompt feedback type) s).1 = Except.ok text ∧
      analyzer.jsonParse text = none
  else
    ∀ s, ∃ reply,
      (analyzer.chatCompletionsCreate createDefaultPrompt.systemMessage
        (createAnalysisPrompt feedback type) s).1 = Except.ok reply ∧
      analyzer.jsonParse (orElse reply.content []) = none

/-- Services for examples: GitHub has one issue, Stack Overflow has nothing, and the
analyzer is the example analyzer whose provider answers every request with `{}`. -/
def exampleAnalysisServices : Services AnalysisResult :=
  servicesOf exampleServices.ingestGitHubFeedback (fun _ => [])
    (analyzeFeedbackIn (exampleAnalyzer (js "\x7b\x7d")) 0)

/-- An analyzer outcome for examples: every analysis succeeds with the body of the item. -/
def echoBody (item : FeedbackItem) (_type : JsString) : Except JsString JsString :=
  Except.ok item.body

/-- An analyzer outcome for examples: the analysis of an item whose title is `bad`
fails, every other analysis succeeds with the title of the item. -/
def failOnBad (item : FeedbackItem) (_type : JsString) : Except JsString JsString :=
  if item.title = js "bad" then Except.error (js "Failed to parse analysis response")
  else Except.ok item.title

/-- A fetched GitHub item for examples, with the title `good`. -/
def goodIssue : GitHubFeedback :=
  { title := js "good", body := none, number := JsNum.ofInt 1, state := js "open",
    url := js "u1", created_at := js "100", updated_at := js "100", labels := [] }

/-- A fetched GitHub item for examples, with the title `bad`. -/
def badIssue : GitHubFeedback :=
  { title := js "bad", body := none, number := JsNum.ofInt 2, state := js "open",
    url := js "u2", created_at := js "200", updated_at := js "200", labels := [] }

/-- Two fetched GitHub items for examples, the second with the title `bad`. -/
def goodAndBad : List GitHubFeedback := [goodIssue, badIssue]

/-! ## Source adapters (`MCPService.ingestGitHubFeedback`, `ingestStackOverflowFeedback`) -/

/-- A label of an issue in the GitHub payload. -/
structure RawLabel where
  name : JsString
  deriving DecidableEq

/-- An issue of the GitHub payload, with the properties that the mapping reads and the
two counts that it does not read. `body` is `none` for `null`, `labels` is `none` when
the issue has no `labels`; `comments` and `reactions` are the comment count and the
reaction count that the API reports. -/
structure RawGitHubIssue where
  title : JsString
  body : Option JsString
  number : JsNum
  state : JsString
  html_url : JsString
  created_at : JsString
  updated_at : JsString
  labels : Option (List RawLabel)
  comments : Option JsNum := none
  reactions : Option JsNum := none
  deriving DecidableEq

/-- What `ingestGitHubFeedback` reads from a response of `axios.get`: `data`, which is
`none` unless it is an array of issues, and `Number(headers['x-ratelimit-reset'])`. -/
structure GitHubResponse where
  data : Option (List RawGitHubIssue)
  ratelimitReset : JsNum

/-- The parameters of the request of `ingestGitHubFeedback`. -/
structure GitHubRequest where
  state : JsString
  per_page : Int
  sort : JsString
  direction : JsString
  deriving DecidableEq

/-- The expression `limit || d` for an optional integer `limit`. -/
def limitOr (limit : Option Int) (d : Int) : Int :=
  match limit with
  | some n => if n = 0 then d else n
  | none => d

/-- The request that `ingestGitHubFeedback(limit)` sends. -/
def gitHubRequest (limit : Option Int) : GitHubRequest :=
  { state := js "all", per_page := limitOr limit 30, sort := js "updated", direction := js "desc" }

/-- The object literal of the mapping in `ingestGitHubFeedback`. -/
def processIssue (issue : RawGitHubIssue) : GitHubFeedback :=
  { title := issue.title
    body := some (orElse issue.body (js "No description"))
    number := issue.number
    state := issue.state
    url := issue.html_url
    created_at := issue.created_at
    updated_at := issue.updated_at
    labels := (issue.labels.map (fun labels => labels.map (fun label => label.name))).getD [] }

/-- The method `ingestGitHubFeedback(limit?)`. `get` is the request to the GitHub API
(`axios.get`), which resolves with a response or rejects. `toISOString ms` is
`new Date(ms).toISOString()`, `none` when it throws a `RangeError` (the date is
invalid). Whatever is thrown inside the `try` block is caught and `[]` is returned: a
rejected request, the `RangeError` of the rate-limit log line, the `TypeError` of a
payload that is not an array of issues. -/
def ingestGitHubFeedback (toISOString : JsNum → Option JsString)
    (get : GitHubRequest → Except JsString GitHubResponse) (limit : Option Int) :
    List GitHubFeedback :=
  match get (gitHubRequest limit) with
  | Except.error _ => []
  | Except.ok response =>
    match toISOString (JsNum.mul response.ratelimitReset (JsNum.ofInt 1000)) with
    | none => []
    | some _ =>
      match response.data with
      | none => []
      | some issues => issues.map processIssue

/-- A question of the Stack Overflow payload; a property the question does not have is
`none`. -/
structure RawQuestion where
  title : Option JsString := none
  body : Option JsString := none
  tags : Option (List JsString) := none
  link : Option JsString := none
  score : Option JsNum := none
  view_count : Option JsNum := none
  answer_count : Option JsNum := none
  creation_date : Option JsNum := none
  question_id : JsNum
  deriving DecidableEq

/-- What `ingestStackOverflowFeedback` reads from a response of `axios.get`:
`data.items`, which is `none` unless it is an array of questions. -/
structure StackOverflowResponse where
  items : Option (List RawQuestion)

/-- The parameters of the request of `ingestStackOverflowFeedback`. -/
structure StackOverflowRequest where
  site : JsString
  tagged : Option JsString
  sort : JsString
  order : JsString
  pagesize : Int
  filter : JsString
  key : Option JsString
  deriving DecidableEq

/-- The request that `ingestStackOverflowFeedback(tags, limit)` sends; `stackOverflowKey`
is the field of that name, which becomes the parameter `key` when it is not empty. -/
def stackOverflowRequest (stackOverflowKey : Option JsString) (tags : List JsString)
    (limit : Option Int) : StackOverflowRequest :=
  { site := js "stackoverflow"
    tagged := tags.head?
    sort := js "activity"
    order := js "desc"
    pagesize := limitOr limit 30
    filter := js "withbody"
    key := if truthy (stackOverflowKey.getD []) then stackOverflowKey else none }

/-- The object literal of the mapping in `ingestStackOverflowFeedback`; `none` when the
`toISOString()` of the creation date throws. -/
def processQuestion (toISOString : JsNum → Option JsString) (item : RawQuestion) :
    Option StackOverflowFeedback :=
  match toISOString (JsNum.mul (toNumber item.creation_date) (JsNum.ofInt 1000)) with
  | none => none
  | some creation_date =>
    some
      { title := orElse item.title (js "No Title")
        body := some (orElse item.body [])
        tags := item.tags.getD []
        link := orElse item.link []
        score := orZero item.score
        view_count := orZero item.view_count
        answer_count := orZero item.answer_count
        creation_date := creation_date
        question_id := item.question_id }

/-- The call `response.data.items.map(...)` of `ingestStackOverflowFeedback`: the mapped
questions in order, `none` when the mapping of one of them throws. -/
def processQuestions (toISOString : JsNum → Option JsString) :
    List RawQuestion → Option (List StackOverflowFeedback)
  | [] => some []
  | item :: rest =>
    match processQuestion toISOString item with
    | none => none
    | some question =>
      match processQuestions toISOString rest with
      | none => none
      | some questions => some (question :: questions)

/-- The method `ingestStackOverflowFeedback(tags, limit?)`. A response without an
`items` array is answered with `[]`, and so is whatever is thrown inside the `try`
block. -/
def ingestStackOverflowFeedback (toISOString : JsNum → Option JsString)
    (stackOverflowKey : Option JsString)
    (get : StackOverflowRequest → Except JsString StackOverflowResponse)
    (tags : List JsString) (limit : Option Int) : List StackOverflowFeedback :=
  match get (stackOverflowRequest stackOverflowKey tags limit) with
  | Except.error _ => []
  | Except.ok response =>
    match response.items with
    | none => []
    | some items => (processQuestions toISOString items).getD []

/-- A fetched GitHub item as `analyzeFeedbackItem` and `calculateEngagementScore` see it:
the object has no `view_count`, `comments` or `reactions` property. -/
def GitHubFeedback.toItem (item : GitHubFeedback) : Item :=
  { title := some item.title
    body := item.body
    url := some item.url
    created_at := some item.created_at
    labels := some item.labels }

/-- A fetched Stack Overflow item as `analyzeFeedbackItem` and
`calculateEngagementScore` see it. -/
def StackOverflowFeedback.toItem (item : StackOverflowFeedback) : Item :=
  { title := some item.title
    body := item.body
    link := some item.link
    tags := some item.tags
    creation_date := some item.creation_date
    score := some item.score
    view_count := some item.view_count
    answer_count := some item.answer_count }

/-- The creation timestamp that a `FeedbackItem` of `GET /analyze` carries. -/
def FeedbackItem.creationTime (item : FeedbackItem) : Option JsString :=
  match item.fields with
  | SourceFields.github _ _ _ created_at _ _ => some created_at
  | SourceFields.stackoverflow _ _ _ _ _ creation_date _ => some creation_date
  | SourceFields.none => none

/-- A date formatter for examples: the date of a time value that is a number and not
`NaN` is written `date`, the date of `NaN` is invalid. -/
def exampleToISOString (ms : JsNum) : Option JsString :=
  match ms with
  | JsNum.nan => none
  | _ => some (js "date")

/-- A GitHub API for examples: every request is answered with one issue that has a
`null` body, one label, seven comments and three reactions. -/
def exampleGitHubApi (_request : GitHubRequest) : Except JsString GitHubResponse :=
  Except.ok
    { data := some
        [{ title := js "Crash on start", body := none, number := JsNum.ofInt 1,
           state := js "open", html_url := js "u", created_at := js "100",
           updated_at := js "100", labels := some [{ name := js "bug" }],
           comments := some (JsNum.ofInt 7), reactions := some (JsNum.ofInt 3) }]
      ratelimitReset := JsNum.ofInt 1700000000 }

/-- A Stack Overflow API for examples: every request is answered with one question that
has only a creation date and an id. -/
def exampleStackOverflowApi (_request : StackOverflowRequest) :
    Except JsString StackOverflowResponse :=
  Except.ok
    { items := some [{ creation_date := some (JsNum.ofInt 1700000000),
                       question_id := JsNum.ofInt 9 }] }

/-- An API for examples that rejects every request. -/
def failingApi {α β : Type} (_request : α) : Except JsString β :=
  Except.error (js "Request failed with status code 403")

/-- A Stack Overflow API for examples: every request is answered with one question that
has a title and an id but no `creation_date`. -/
def undatedStackOverflowApi (_request : StackOverflowRequest) :
    Except JsString StackOverflowResponse :=
  Except.ok { items := some [{ title := some (js "How to deploy"), question_id := JsNum.ofInt 9 }] }

/-- A GitHub API for examples: every request is answered with one issue, in a response
without the header `x-ratelimit-reset` (`Number(undefined)` is `NaN`). -/
def headerlessGitHubApi (_request : GitHubRequest) : Except JsString GitHubResponse :=
  Except.ok
    { data := some
        [{ title := js "Crash on start", body := none, number := JsNum.ofInt 1,
           state := js "open", html_url := js "u", created_at := js "100",
           updated_at := js "100", labels := none }]
      ratelimitReset := JsNum.nan }

/-- The number that a string of decimal digits spells. -/
def decimalValue (digits : JsString) : Nat :=
  digits.foldl (fun acc c => acc * 10 + (c - 48)) 0

/-- Every code unit of the string is one of the decimal digits `0` to `9`. -/
def AllDecimalDigits (digits : JsString) : Prop := ∀ c ∈ digits, 48 ≤ c ∧ c ≤ 57

instance (digits : JsString) : Decidable (AllDecimalDigits digits) := by
  unfold AllDecimalDigits
  infer_instance

/-! ## Literal placeholder substitution (the specification of `createAnalysisPrompt`) -/

/-- Fixed text of the user message template before the placeholder for the source. -/
def promptBeforeSource : JsString :=
  js "Analyze the following feedback with high attention to detail:\n\nFEEDBACK SOURCE: "

/-- Fixed text of the user message template between the placeholders for the source
and for the title. -/
def promptBeforeTitle : JsString := js "\nTITLE: "

/-- Fixed text of the user message template between the placeholders for the title
and for the body. -/
def promptBeforeBody : JsString := js "\nDESCRIPTION: "

/-- Fixed text of the user message template after the placeholder for the body. -/
def promptAfterBody : JsString :=
  js (
    "\n" ++
    "\n" ++
    "Provide a comprehensive analysis including:\n" ++
    "1. Main problem/request identification\n" ++
    "2. Technical impact assessment\n" ++
    "3. User experience implications\n" ++
    "4. Actionable recommendations\n" ++
    "5. Priority and severity assessment")

/-- The user message as literal substitution gives it: the fixed texts of the
template with source, title and body of the item put between them verbatim. -/
def literalPrompt (feedback : FeedbackItem) : JsString :=
  promptBeforeSource ++ feedback.source ++ promptBeforeTitle ++ feedback.title ++
    promptBeforeBody ++ feedback.body ++ promptAfterBody

/-- The string holds one of the replacement patterns of `String.prototype.replace`: a
`$` followed by `$`, by `&`, by a backquote or by an apostrophe. -/
def hasDollarPattern : JsString → Bool
  | [] => false
  | [_] => false
  | c :: d :: rest =>
    (c = 36 && (d = 36 || d = 38 || d = 96 || d = 39)) || hasDollarPattern (d :: rest)

/-- A feedback item whose title is the two characters `$&`. -/
def dollarTitle : FeedbackItem :=
  { title := js "$&", body := js "It crashes", source := js "github" }

/-- A feedback item whose source holds the placeholder of the title. -/
def placeholderSource : FeedbackItem :=
  { title := js "Crash", body := js "It crashes", source := js "\x7b\x7btitle\x7d\x7d" }

/-! ## Template table of the first analyzer (`dist/services/prompt-templates.js` and
`FeedbackAnalyzer.getPromptTemplate` in `dist/services/feedback-analyzer.js`) -/

/-- The template `feedbackAnalysisPrompt`, the general entry of the table. -/
def feedbackAnalysisPrompt : PromptTemplate :=
  { systemMessage := js (
    "You are an expert feedback analyzer for Microsoft Teams development. Your task is to analyze feedback from developers and extract key insights.\n" ++
    "Focus on:\n" ++
    "1. Main pain points and challenges\n" ++
    "2. Feature requests or suggestions\n" ++
    "3. Technical areas affected\n" ++
    "4. Severity and impact\n" ++
    "5. Potential solutions mentioned\n" ++
    "\n" ++
    "Provide your analysis in a structured JSON format.")
    userMessageTemplate := js (
    "Analyze the following feedback from \x7b\x7bsource\x7d\x7d:\n" ++
    "\n" ++
    "\x7b\x7bfeedback\x7d\x7d\n" ++
    "\n" ++
    "Provide a detailed analysis including:\n" ++
    "- Main issues or requests\n" ++
    "- Technical areas affected\n" ++
    "- Severity (high/medium/low)\n" ++
    "- Type (bug/feature-request/question/documentation)\n" ++
    "- Action items or recommendations") }

/-- The template `bugAnalysisPrompt`. -/
def bugAnalysisPrompt : PromptTemplate :=
  { systemMessage := js (
    "You are a technical bug analyzer for Microsoft Teams development. Your role is to analyze bug reports and identify key technical details.\n" ++
    "Focus on:\n" ++
    "1. Root cause analysis\n" ++
    "2. Affected components\n" ++
    "3. Reproduction steps\n" ++
    "4. Impact and scope\n" ++
    "5. Potential fixes\n" ++
    "\n" ++
    "Provide your analysis in a structured JSON format.")
    userMessageTemplate := js (
    "Analyze the following bug report:\n" ++
    "\n" ++
    "\x7b\x7bfeedback\x7d\x7d\n" ++
    "\n" ++
    "Extract and structure the following information:\n" ++
    "- Bug description\n" ++
    "- Affected components\n" ++
    "- Steps to reproduce\n" ++
    "- Impact level\n" ++
    "- Suggested fixes") }

/-- The template `featureRequestPrompt`. -/
def featureRequestPrompt : PromptTemplate :=
  { systemMessage := js (
    "You are a product analyst for Microsoft Teams development. Your task is to analyze feature requests and provide structured insights.\n" ++
    "Focus on:\n" ++
    "1. Core user need\n" ++
    "2. Use case scenarios\n" ++
    "3. Technical feasibility\n" ++
    "4. Priority assessment\n" ++
    "5. Implementation suggestions\n" ++
    "\n" ++
    "Provide your analysis in a structured JSON format.")
    userMessageTemplate := js (
    "Analyze the following feature request:\n" ++
    "\n" ++
    "\x7b\x7bfeedback\x7d\x7d\n" ++
    "\n" ++
    "Extract and structure the following information:\n" ++
    "- Core requirement\n" ++
    "- Use cases\n" ++
    "- Technical implications\n" ++
    "- Priority level\n" ++
    "- Implementation recommendations") }

/-- The template `sentimentAnalysisPrompt`. -/
def sentimentAnalysisPrompt : PromptTemplate :=
  { systemMessage := js (
    "You are a sentiment analysis expert for developer feedback. Your task is to analyze the emotional tone and satisfaction level in developer feedback.\n" ++
    "Focus on:\n" ++
    "1. Overall sentiment\n" ++
    "2. Specific pain points\n" ++
    "3. Satisfaction indicators\n" ++
    "4. Urgency signals\n" ++
    "5. Developer experience impact\n" ++
    "\n" ++
    "Provide your analysis in a structured JSON format.")
    userMessageTemplate := js (
    "Analyze the sentiment in the following feedback:\n" ++
    "\n" ++
    "\x7b\x7bfeedback\x7d\x7d\n" ++
    "\n" ++
    "Provide a detailed sentiment analysis including:\n" ++
    "- Overall sentiment (positive/negative/neutral)\n" ++
    "- Emotional indicators\n" ++
    "- Satisfaction level\n" ++
    "- Urgency level\n" ++
    "- Key phrases indicating sentiment") }
/-- The method `getPromptTemplate(type)` of the first analyzer: a `switch` over the
type with the general template as the default. -/
def getPromptTemplate (type : JsString) : PromptTemplate :=
  if type = js "bug" then bugAnalysisPrompt
  else if type = js "feature" then featureRequestPrompt
  else if type = js "sentiment" then sentimentAnalysisPrompt
  else feedbackAnalysisPrompt

/-- An OpenAI-backed analyzer whose state of the world is the list of the requests made
so far, each with its system message and its user message; the provider answers every
request with the text of an empty JSON object. -/
def recordingAnalyzer : Analyzer (List (JsString × JsString)) :=
  { useAzure := false
    getCompletions := fun prompt log => (Except.ok (js "\x7b\x7d"), log ++ [([], prompt)])
    chatCompletionsCreate := fun system user log =>
      (Except.ok { content := some (js "\x7b\x7d") }, log ++ [(system, user)])
    jsonParse := exampleJsonParse
    now := fun log => 1000 * log.length }

/-! ## Examples for the order and the status codes of the routes -/

/-- A fetched Stack Overflow item for examples, created at the time 200. -/
def laterQuestion : StackOverflowFeedback :=
  { title := js "later", body := none, tags := [], link := js "l1", score := JsNum.ofInt 0,
    view_count := JsNum.ofInt 0, answer_count := JsNum.ofInt 0, creation_date := js "200",
    question_id := JsNum.ofInt 7 }

/-- An analyzer outcome for examples: every analysis succeeds with the item itself, so
that a result shows which item it is the analysis of. -/
def echoItem (item : FeedbackItem) (_type : JsString) : Except JsString FeedbackItem :=
  Except.ok item

/-- Services for examples: each adapter answers with one item, GitHub with the issue
created at the time 100 and Stack Overflow with the question created at the time 200,
and the analysis of an item is the item. -/
def twoSourceServices : Services FeedbackItem :=
  servicesOf (fun _ => [goodIssue]) (fun _ => [laterQuestion]) echoItem

/-- The query of `GET /analyze?source=all&limit=1`. -/
def limitOneQuery : Query := { source := some (js "all"), limit := some (js "1") }

/-- The creation timestamps of the analysed items of a `GET /analyze` response, in the
order of its `data.analysis`. -/
def creationTimes (response : Response FeedbackItem) : Option (List (Option JsString)) :=
  response.data.map (fun data => data.analysis.map FeedbackItem.creationTime)

/-! ## Theorems: retry policy -/

theorem retryLoop_unfold {σ ε α : Type} (n d : Nat) (op : Operation σ ε α)
    (attempt : Nat) (le : Option ε) (s : σ) (tr : List RetryEvent) :
    retryLoop n d op attempt le s tr =
      if attempt ≤ n then
        match op s with
        | (Except.ok v, s1) => ⟨Except.ok v, s1, tr ++ [RetryEvent.invoke]⟩
        | (Except.error e, s1) =>
          if attempt < n then
            retryLoop n d op (attempt + 1) (some e) s1
              (tr ++ [RetryEvent.invoke, RetryEvent.wait (d * attempt)])
          else
            retryLoop n d op (attempt + 1) (some e) s1 (tr ++ [RetryEvent.invoke])
      else ⟨Except.error le, s, tr⟩ := by
  rw [retryLoop]

theorem retryOperation_three_failures {σ ε α : Type} (operation : Operation σ ε α) (s : σ)
    (e1 e2 e3 : ε)
    (h1 : resultAt operation 0 s = Except.error e1)
    (h2 : resultAt operation 1 s = Except.error e2)
    (h3 : resultAt operation 2 s = Except.error e3) :
    retryOperation operation s =
      ⟨Except.error (some e3), stateAfter operation 3 s,
        [RetryEvent.invoke, RetryEvent.wait 1000, RetryEvent.invoke, RetryEvent.wait 2000,
          RetryEvent.invoke]⟩ := by
  simp only [resultAt, stateAfter] at h1 h2 h3
  rcases hop1 : operation s with ⟨r1, s1⟩
  simp only [hop1] at h1 h2 h3
  subst h1
  rcases hop2 : operation s1 with ⟨r2, s2⟩
  simp only [hop2] at h2 h3
  subst h2
  rcases hop3 : operation s2 with ⟨r3, s3⟩
  simp only [hop3] at h3
  subst h3
  simp [retryOperation, retryAttempts, retryDelay, stateAfter, retryLoop_unfold, hop1, hop2, hop3]

theorem retryOperation_first_success {σ ε α : Type} (operation : Operation σ ε α) (s : σ) (v : α)
    (h1 : resultAt operation 0 s = Except.ok v) :
    retryOperation operation s =
      ⟨Except.ok v, stateAfter operation 1 s, [RetryEvent.invoke]⟩ := by
  simp only [resultAt, stateAfter] at h1
  rcases hop1 : operation s with ⟨r1, s1⟩
  simp only [hop1] at h1
  subst h1
  simp [retryOperation, retryAttempts, retryDelay, stateAfter, retryLoop_unfold, hop1]

theorem retryOperation_second_success {σ ε α : Type} (operation : Operation σ ε α) (s : σ)
    (e1 : ε) (v : α)
    (h1 : resultAt operation 0 s = Except.error e1)
    (h2 : resultAt operation 1 s = Except.ok v) :
    retryOperation operation s =
      ⟨Except.ok v, stateAfter operation 2 s,
        [RetryEvent.invoke, RetryEvent.wait 1000, RetryEvent.invoke]⟩ := by
  simp only [resultAt, stateAfter] at h1 h2
  rcases hop1 : operation s with ⟨r1, s1⟩
  simp only [hop1] at h1 h2
  subst h1
  rcases hop2 : operation s1 with ⟨r2, s2⟩
  simp only [hop2] at h2
  subst h2
  simp [retryOperation, retryAttempts, retryDelay, stateAfter, retryLoop_unfold, hop1, hop2]

theorem retryOperation_third_success {σ ε α : Type} (operation : Operation σ ε α) (s : σ)
    (e1 e2 : ε) (v : α)
    (h1 : resultAt operation 0 s = Except.error e1)
    (h2 : resultAt operation 1 s = Except.error e2)
    (h3 : resultAt operation 2 s = Except.ok v) :
    retryOperation operation s =
      ⟨Except.ok v, stateAfter operation 3 s,
        [RetryEvent.invoke, RetryEvent.wait 1000, RetryEvent.invoke, RetryEvent.wait 2000,
          RetryEvent.invoke]⟩ := by
  simp only [resultAt, stateAfter] at h1 h2 h3
  rcases hop1 : operation s with ⟨r1, s1⟩
  simp only [hop1] at h1 h2 h3
  subst h1
  rcases hop2 : operation s1 with ⟨r2, s2⟩
  simp only [hop2] at h2 h3
  subst h2
  rcases hop3 : operation s2 with ⟨r3, s3⟩
  simp only [hop3] at h3
  subst h3
  simp [retryOperation, retryAttempts, retryDelay, stateAfter, retryLoop_unfold, hop1, hop2, hop3]

/-- C1: an operation that fails on every invocation is invoked exactly three times by
`retryOperation`, which then throws the error of the third invocation; it waits 1000 ms
after the first failure, 2000 ms after the second and not at all after the third. -/
theorem retryOperation_always_failing {σ ε α : Type} (operation : Operation σ ε α) (s : σ)
    (hfail : ∀ n, ∃ e, resultAt operation n s = Except.error e) :
    (∃ e3, resultAt operation 2 s = Except.error e3 ∧
      (retryOperation operation s).result = Except.error (some e3)) ∧
    invocations (retryOperation operation s).trace = 3 ∧
    (retryOperation operation s).trace =
      [RetryEvent.invoke, RetryEvent.wait (1 * 1000), RetryEvent.invoke,
        RetryEvent.wait (2 * 1000), RetryEvent.invoke] := by
  obtain ⟨e1, h1⟩ := hfail 0
  obtain ⟨e2, h2⟩ := hfail 1
  obtain ⟨e3, h3⟩ := hfail 2
  rw [retryOperation_three_failures operation s e1 e2 e3 h1 h2 h3]
  exact ⟨⟨e3, h3, rfl⟩, rfl, rfl⟩

theorem retryOperation_always_failing_witness :
    (∀ n, ∃ e, resultAt (alwaysFail : Operation Nat Nat Unit) n 5 = Except.error e) ∧
    (retryOperation (alwaysFail : Operation Nat Nat Unit) 5).result = Except.error (some 7) ∧
    invocations (retryOperation (alwaysFail : Operation Nat Nat Unit) 5).trace = 3 := by
  have hf : ∀ n, ∃ e, resultAt (alwaysFail : Operation Nat Nat Unit) n 5 = Except.error e :=
    fun n => ⟨_, rfl⟩
  obtain ⟨⟨e3, h3, hr⟩, hi, _⟩ := retryOperation_always_failing alwaysFail 5 hf
  refine ⟨hf, ?_, hi⟩
  rw [hr]
  have : resultAt (alwaysFail : Operation Nat Nat Unit) 2 5 = Except.error 7 := rfl
  rw [this] at h3
  cases h3
  rfl

/-- C2: an operation that fails `k` times (`k ≤ 2`) and then succeeds with `v` makes
`retryOperation` return `v` after exactly `k + 1` invocations, having waited
`1000 * (1 + ... + k)` ms in total; for `k = 2` that is `1 * 1000 + 2 * 1000 = 3000` ms. -/
theorem retryOperation_fails_then_succeeds {σ ε α : Type} (operation : Operation σ ε α) (s : σ)
    (k : Nat) (v : α) (hk : k ≤ 2)
    (hfail : ∀ n, n < k → ∃ e, resultAt operation n s = Except.error e)
    (hok : resultAt operation k s = Except.ok v) :
    (retryOperation operation s).result = Except.ok v ∧
    invocations (retryOperation operation s).trace = k + 1 ∧
    totalDelay (retryOperation operation s).trace = 1000 * (List.range (k + 1)).sum ∧
    (k = 2 → totalDelay (retryOperation operation s).trace = 1 * 1000 + 2 * 1000 ∧
      totalDelay (retryOperation operation s).trace = 3000) := by
  interval_cases k
  · rw [retryOperation_first_success operation s v hok]
    exact ⟨rfl, rfl, rfl, fun h => absurd h (by decide)⟩
  · obtain ⟨e1, h1⟩ := hfail 0 (by decide)
    rw [retryOperation_second_success operation s e1 v h1 hok]
    exact ⟨rfl, rfl, rfl, fun h => absurd h (by decide)⟩
  · obtain ⟨e1, h1⟩ := hfail 0 (by decide)
    obtain ⟨e2, h2⟩ := hfail 1 (by decide)
    rw [retryOperation_third_success operation s e1 e2 v h1 h2 hok]
    exact ⟨rfl, rfl, rfl, fun _ => ⟨rfl, rfl⟩⟩

theorem retryOperation_fails_then_succeeds_witness :
    (retryOperation (failThenSucceed 2 42) 0).result = Except.ok 42 ∧
    invocations (retryOperation (failThenSucceed 2 42) 0).trace = 3 ∧
    totalDelay (retryOperation (failThenSucceed 2 42) 0).trace = 3000 := by
  have h := retryOperation_fails_then_succeeds (failThenSucceed 2 42) 0 2 42 (by decide)
    (fun n hn => by
      interval_cases n
      · exact ⟨0, rfl⟩
      · exact ⟨1, rfl⟩)
    rfl
  exact ⟨h.1, h.2.1, (h.2.2.2 rfl).2⟩

/-! ## Theorems: strings -/

theorem orElse_nil (x : Option JsString) : orElse x [] = x.getD [] := by
  cases x with
  | none => rfl
  | some s =>
    cases s with
    | nil => rfl
    | cons c cs => rfl

theorem mem_dropWhile_of_not {p : Nat → Bool} {c : Nat} (hp : ¬ p c = true) :
    ∀ {s : List Nat}, c ∈ s → c ∈ s.dropWhile p := by
  intro s
  induction s with
  | nil => intro hc; cases hc
  | cons a as ih =>
    intro hc
    by_cases ha : p a = true
    · rw [List.dropWhile_cons_of_pos ha]
      rcases List.mem_cons.1 hc with rfl | h
      · exact absurd ha hp
      · exact ih h
    · rw [List.dropWhile_cons_of_neg ha]
      exact hc

/-- The string `s.trim()` is empty exactly when `s` holds white space only. -/
theorem trim_eq_nil_iff (s : JsString) : trim s = [] ↔ ∀ c ∈ s, isWhiteSpace c = true := by
  unfold trim
  rw [List.reverse_eq_nil_iff, List.dropWhile_eq_nil_iff]
  constructor
  · intro h c hc
    by_contra hws
    exact hws (h c (List.mem_reverse.2 (mem_dropWhile_of_not hws hc)))
  · intro h c hc
    exact h c ((List.dropWhile_suffix _).subset (List.mem_reverse.1 hc))

theorem isWhiteSpace_lf : isWhiteSpace 10 = true := by decide

theorem not_letter_of_isWhiteSpace {c : Nat} (h : isWhiteSpace c = true) : c < 65 ∨ 122 < c := by
  simp only [isWhiteSpace, Bool.or_eq_true, Bool.and_eq_true, decide_eq_true_eq] at h
  omega

/-- The text of an item is blank exactly when its title and its body are. -/
theorem trim_itemText_eq_nil_iff (item : Item) :
    trim (itemText item) = [] ↔
      (∀ c ∈ item.title.getD [], isWhiteSpace c = true) ∧
      (∀ c ∈ item.body.getD [], isWhiteSpace c = true) := by
  rw [trim_eq_nil_iff]
  simp only [itemText, orElse_nil, List.mem_append, List.mem_cons]
  constructor
  · intro h
    exact ⟨fun c hc => h c (Or.inl hc), fun c hc => h c (Or.inr (Or.inr hc))⟩
  · rintro ⟨ht, hb⟩ c (h | rfl | h)
    · exact ht c h
    · exact isWhiteSpace_lf
    · exact hb c h

theorem analyzeFeedbackItem_of_blank (item : Item) (source : Source)
    (h : trim (itemText item) = []) :
    analyzeFeedbackItem item source =
      { source := source
        title := orElse item.title (js "Untitled")
        url := itemUrl item source
        sentiment := Sentiment.neutral
        topics := []
        summary := js "No content available"
        engagement_score := calculateEngagementScore item
        created_at := itemCreatedAt item source } := by
  simp [analyzeFeedbackItem, h, truthy]

theorem analyzeFeedbackItem_of_not_blank (item : Item) (source : Source)
    (h : trim (itemText item) ≠ []) :
    analyzeFeedbackItem item source =
      { source := source
        title := orElse item.title (js "Untitled")
        url := itemUrl item source
        sentiment := sentimentOf (itemText item)
        topics := (allTopics item source).take 5
        summary := orElse (some (summaryOf (itemText item))) (js "No content available")
        engagement_score := calculateEngagementScore item
        created_at := itemCreatedAt item source } := by
  simp [analyzeFeedbackItem, h, truthy]

/-! ## Theorems: heuristic analyzer -/

theorem noContent_ne_error : js "No content available" ≠ js "Error analyzing content" := by
  decide

/-- C5: for an item whose title and body are both empty (or missing, or white space
only), for either source, `analyzeFeedbackItem` answers with sentiment neutral, no
topics and the summary "No content available"; it is a total function, and the answer
is not the one of the `catch` block. -/
theorem analyzeFeedbackItem_blank (item : Item) (source : Source)
    (ht : ∀ c ∈ item.title.getD [], isWhiteSpace c = true)
    (hb : ∀ c ∈ item.body.getD [], isWhiteSpace c = true) :
    (analyzeFeedbackItem item source).sentiment = Sentiment.neutral ∧
    (analyzeFeedbackItem item source).topics = [] ∧
    (analyzeFeedbackItem item source).summary = js "No content available" ∧
    (analyzeFeedbackItem item source).summary ≠ js "Error analyzing content" := by
  rw [analyzeFeedbackItem_of_blank item source ((trim_itemText_eq_nil_iff item).2 ⟨ht, hb⟩)]
  exact ⟨rfl, rfl, rfl, noContent_ne_error⟩

theorem analyzeFeedbackItem_blank_witness :
    (analyzeFeedbackItem { title := some (js " \t"), body := some [] }
      Source.stackoverflow).sentiment = Sentiment.neutral ∧
    (analyzeFeedbackItem { title := some (js " \t"), body := some [] }
      Source.stackoverflow).topics = [] :=
  have h := analyzeFeedbackItem_blank { title := some (js " \t"), body := some [] }
    Source.stackoverflow (by decide) (by decide)
  ⟨h.1, h.2.1⟩

/-- C6, as stated, fails: with the numbers of keyword occurrences, the title
"bug bug good" has two negative occurrences against one positive one, yet the code
answers neutral. -/
theorem sentiment_by_occurrences_fails :
    ¬ ∀ (item : Item) (source : Source), trim (itemText item) ≠ [] →
      (analyzeFeedbackItem item source).sentiment = sentimentByOccurrences (itemText item) := by
  intro h
  exact absurd (h bugBugGood Source.github (by decide)) (by decide)

/-- C6, amended: for an item with non-blank text, let `P` be the number of positive
keywords that occur at least once in the lower-cased title + line feed + body, and `N`
the number of negative keywords that do; the sentiment is positive if `P > N`, negative
if `N > P` and neutral if `P = N`. The statement is made for titles and bodies on which
`toLowerCase` is the Unicode mapping of the program (`InCaseModel`). -/
theorem sentiment_by_keyword_presence (item : Item) (source : Source)
    (h : trim (itemText item) ≠ [])
    (_htitle : InCaseModel (item.title.getD [])) (_hbody : InCaseModel (item.body.getD [])) :
    (analyzeFeedbackItem item source).sentiment =
      if positiveKeywords.countP
            (fun w => decide (w <:+: toLowerCase (item.title.getD [] ++ 10 :: item.body.getD [])))
          > negativeKeywords.countP
            (fun w => decide (w <:+: toLowerCase (item.title.getD [] ++ 10 :: item.body.getD [])))
      then Sentiment.positive
      else if negativeKeywords.countP
            (fun w => decide (w <:+: toLowerCase (item.title.getD [] ++ 10 :: item.body.getD [])))
          > positiveKeywords.countP
            (fun w => decide (w <:+: toLowerCase (item.title.getD [] ++ 10 :: item.body.getD [])))
      then Sentiment.negative
      else Sentiment.neutral := by
  rw [analyzeFeedbackItem_of_not_blank item source h]
  simp only [sentimentOf, positiveCount, negativeCount, includes, itemText, orElse_nil,
    List.countP_eq_length_filter]

theorem sentiment_by_keyword_presence_witness :
    trim (itemText bugBugGood) ≠ [] ∧
    (analyzeFeedbackItem bugBugGood Source.github).sentiment = Sentiment.neutral ∧
    (analyzeFeedbackItem kelvinWorks Source.github).sentiment = Sentiment.positive :=
  ⟨by decide,
    (sentiment_by_keyword_presence bugBugGood Source.github (by decide) (by decide)
      (by decide)).trans (by decide),
    (sentiment_by_keyword_presence kelvinWorks Source.github (by decide) (by decide)
      (by decide)).trans (by decide)⟩

theorem isWhiteSpace_of_letter {c : Nat}
    (h : (65 ≤ c ∧ c ≤ 122) ∨ (192 ≤ c ∧ c ≤ 254) ∨ c = 8490) : isWhiteSpace c = false := by
  cases hw : isWhiteSpace c with
  | false => rfl
  | true =>
    simp only [isWhiteSpace, Bool.or_eq_true, Bool.and_eq_true, decide_eq_true_eq] at hw
    omega

/-- A code unit and its lower-case form have the same lower-case form, and neither or
both are white space. -/
theorem lowerCodeUnit_of_lower {a b : Nat} (h : lowerCodeUnit a = [b]) :
    lowerCodeUnit b = [b] ∧ isWhiteSpace a = isWhiteSpace b := by
  unfold lowerCodeUnit at h
  by_cases h1 : (65 ≤ a ∧ a ≤ 90) ∨ (192 ≤ a ∧ a ≤ 214) ∨ (216 ≤ a ∧ a ≤ 222)
  · rw [if_pos h1] at h
    have hb : b = a + 32 := (List.cons.inj h).1.symm
    subst hb
    have h2 : ¬ ((65 ≤ a + 32 ∧ a + 32 ≤ 90) ∨ (192 ≤ a + 32 ∧ a + 32 ≤ 214) ∨
        (216 ≤ a + 32 ∧ a + 32 ≤ 222)) := by omega
    have h3 : ¬ a + 32 = 304 := by omega
    have h4 : ¬ a + 32 = 8490 := by omega
    refine ⟨by simp only [lowerCodeUnit, if_neg h2, if_neg h3, if_neg h4], ?_⟩
    rw [isWhiteSpace_of_letter (c := a) (by omega), isWhiteSpace_of_letter (c := a + 32) (by omega)]
  · rw [if_neg h1] at h
    by_cases h2 : a = 304
    · rw [if_pos h2] at h
      simp at h
    · rw [if_neg h2] at h
      by_cases h3 : a = 8490
      · rw [if_pos h3] at h
        have hb : b = 107 := (List.cons.inj h).1.symm
        subst hb
        subst h3
        exact ⟨by decide, by decide⟩
      · rw [if_neg h3] at h
        have hb : b = a := (List.cons.inj h).1.symm
        subst hb
        exact ⟨by simp only [lowerCodeUnit, if_neg h1, if_neg h2, if_neg h3], rfl⟩

theorem lower_eq_of_sameLetter {a b : Nat} (h : SameLetter a b) :
    lowerCodeUnit a = lowerCodeUnit b := by
  rcases h with rfl | h | h
  · rfl
  · rw [h, (lowerCodeUnit_of_lower h).1]
  · rw [h, (lowerCodeUnit_of_lower h).1]

theorem isWhiteSpace_eq_of_sameLetter {a b : Nat} (h : SameLetter a b) :
    isWhiteSpace a = isWhiteSpace b := by
  rcases h with rfl | h | h
  · rfl
  · exact (lowerCodeUnit_of_lower h).2
  · exact (lowerCodeUnit_of_lower h).2.symm

/-- Case variants have the same lower-cased form. -/
theorem toLowerCase_eq_of_caseVariant {s t : JsString} (h : CaseVariant s t) :
    toLowerCase s = toLowerCase t := by
  induction h with
  | nil => rfl
  | cons hab _ ih =>
    simp only [toLowerCase, List.flatMap_cons] at ih ⊢
    rw [lower_eq_of_sameLetter hab, ih]

/-- Case variants are blank together. -/
theorem trim_eq_nil_of_caseVariant {s t : JsString} (h : CaseVariant s t) :
    trim s = [] ↔ trim t = [] := by
  rw [trim_eq_nil_iff, trim_eq_nil_iff]
  induction h with
  | nil => simp
  | cons hab _ ih =>
    simp only [List.forall_mem_cons, isWhiteSpace_eq_of_sameLetter hab, ih]

theorem caseVariant_itemText {item item2 : Item}
    (ht : CaseVariant (item.title.getD []) (item2.title.getD []))
    (hb : CaseVariant (item.body.getD []) (item2.body.getD [])) :
    CaseVariant (itemText item) (itemText item2) := by
  simp only [itemText, orElse_nil]
  exact List.rel_append ht (List.Forall₂.cons (Or.inl rfl) hb)

/-- C7, as stated, fails: the title "FIXED" is the title "f\u0131xed" (with the dotless
i U+0131) in upper case, a change of letter case at every position, yet the positive
count goes from 0 to 1 and the sentiment from neutral to positive: the lower-case form
of `I` is `i`, not the dotless i, so only "FIXED" holds the keyword "fixed". -/
theorem upper_casing_changes_count :
    CaseChanged (dotlessFixed.title.getD []) (upperFixed.title.getD []) ∧
    InCaseModel (dotlessFixed.title.getD []) ∧ InCaseModel (upperFixed.title.getD []) ∧
    positiveCount (itemText dotlessFixed) = 0 ∧
    positiveCount (itemText upperFixed) = 1 ∧
    negativeCount (itemText dotlessFixed) = 0 ∧
    negativeCount (itemText upperFixed) = 0 ∧
    (analyzeFeedbackItem dotlessFixed Source.github).sentiment = Sentiment.neutral ∧
    (analyzeFeedbackItem upperFixed Source.github).sentiment = Sentiment.positive := by
  refine ⟨?_, by decide, by decide, by decide, by decide, by decide, by decide, by decide,
    by decide⟩
  show CaseChanged [102, 305, 120, 101, 100] [70, 73, 88, 69, 68]
  exact List.Forall₂.cons (by decide) (List.Forall₂.cons (by decide)
    (List.Forall₂.cons (by decide) (List.Forall₂.cons (by decide)
      (List.Forall₂.cons (by decide) List.Forall₂.nil))))

/-- C7, amended: keyword counting is insensitive to case as far as lower-casing goes.
When title and body of an item are changed, at any of their positions, between a
character and its lower-case form (in either direction: `A`..`Z` and `a`..`z`, the
capital and small letters of Latin-1, the Kelvin sign and `k`), the positive count, the
negative count and the sentiment stay what they were. The statement is made for titles
and bodies on which `toLowerCase` is the Unicode mapping of the program
(`InCaseModel`). -/
theorem keyword_counting_case_insensitive (item item2 : Item) (source : Source)
    (ht : CaseVariant (item.title.getD []) (item2.title.getD []))
    (hb : CaseVariant (item.body.getD []) (item2.body.getD []))
    (_htitle : InCaseModel (item.title.getD [])) (_hbody : InCaseModel (item.body.getD []))
    (_htitle2 : InCaseModel (item2.title.getD []))
    (_hbody2 : InCaseModel (item2.body.getD [])) :
    positiveCount (itemText item2) = positiveCount (itemText item) ∧
    negativeCount (itemText item2) = negativeCount (itemText item) ∧
    (analyzeFeedbackItem item2 source).sentiment = (analyzeFeedbackItem item source).sentiment := by
  have hv := caseVariant_itemText ht hb
  have hlow := toLowerCase_eq_of_caseVariant hv
  have hp : positiveCount (itemText item2) = positiveCount (itemText item) := by
    simp only [positiveCount, hlow]
  have hn : negativeCount (itemText item2) = negativeCount (itemText item) := by
    simp only [negativeCount, hlow]
  refine ⟨hp, hn, ?_⟩
  by_cases hblank : trim (itemText item) = []
  · rw [analyzeFeedbackItem_of_blank item source hblank,
      analyzeFeedbackItem_of_blank item2 source ((trim_eq_nil_of_caseVariant hv).1 hblank)]
  · rw [analyzeFeedbackItem_of_not_blank item source hblank,
      analyzeFeedbackItem_of_not_blank item2 source
        (fun h => hblank ((trim_eq_nil_of_caseVariant hv).2 h))]
    simp only [sentimentOf, hp, hn]

theorem keyword_counting_case_insensitive_witness :
    negativeCount (itemText { title := some (js "BUG") }) =
      negativeCount (itemText { title := some (js "bug") }) :=
  (keyword_counting_case_insensitive { title := some (js "bug") } { title := some (js "BUG") }
    Source.github (by
      show CaseVariant [98, 117, 103] [66, 85, 71]
      exact List.Forall₂.cons (by decide) (List.Forall₂.cons (by decide)
        (List.Forall₂.cons (by decide) List.Forall₂.nil)))
    List.Forall₂.nil (by decide) (by decide) (by decide) (by decide)).2.1

theorem foldl_setSpread (xs acc : List JsString) :
    xs.foldl (fun acc x => if x ∈ acc then acc else acc ++ [x]) acc =
      acc ++ (firstOccurrences xs).filter (fun y => decide (y ∉ acc)) := by
  induction xs generalizing acc with
  | nil => simp [firstOccurrences]
  | cons x xs ih =>
    rw [List.foldl_cons, ih]
    by_cases hx : x ∈ acc
    · rw [if_pos hx]
      simp only [firstOccurrences, List.filter_cons, hx, not_true_eq_false, decide_False,
        List.filter_filter]
      congr 1
      apply List.filter_congr
      intro y _
      by_cases hy : y ∈ acc
      · simp [hy]
      · have : y ≠ x := fun h => hy (h ▸ hx)
        simp [hy, this]
    · rw [if_neg hx]
      simp only [firstOccurrences, List.filter_cons, hx, not_false_eq_true, decide_True,
        List.filter_filter, List.append_assoc, List.singleton_append, if_true]
      congr 2
      apply List.filter_congr
      intro y _
      by_cases hy : y ∈ acc
      · simp [hy]
      · by_cases hyx : y = x
        · simp [hyx]
        · simp [hy, hyx]

/-- Spreading a `Set` built from a list gives the first occurrences of the list. -/
theorem setSpread_eq_firstOccurrences (xs : List JsString) :
    setSpread xs = firstOccurrences xs := by
  unfold setSpread
  rw [foldl_setSpread]
  simp

theorem mem_firstOccurrences (xs : List JsString) (y : JsString) :
    y ∈ firstOccurrences xs ↔ y ∈ xs := by
  induction xs with
  | nil => simp [firstOccurrences]
  | cons x xs ih =>
    simp only [firstOccurrences, List.mem_cons, List.mem_filter, ih, decide_eq_true_eq]
    by_cases h : y = x
    · simp [h]
    · simp [h]

theorem nodup_firstOccurrences (xs : List JsString) : (firstOccurrences xs).Nodup := by
  induction xs with
  | nil => exact List.nodup_nil
  | cons x xs ih =>
    simp only [firstOccurrences]
    refine List.nodup_cons.2 ⟨?_, ih.filter _⟩
    simp [List.mem_filter]

/-- C8: for an item with non-blank text, `topics` is the first 5 elements of the
duplicate-free, first-occurrence-ordered list of the item's tags (Stack Overflow) or
labels (GitHub) followed by the title words: the first 3 of the words, longer than 3
characters, of the lower-cased title split on white space and hyphens. So `topics` has
at most 5 entries and no entry twice. The statement is made for titles on which
`toLowerCase` is the Unicode mapping of the program (`InCaseModel`); tags and labels are
not lower-cased and may be any strings. -/
theorem topics_spec (item : Item) (source : Source) (h : trim (itemText item) ≠ [])
    (_htitle : InCaseModel (item.title.getD [])) :
    (analyzeFeedbackItem item source).topics =
      (firstOccurrences
        ((match source with
          | Source.stackoverflow => item.tags.getD []
          | Source.github => item.labels.getD []) ++
          ((splitTitle (toLowerCase (item.title.getD []))).filter
            (fun word => decide (word.length > 3))).take 3)).take 5 ∧
    (analyzeFeedbackItem item source).topics.length ≤ 5 ∧
    (analyzeFeedbackItem item source).topics.Nodup := by
  rw [analyzeFeedbackItem_of_not_blank item source h]
  simp only [allTopics, setSpread_eq_firstOccurrences, explicitTopics, titleWords, orElse_nil]
  refine ⟨?_, ?_, ?_⟩
  · cases source <;> trivial
  · exact (List.length_take_le _ _)
  · exact (nodup_firstOccurrences _).sublist (List.take_sublist _ _)

theorem topics_spec_witness :
    (analyzeFeedbackItem
      { title := some (js "Teams BUG crash-report  when loading"),
        tags := some [js "teams", js "report"] } Source.stackoverflow).topics =
      [js "teams", js "report", js "crash"] ∧
    (analyzeFeedbackItem
      { title := some (js "\u00c9COLE teams \u0130yi"),
        tags := some [js "\u00e9cole"] } Source.stackoverflow).topics =
      [js "\u00e9cole", js "teams", js "i\u0307yi"] :=
  ⟨(topics_spec
    { title := some (js "Teams BUG crash-report  when loading"),
      tags := some [js "teams", js "report"] } Source.stackoverflow (by decide)
      (by decide)).1.trans (by decide),
    (topics_spec
    { title := some (js "\u00c9COLE teams \u0130yi"),
      tags := some [js "\u00e9cole"] } Source.stackoverflow (by decide)
      (by decide)).1.trans (by decide)⟩

theorem splitLines_ne_nil (s : JsString) : splitLines s ≠ [] := by
  cases s with
  | nil => simp [splitLines]
  | cons c rest =>
    simp only [splitLines]
    split_ifs
    · simp
    · cases splitLines rest <;> simp

/-- Every code unit of a text other than the line feed lies on one of its lines. -/
theorem mem_splitLines (s : JsString) (c : Nat) (hc : c ∈ s) (hlf : c ≠ 10) :
    ∃ line ∈ splitLines s, c ∈ line := by
  induction s with
  | nil => cases hc
  | cons a rest ih =>
    simp only [splitLines]
    by_cases ha : a = 10
    · rw [if_pos ha]
      rcases List.mem_cons.1 hc with rfl | h
      · exact absurd ha hlf
      · obtain ⟨line, hl, hcl⟩ := ih h
        exact ⟨line, List.mem_cons_of_mem _ hl, hcl⟩
    · rw [if_neg ha]
      rcases List.mem_cons.1 hc with rfl | h
      · cases splitLines rest with
        | nil => exact ⟨[c], by simp, by simp⟩
        | cons l ls => exact ⟨c :: l, by simp, by simp⟩
      · obtain ⟨line, hl, hcl⟩ := ih h
        cases hs : splitLines rest with
        | nil => rw [hs] at hl; cases hl
        | cons l ls =>
          rw [hs] at hl
          rcases List.mem_cons.1 hl with rfl | hl2
          · exact ⟨a :: line, by simp, List.mem_cons_of_mem _ hcl⟩
          · exact ⟨line, List.mem_cons_of_mem _ hl2, hcl⟩

/-- The lines of a text, put together again with line feeds, are the text. -/
theorem intercalate_splitLines (s : JsString) : [10].intercalate (splitLines s) = s := by
  induction s with
  | nil => simp [splitLines, List.intercalate]
  | cons a rest ih =>
    simp only [splitLines]
    by_cases ha : a = 10
    · rw [if_pos ha]
      have hne := splitLines_ne_nil rest
      cases hs : splitLines rest with
      | nil => exact absurd hs hne
      | cons l ls =>
        rw [hs] at ih
        subst ha
        simp only [List.intercalate, List.intersperse_cons_cons, List.flatten_cons,
          List.nil_append, List.singleton_append] at ih ⊢
        rw [ih]
    · rw [if_neg ha]
      have hne := splitLines_ne_nil rest
      cases hs : splitLines rest with
      | nil => exact absurd hs hne
      | cons l ls =>
        rw [hs] at ih
        cases ls with
        | nil =>
          simp only [List.intercalate, List.intersperse_singleton, List.flatten_cons, List.flatten_nil,
            List.append_nil] at ih ⊢
          rw [ih]
        | cons l2 ls2 =>
          simp only [List.intercalate, List.intersperse_cons_cons, List.flatten_cons,
            List.cons_append] at ih ⊢
          rw [ih]

theorem joinSpace_ne_nil (p : JsString) (ps : List JsString) (hp : p ≠ []) :
    joinSpace (p :: ps) ≠ [] := by
  cases ps with
  | nil => simpa [joinSpace] using hp
  | cons q rest => simp [joinSpace, hp]

/-- The summary of a non-blank text is not empty, so the `||` fallback is not taken. -/
theorem summaryOf_ne_nil (text : JsString) (h : trim text ≠ []) : summaryOf text ≠ [] := by
  have hex : ∃ c ∈ text, ¬ isWhiteSpace c = true := by
    by_contra hno
    push_neg at hno
    exact h ((trim_eq_nil_iff text).2 hno)
  obtain ⟨c, hc, hws⟩ := hex
  have hlf : c ≠ 10 := fun h10 => hws (h10 ▸ isWhiteSpace_lf)
  obtain ⟨line, hline, hcl⟩ := mem_splitLines text c hc hlf
  have hkeep : truthy (trim line) = true := by
    have : trim line ≠ [] := fun hn => hws ((trim_eq_nil_iff line).1 hn c hcl)
    cases htl : trim line with
    | nil => exact absurd htl this
    | cons _ _ => rfl
  have hmem : line ∈ (splitLines text).filter (fun line => truthy (trim line)) :=
    List.mem_filter.2 ⟨hline, hkeep⟩
  unfold summaryOf
  cases hf : (splitLines text).filter (fun line => truthy (trim line)) with
  | nil => rw [hf] at hmem; cases hmem
  | cons p ps =>
    have hp : truthy (trim p) = true := by
      have : p ∈ (splitLines text).filter (fun line => truthy (trim line)) := by
        rw [hf]; exact List.mem_cons_self _ _
      exact (List.mem_filter.1 this).2
    have hpne : p ≠ [] := by
      rintro rfl
      simp [trim, truthy] at hp
    have hj : joinSpace ((p :: ps).take 2) ≠ [] := by
      rw [show (p :: ps).take 2 = p :: ps.take 1 from rfl]
      exact joinSpace_ne_nil p _ hpne
    cases hjj : joinSpace ((p :: ps).take 2) with
    | nil => exact absurd hjj hj
    | cons x xs => simp

/-- C9: for an item with non-blank text, `summary` is the first two non-blank lines of
title + line feed + body, joined by a single space and cut to its first 200 characters;
so it is at most 200 characters long. -/
theorem summary_spec (item : Item) (source : Source) (h : trim (itemText item) ≠ []) :
    (analyzeFeedbackItem item source).summary =
      (joinSpace
        (((splitLines (item.title.getD [] ++ 10 :: item.body.getD [])).filter
          (fun line => decide (trim line ≠ []))).take 2)).take 200 ∧
    (analyzeFeedbackItem item source).summary.length ≤ 200 := by
  rw [analyzeFeedbackItem_of_not_blank item source h]
  have hne := summaryOf_ne_nil (itemText item) h
  have hs : orElse (some (summaryOf (itemText item))) (js "No content available") =
      summaryOf (itemText item) := by
    cases hsum : summaryOf (itemText item) with
    | nil => exact absurd hsum hne
    | cons x xs => rfl
  simp only [hs]
  have hfilter : (fun line : JsString => truthy (trim line)) =
      (fun line : JsString => decide (trim line ≠ [])) := by
    funext line
    cases trim line <;> simp [truthy]
  refine ⟨?_, ?_⟩
  · simp only [summaryOf, itemText, orElse_nil, hfilter]
  · simp only [summaryOf]
    exact List.length_take_le _ _

theorem summary_spec_witness :
    (analyzeFeedbackItem { title := some (js "Crash"), body := some (js " \n\non start\nagain") }
      Source.github).summary = js "Crash on start" :=
  (summary_spec { title := some (js "Crash"), body := some (js " \n\non start\nagain") }
    Source.github (by decide)).1.trans (by decide)

/-! ## Theorems: engagement score -/

theorem bitLengthAux_zero (fuel : Nat) : JsNum.bitLengthAux fuel 0 = 0 := by
  cases fuel <;> simp [JsNum.bitLengthAux]

theorem bitLengthAux_spec (fuel : Nat) : ∀ a : Nat, a ≤ fuel →
    a < 2 ^ JsNum.bitLengthAux fuel a ∧ (a ≠ 0 → 2 ^ (JsNum.bitLengthAux fuel a - 1) ≤ a) := by
  induction fuel with
  | zero =>
    intro a ha
    have : a = 0 := by omega
    subst this
    simp [JsNum.bitLengthAux]
  | succ fuel ih =>
    intro a ha
    by_cases h0 : a = 0
    · subst h0
      simp [JsNum.bitLengthAux]
    · have hhalf : a / 2 ≤ fuel := by omega
      obtain ⟨hup, hlow⟩ := ih (a / 2) hhalf
      simp only [JsNum.bitLengthAux, if_neg h0, Nat.add_sub_cancel]
      refine ⟨?_, fun _ => ?_⟩
      · rw [pow_succ]
        omega
      · by_cases h2 : a / 2 = 0
        · rw [h2, bitLengthAux_zero]
          simp only [pow_zero]
          omega
        · have hl := hlow h2
          have hpos : JsNum.bitLengthAux fuel (a / 2) ≠ 0 := by
            intro hz
            rw [hz] at hup
            simp only [pow_zero] at hup
            omega
          have hsplit : JsNum.bitLengthAux fuel (a / 2) =
              (JsNum.bitLengthAux fuel (a / 2) - 1) + 1 := by omega
          rw [hsplit, pow_succ]
          omega

/-- The bit length is the position of the leading binary digit:
`2 ^ (bitLength a - 1) ≤ a < 2 ^ bitLength a` for `a ≠ 0`. -/
theorem bitLength_spec (a : Nat) (h : a ≠ 0) :
    2 ^ (JsNum.bitLength a - 1) ≤ a ∧ a < 2 ^ JsNum.bitLength a :=
  ⟨(bitLengthAux_spec a a (Nat.le_refl a)).2 h, (bitLengthAux_spec a a (Nat.le_refl a)).1⟩

/-- The constant `hundredth` is a 53-bit significand at exponent `-59` and lies within
half a unit in the last place of one hundredth: it is the binary64 value of `0.01`. -/
theorem hundredth_nearest :
    ∃ m : Int, JsNum.hundredth = JsNum.fin m (-59) ∧ 2 ^ 52 ≤ m ∧ m < 2 ^ 53 ∧
      |100 * m - 2 ^ 59| * 2 ≤ 100 :=
  ⟨5764607523034235, rfl, by norm_num, by norm_num, by norm_num⟩

theorem orZero_of_truthy (v : JsNum) (h : v.truthy = true ∨ v = JsNum.ofInt 0) :
    orZero (some v) = v := by
  rcases h with h | rfl
  · simp [orZero, h]
  · rfl

/-- C10: for a Q&A-style item (one with a `view_count` property) the engagement score
is `score * 2 + view_count * 0.01 + answer_count * 3` in binary64 arithmetic, and the
item with score 10, view_count 200 and answer_count 2 gets 28; for a tracker-style item
it is `comments * 2 + reactions`, a missing `comments` or `reactions` counting as 0. -/
theorem calculateEngagementScore_spec (item : Item) :
    (∀ s v a, item.score = some s → item.view_count = some v → item.answer_count = some a →
      calculateEngagementScore item =
        JsNum.add (JsNum.add (JsNum.mul s (JsNum.ofInt 2)) (JsNum.mul v JsNum.hundredth))
          (JsNum.mul a (JsNum.ofInt 3))) ∧
    (item.score = some (JsNum.ofInt 10) → item.view_count = some (JsNum.ofInt 200) →
      item.answer_count = some (JsNum.ofInt 2) →
      calculateEngagementScore item = JsNum.ofInt 28) ∧
    (item.view_count = none →
      (∀ v, item.comments = some v → v.truthy = true ∨ v = JsNum.ofInt 0) →
      (∀ v, item.reactions = some v → v.truthy = true ∨ v = JsNum.ofInt 0) →
      calculateEngagementScore item =
        JsNum.add (JsNum.mul (item.comments.getD (JsNum.ofInt 0)) (JsNum.ofInt 2))
          (item.reactions.getD (JsNum.ofInt 0))) := by
  refine ⟨?_, ?_, ?_⟩
  · intro s v a hs hv ha
    simp [calculateEngagementScore, hs, hv, ha, toNumber]
  · intro hs hv ha
    simp only [calculateEngagementScore, hs, hv, ha, toNumber, Option.isSome_some, if_true]
    decide
  · intro hv hc hr
    have hcz : orZero item.comments = item.comments.getD (JsNum.ofInt 0) := by
      cases hco : item.comments with
      | none => rfl
      | some v => exact orZero_of_truthy v (hc v hco)
    have hrz : orZero item.reactions = item.reactions.getD (JsNum.ofInt 0) := by
      cases hre : item.reactions with
      | none => rfl
      | some v => exact orZero_of_truthy v (hr v hre)
    simp [calculateEngagementScore, hv, hcz, hrz]

theorem calculateEngagementScore_spec_witness :
    calculateEngagementScore
        { score := some (JsNum.ofInt 10), view_count := some (JsNum.ofInt 200),
          answer_count := some (JsNum.ofInt 2) } = JsNum.ofInt 28 ∧
    calculateEngagementScore { comments := some (JsNum.ofInt 4) } = JsNum.ofInt 8 :=
  ⟨(calculateEngagementScore_spec
      { score := some (JsNum.ofInt 10), view_count := some (JsNum.ofInt 200),
        answer_count := some (JsNum.ofInt 2) }).2.1 rfl rfl rfl,
    ((calculateEngagementScore_spec { comments := some (JsNum.ofInt 4) }).2.2 rfl
      (fun v hv => by cases hv; exact Or.inl (by decide))
      (fun v hv => by cases hv)).trans (by decide)⟩

/-! ## Theorems: aggregation -/

theorem sortInsert_perm {α : Type} (cmp : α → α → Int) (x : α) (l : List α) :
    (sortInsert cmp x l).Perm (x :: l) := by
  induction l with
  | nil => exact List.Perm.refl _
  | cons y ys ih =>
    simp only [sortInsert]
    split_ifs
    · exact List.Perm.refl _
    · exact ((List.Perm.cons y ih).trans (List.Perm.swap x y ys))

/-- Sorting permutes. -/
theorem sortBy_perm {α : Type} (cmp : α → α → Int) (l : List α) : (sortBy cmp l).Perm l := by
  induction l with
  | nil => exact List.Perm.refl _
  | cons x xs ih =>
    simp only [sortBy]
    exact (sortInsert_perm cmp x _).trans (List.Perm.cons x ih)

theorem sortInsert_pairwise {α : Type} (cmp : α → α → Int) (key : α → Int) (x : α) (l : List α)
    (hcmp : ∀ a ∈ x :: l, ∀ b ∈ x :: l, cmp a b = key b - key a)
    (hl : l.Pairwise (fun a b => key b ≤ key a)) :
    (sortInsert cmp x l).Pairwise (fun a b => key b ≤ key a) := by
  induction l with
  | nil => simp [sortInsert]
  | cons y ys ih =>
    have hxy : cmp x y = key y - key x :=
      hcmp x (List.mem_cons_self _ _) y (List.mem_cons_of_mem _ (List.mem_cons_self _ _))
    simp only [sortInsert]
    rcases List.pairwise_cons.1 hl with ⟨hy, hys⟩
    by_cases hle : cmp x y ≤ 0
    · rw [if_pos hle]
      refine List.pairwise_cons.2 ⟨?_, hl⟩
      intro b hb
      rcases List.mem_cons.1 hb with rfl | hb2
      · omega
      · have := hy b hb2
        omega
    · rw [if_neg hle]
      have ih2 := ih (fun a ha b hb => hcmp a (by
          rcases List.mem_cons.1 ha with rfl | h
          · exact List.mem_cons_self _ _
          · exact List.mem_cons_of_mem _ (List.mem_cons_of_mem _ h)) b (by
          rcases List.mem_cons.1 hb with rfl | h
          · exact List.mem_cons_self _ _
          · exact List.mem_cons_of_mem _ (List.mem_cons_of_mem _ h))) hys
      refine List.pairwise_cons.2 ⟨?_, ih2⟩
      intro b hb
      rcases List.mem_cons.1 ((sortInsert_perm cmp x ys).subset hb) with rfl | hb2
      · omega
      · exact hy b hb2

/-- Sorting under a comparator that is the difference of a key on the entries of the
list gives a list that is ordered by the key, greatest first. -/
theorem sortBy_pairwise {α : Type} (cmp : α → α → Int) (key : α → Int) (l : List α)
    (hcmp : ∀ a ∈ l, ∀ b ∈ l, cmp a b = key b - key a) :
    (sortBy cmp l).Pairwise (fun a b => key b ≤ key a) := by
  induction l with
  | nil => simp [sortBy]
  | cons x xs ih =>
    simp only [sortBy]
    have ihx := ih (fun a ha b hb => hcmp a (List.mem_cons_of_mem _ ha) b
      (List.mem_cons_of_mem _ hb))
    refine sortInsert_pairwise cmp key x _ ?_ ihx
    intro a ha b hb
    have hsub : ∀ c, c ∈ x :: sortBy cmp xs → c ∈ x :: xs := by
      intro c hc
      rcases List.mem_cons.1 hc with rfl | h
      · exact List.mem_cons_self _ _
      · exact List.mem_cons_of_mem _ ((sortBy_perm cmp xs).subset h)
    exact hcmp a (hsub a ha) b (hsub b hb)

theorem analyzeRecentFeedback_analysis (getTime : Option JsString → Option Int)
    (ingestGitHubFeedback ingestStackOverflowFeedback : Int → List Item) (limit : Int) :
    (analyzeRecentFeedback getTime ingestGitHubFeedback ingestStackOverflowFeedback
      (some limit)).analysis =
      sliceTo (sortBy (compareCreatedAt getTime)
        (perItemAnalyses (ingestGitHubFeedback limit) (ingestStackOverflowFeedback limit))) limit :=
  rfl

theorem not_pairwise_of_invalid (getTime : Option JsString → Option Int)
    (analysis : List FeedbackAnalysis) (first : Option JsString)
    (h : analysis.map (fun a => a.created_at) = [first, some (js "soon")])
    (hsoon : getTime (some (js "soon")) = none) :
    ¬ analysis.Pairwise (AtLeastAsRecent getTime) := by
  cases analysis with
  | nil => simp at h
  | cons x rest =>
    cases rest with
    | nil => simp at h
    | cons y rest2 =>
      simp only [List.map_cons, List.cons.injEq] at h
      intro hpw
      obtain ⟨_, tb, _, hb, _⟩ := (List.pairwise_cons.1 hpw).1 y (List.mem_cons_self _ _)
      rw [h.2.1, hsoon] at hb
      exact absurd hb (by simp)

/-- C3, as stated, fails when a fetched item has a `created_at` that is no valid date
(the comparator then answers `NaN`, which the sort takes for "equal"). With the two
issues "undated" (no valid date) and "dated" (time 300) and the limit 1, the one entry
returned is the undated issue and the issue of time 300 is left out. With the three
issues of the times 100, no valid date, 300 and the limit 2, the entries returned are
those of time 100 and of no valid date, in this order: the list is not sorted by
`created_at` descending and the most recent issue is missing. -/
theorem invalid_date_breaks_order :
    exampleGetTime (some (js "soon")) = none ∧
    createdAts (analyzeRecentFeedback exampleGetTime (fun _ => undatedThenDated) (fun _ => [])
      (some 1)) = [some (js "soon")] ∧
    createdAts (analyzeRecentFeedback exampleGetTime (fun _ => datedUndatedDated) (fun _ => [])
      (some 2)) = [some (js "100"), some (js "soon")] ∧
    ¬ (analyzeRecentFeedback exampleGetTime (fun _ => datedUndatedDated) (fun _ => [])
      (some 2)).analysis.Pairwise (AtLeastAsRecent exampleGetTime) := by
  have h3 : createdAts (analyzeRecentFeedback exampleGetTime (fun _ => datedUndatedDated)
      (fun _ => []) (some 2)) = [some (js "100"), some (js "soon")] := by decide
  exact ⟨by decide, by decide, h3, not_pairwise_of_invalid exampleGetTime _ _ h3 (by decide)⟩

/-- C3, amended: for every pair of fetched item lists with `N` items in total and every
limit `L` with `0 ≤ L ≤ N`, the analysis list that `analyzeRecentFeedback` returns has exactly
`min L N` entries and, together with some list `rest`, is a permutation of the `N`
per-item analyses; when the `created_at` values are valid dates, so that every entry has
a timestamp, it is sorted by `created_at` descending (every entry is at least as recent
as every later one) and consists of the `L` most recent analyses (each of its entries is
at least as recent as each entry of `rest`). -/
theorem analyzeRecentFeedback_sorted_truncated (getTime : Option JsString → Option Int)
    (ingestGitHubFeedback ingestStackOverflowFeedback : Int → List Item) (L : Int)
    (hL : 0 ≤ L)
    (hLN : L ≤ ((ingestGitHubFeedback L).length + (ingestStackOverflowFeedback L).length : Nat)) :
    ((analyzeRecentFeedback getTime ingestGitHubFeedback ingestStackOverflowFeedback
        (some L)).analysis.length : Int) =
      min L ((ingestGitHubFeedback L).length + (ingestStackOverflowFeedback L).length : Nat) ∧
    ∃ rest,
      ((analyzeRecentFeedback getTime ingestGitHubFeedback ingestStackOverflowFeedback
        (some L)).analysis ++ rest).Perm
        (perItemAnalyses (ingestGitHubFeedback L) (ingestStackOverflowFeedback L)) ∧
      ((∀ a ∈ perItemAnalyses (ingestGitHubFeedback L) (ingestStackOverflowFeedback L),
          getTime a.created_at ≠ none) →
        (analyzeRecentFeedback getTime ingestGitHubFeedback ingestStackOverflowFeedback
          (some L)).analysis.Pairwise (AtLeastAsRecent getTime) ∧
        ∀ a ∈ (analyzeRecentFeedback getTime ingestGitHubFeedback ingestStackOverflowFeedback
          (some L)).analysis, ∀ b ∈ rest, AtLeastAsRecent getTime a b) := by
  rw [analyzeRecentFeedback_analysis]
  set all := perItemAnalyses (ingestGitHubFeedback L) (ingestStackOverflowFeedback L) with hall
  have hlen : all.length =
      (ingestGitHubFeedback L).length + (ingestStackOverflowFeedback L).length := by
    simp [hall, perItemAnalyses]
  rw [← hlen] at hLN ⊢
  set sorted := sortBy (compareCreatedAt getTime) all with hsorted
  have hperm : sorted.Perm all := sortBy_perm _ _
  have hslice : sliceTo sorted L = sorted.take L.toNat := by
    simp [sliceTo, not_lt.2 hL]
  rw [hslice]
  have hsplit : sorted.take L.toNat ++ sorted.drop L.toNat = sorted := List.take_append_drop _ _
  refine ⟨?_, sorted.drop L.toNat, ?_, ?_⟩
  · rw [List.length_take, hperm.length_eq]
    omega
  · rw [hsplit]
    exact hperm
  intro hvalid
  have hcmp : ∀ a ∈ all, ∀ b ∈ all, compareCreatedAt getTime a b =
      (getTime b.created_at).getD 0 - (getTime a.created_at).getD 0 := by
    intro a ha b hb
    have hva := hvalid a ha
    have hvb := hvalid b hb
    cases hta : getTime a.created_at with
    | none => exact absurd hta hva
    | some ta =>
      cases htb : getTime b.created_at with
      | none => exact absurd htb hvb
      | some tb => simp [compareCreatedAt, hta, htb]
  have hpw : sorted.Pairwise
      (fun a b => (getTime b.created_at).getD 0 ≤ (getTime a.created_at).getD 0) :=
    sortBy_pairwise _ _ all hcmp
  have hrecent : ∀ a ∈ sorted, ∀ b ∈ sorted,
      (getTime b.created_at).getD 0 ≤ (getTime a.created_at).getD 0 →
      AtLeastAsRecent getTime a b := by
    intro a ha b hb hle
    have hva := hvalid a (hperm.subset ha)
    have hvb := hvalid b (hperm.subset hb)
    cases hta : getTime a.created_at with
    | none => exact absurd hta hva
    | some ta =>
      cases htb : getTime b.created_at with
      | none => exact absurd htb hvb
      | some tb =>
        rw [hta, htb] at hle
        exact ⟨ta, tb, hta, htb, hle⟩
  refine ⟨?_, ?_⟩
  · have htake : (sorted.take L.toNat).Pairwise
        (fun a b => (getTime b.created_at).getD 0 ≤ (getTime a.created_at).getD 0) :=
      hpw.sublist (List.take_sublist _ _)
    refine (List.Pairwise.and_mem.1 htake).imp ?_
    rintro a b ⟨ha, hb, hle⟩
    exact hrecent a ((List.take_sublist _ _).subset ha) b ((List.take_sublist _ _).subset hb) hle
  · intro a ha b hb
    have hpw2 := hpw
    rw [← hsplit] at hpw2
    exact hrecent a ((List.take_sublist _ _).subset ha) b ((List.drop_sublist _ _).subset hb)
      ((List.pairwise_append.1 hpw2).2.2 a ha b hb)

theorem analyzeRecentFeedback_sorted_truncated_witness :
    ((analyzeRecentFeedback exampleGetTime (fun _ => exampleIssues) (fun _ => exampleQuestions)
        (some 2)).analysis.length : Int) = min 2 ((2 + 1 : Nat) : Int) ∧
    (analyzeRecentFeedback exampleGetTime (fun _ => exampleIssues) (fun _ => exampleQuestions)
        (some 2)).analysis.Pairwise (AtLeastAsRecent exampleGetTime) ∧
    (analyzeRecentFeedback exampleGetTime (fun _ => exampleIssues) (fun _ => exampleQuestions)
        (some 2)).analysis.map (fun a => a.created_at) = [some (js "300"), some (js "200")] := by
  obtain ⟨hlen, rest, _, hord⟩ := analyzeRecentFeedback_sorted_truncated exampleGetTime
    (fun _ => exampleIssues) (fun _ => exampleQuestions) 2 (by decide) (by decide)
  exact ⟨hlen, (hord (by decide)).1, by decide⟩

/-! ## Theorems: route `GET /analyze` -/

/-- C4: whenever the combined list of items fetched from the requested sources is
empty, `GET /analyze` responds with status 404, `success = false`, `data.total_items = 0`
and `data.analysis = []`, makes no call of the analyzer and leaves the stored analyses
as they were. This is so in particular for `source=stackoverflow&limit=0` when Stack
Overflow has no items. -/
theorem getAnalyze_not_found {ρ : Type} (services : Services ρ) (storedAnalyses : List ρ) :
    (∀ query : Query, feedbackToAnalyze services query = [] →
      (getAnalyze services query storedAnalyses).response.status = 404 ∧
      (getAnalyze services query storedAnalyses).response.success = false ∧
      (∃ data, (getAnalyze services query storedAnalyses).response.data = some data ∧
        data.total_items = 0 ∧ data.analysis = []) ∧
      (getAnalyze services query storedAnalyses).analyzerCalls = [] ∧
      (getAnalyze services query storedAnalyses).storedAnalyses = storedAnalyses) ∧
    ((∀ limit, services.ingestStackOverflowFeedback limit = []) →
      ∀ type : Option JsString,
        (getAnalyze services
          { type := type, source := some (js "stackoverflow"), limit := some (js "0") }
          storedAnalyses).response.status = 404 ∧
        ∃ data, (getAnalyze services
          { type := type, source := some (js "stackoverflow"), limit := some (js "0") }
          storedAnalyses).response.data = some data ∧ data.total_items = 0) := by
  have hmain : ∀ query : Query, feedbackToAnalyze services query = [] →
      (getAnalyze services query storedAnalyses).response.status = 404 ∧
      (getAnalyze services query storedAnalyses).response.success = false ∧
      (∃ data, (getAnalyze services query storedAnalyses).response.data = some data ∧
        data.total_items = 0 ∧ data.analysis = []) ∧
      (getAnalyze services query storedAnalyses).analyzerCalls = [] ∧
      (getAnalyze services query storedAnalyses).storedAnalyses = storedAnalyses := by
    intro query hempty
    simp [getAnalyze, hempty]
  refine ⟨hmain, ?_⟩
  intro hso type
  have hempty : feedbackToAnalyze services
      { type := type, source := some (js "stackoverflow"), limit := some (js "0") } = [] := by
    have h1 : orElse (some (js "stackoverflow")) (js "all") = js "stackoverflow" := by decide
    have h2 : ¬ (js "stackoverflow" = js "github" ∨ js "stackoverflow" = js "all") := by decide
    simp only [feedbackToAnalyze, h1, h2, if_false, hso, List.map_nil, List.append_nil,
      ite_self]
  obtain ⟨hstatus, _, ⟨data, hdata, htotal, _⟩, _, _⟩ := hmain _ hempty
  exact ⟨hstatus, data, hdata, htotal⟩

theorem getAnalyze_not_found_witness :
    (getAnalyze exampleServices
      { source := some (js "stackoverflow"), limit := some (js "0") }
      [js "old"]).response.status = 404 ∧
    (getAnalyze exampleServices
      { source := some (js "stackoverflow"), limit := some (js "0") }
      [js "old"]).storedAnalyses = [js "old"] :=
  have h := (getAnalyze_not_found exampleServices [js "old"]).1
    { source := some (js "stackoverflow"), limit := some (js "0") } (by decide)
  ⟨h.1, h.2.2.2.2⟩

/-! ## Theorems: sign of the engagement score -/

theorem ofInt_zero : JsNum.ofInt 0 = JsNum.fin 0 0 := rfl

theorem nonNeg_fin_iff (m e : Int) : JsNum.NonNeg (JsNum.fin m e) ↔ 0 ≤ m := by
  unfold JsNum.NonNeg
  rw [ofInt_zero]
  simp only [JsNum.ge, decide_eq_true_eq, zero_mul]
  constructor
  · intro h
    by_contra hneg
    have hpos : (0 : Int) < 2 ^ (e - min e 0).toNat := by positivity
    have : m * 2 ^ (e - min e 0).toNat < 0 := mul_neg_of_neg_of_pos (by omega) hpos
    omega
  · intro h
    positivity

theorem nonNeg_inf_iff (negative : Bool) :
    JsNum.NonNeg (JsNum.inf negative) ↔ negative = false := by
  unfold JsNum.NonNeg
  rw [ofInt_zero]
  cases negative <;> simp [JsNum.ge]

theorem not_nonNeg_nan : ¬ JsNum.NonNeg JsNum.nan := by
  unfold JsNum.NonNeg
  simp [JsNum.ge]

theorem normalize_nonNeg (m e : Int) (h : 0 ≤ m) : JsNum.NonNeg (JsNum.normalize m e) := by
  unfold JsNum.normalize
  split_ifs
  · exact (nonNeg_fin_iff 0 0).2 (le_refl 0)
  · exact (nonNeg_fin_iff _ _).2 (Int.ediv_nonneg h (by positivity))

/-- Rounding keeps the sign: a value that is not negative rounds to a number that is
not negative. -/
theorem round64_nonNeg (m e : Int) (h : 0 ≤ m) : JsNum.NonNeg (JsNum.round64 m e) := by
  have hlt : ¬ m < 0 := by omega
  unfold JsNum.round64
  simp only [hlt, decide_False, if_false]
  split_ifs
  · exact (nonNeg_fin_iff 0 0).2 (le_refl 0)
  · exact (nonNeg_inf_iff false).2 rfl
  · exact normalize_nonNeg m e h
  · exact (nonNeg_inf_iff false).2 rfl
  · exact normalize_nonNeg _ _ (Int.natCast_nonneg _)

theorem mul_nonNeg (x : JsNum) (m e : Int) (hx : JsNum.NonNeg x) (hm : 0 < m) :
    JsNum.NonNeg (JsNum.mul x (JsNum.fin m e)) := by
  cases x with
  | nan => exact absurd hx not_nonNeg_nan
  | inf negative =>
    have hn := (nonNeg_inf_iff negative).1 hx
    subst hn
    have h0 : ¬ m = 0 := by omega
    have hlt : ¬ m < 0 := by omega
    simp only [JsNum.mul, h0, if_false, hlt, decide_False]
    exact (nonNeg_inf_iff _).2 rfl
  | fin m1 e1 =>
    have h1 := (nonNeg_fin_iff m1 e1).1 hx
    simp only [JsNum.mul]
    exact round64_nonNeg _ _ (mul_nonneg h1 (le_of_lt hm))

theorem add_nonNeg (x y : JsNum) (hx : JsNum.NonNeg x) (hy : JsNum.NonNeg y) :
    JsNum.NonNeg (JsNum.add x y) := by
  cases x with
  | nan => exact absurd hx not_nonNeg_nan
  | inf a =>
    have ha := (nonNeg_inf_iff a).1 hx
    subst ha
    cases y with
    | nan => exact absurd hy not_nonNeg_nan
    | inf b =>
      have hb := (nonNeg_inf_iff b).1 hy
      subst hb
      simp only [JsNum.add, if_true]
      exact (nonNeg_inf_iff _).2 rfl
    | fin m2 e2 =>
      simp only [JsNum.add]
      exact (nonNeg_inf_iff _).2 rfl
  | fin m1 e1 =>
    have h1 := (nonNeg_fin_iff m1 e1).1 hx
    cases y with
    | nan => exact absurd hy not_nonNeg_nan
    | inf b =>
      have hb := (nonNeg_inf_iff b).1 hy
      subst hb
      simp only [JsNum.add]
      exact (nonNeg_inf_iff _).2 rfl
    | fin m2 e2 =>
      have h2 := (nonNeg_fin_iff m2 e2).1 hy
      simp only [JsNum.add]
      exact round64_nonNeg _ _ (add_nonneg (mul_nonneg h1 (by positivity))
        (mul_nonneg h2 (by positivity)))

theorem orZero_nonNeg (x : Option JsNum) (h : ∀ v, x = some v → JsNum.NonNeg v) :
    JsNum.NonNeg (orZero x) := by
  cases x with
  | none => exact (nonNeg_fin_iff 0 0).2 (le_refl 0)
  | some v =>
    simp only [orZero]
    split_ifs
    · exact h v rfl
    · exact (nonNeg_fin_iff 0 0).2 (le_refl 0)

/-- C11, as stated, fails: a Q&A-style item with the integer score -1, no views and no
answers gets the engagement score -2, and a tracker-style item whose `comments` is -1
gets -2 as well; neither value is `>= 0`. -/
theorem engagement_score_negative :
    (¬ ∀ (item : Item) (n : Int) (v a : JsNum), item.score = some (JsNum.ofInt n) →
        item.view_count = some v → item.answer_count = some a →
        JsNum.NonNeg v → JsNum.NonNeg a →
        JsNum.NonNeg (calculateEngagementScore item)) ∧
    (¬ ∀ item : Item, item.view_count = none →
        JsNum.NonNeg (calculateEngagementScore item)) ∧
    calculateEngagementScore downvotedQuestion = JsNum.ofInt (-2) ∧
    calculateEngagementScore negativeComments = JsNum.ofInt (-2) := by
  refine ⟨?_, ?_, by decide, by decide⟩
  · intro h
    exact absurd (h downvotedQuestion (-1) (JsNum.ofInt 0) (JsNum.ofInt 0) rfl rfl rfl
      (by decide) (by decide)) (by decide)
  · intro h
    exact absurd (h negativeComments rfl) (by decide)

/-- C11, amended: `calculateEngagementScore` returns a value `>= 0` for every Q&A-style
item whose score, view_count and answer_count are not negative, and for every
tracker-style item whose comments and reactions are each missing or not negative. -/
theorem engagement_score_nonNeg (item : Item) :
    (∀ s v a, item.score = some s → item.view_count = some v → item.answer_count = some a →
      JsNum.NonNeg s → JsNum.NonNeg v → JsNum.NonNeg a →
      JsNum.NonNeg (calculateEngagementScore item)) ∧
    (item.view_count = none →
      (∀ c, item.comments = some c → JsNum.NonNeg c) →
      (∀ r, item.reactions = some r → JsNum.NonNeg r) →
      JsNum.NonNeg (calculateEngagementScore item)) := by
  constructor
  · intro s v a hs hv ha hsn hvn han
    simp only [calculateEngagementScore, hs, hv, ha, toNumber, Option.isSome_some, if_true]
    exact add_nonNeg _ _
      (add_nonNeg _ _ (mul_nonNeg s 1 1 hsn (by decide))
        (mul_nonNeg v 5764607523034235 (-59) hvn (by decide)))
      (mul_nonNeg a 3 0 han (by decide))
  · intro hv hc hr
    simp only [calculateEngagementScore, hv, Option.isSome_none, Bool.false_eq_true, if_false]
    exact add_nonNeg _ _ (mul_nonNeg _ 1 1 (orZero_nonNeg _ hc) (by decide))
      (orZero_nonNeg _ hr)

theorem engagement_score_nonNeg_witness :
    JsNum.NonNeg (calculateEngagementScore
      { score := some (JsNum.ofInt 10), view_count := some (JsNum.ofInt 200),
        answer_count := some (JsNum.ofInt 2) }) ∧
    JsNum.NonNeg (calculateEngagementScore { reactions := some (JsNum.ofInt 3) }) :=
  ⟨(engagement_score_nonNeg
      { score := some (JsNum.ofInt 10), view_count := some (JsNum.ofInt 200),
        answer_count := some (JsNum.ofInt 2) }).1 _ _ _ rfl rfl rfl
      (by decide) (by decide) (by decide),
    (engagement_score_nonNeg { reactions := some (JsNum.ofInt 3) }).2 rfl
      (fun c hc => by cases hc)
      (fun r hr => by cases hr; decide)⟩

/-! ## Theorems: parsing the response of the provider -/

theorem foldl_get_init (key : JsString) (b : JsObject) (init : Option Json) :
    b.foldl (fun found member => if member.1 = key then some member.2 else found) init =
      match JsObject.get b key with
      | some v => some v
      | none => init := by
  unfold JsObject.get
  induction b generalizing init with
  | nil => rfl
  | cons m rest ih =>
    simp only [List.foldl_cons]
    rw [ih, ih (if m.1 = key then some m.2 else none)]
    cases hrest : List.foldl (fun found member => if member.1 = key then some member.2 else found)
        none rest with
    | some v => rfl
    | none =>
      by_cases hm : m.1 = key
      · simp [hm]
      · simp [hm]

/-- A property of `{...a, ...b}` is the property of `b` when `b` has it and the property
of `a` otherwise. -/
theorem get_append (a b : JsObject) (key : JsString) :
    JsObject.get (a ++ b) key =
      match JsObject.get b key with
      | some v => some v
      | none => JsObject.get a key := by
  have h := foldl_get_init key b (JsObject.get a key)
  unfold JsObject.get at h ⊢
  rw [List.foldl_append]
  exact h

theorem get_defaults (a b c d : Json) :
    JsObject.get [(js "mainPoints", a), (js "technicalAreas", b), (js "severity", c),
        (js "actionItems", d)] (js "mainPoints") = some a ∧
    JsObject.get [(js "mainPoints", a), (js "technicalAreas", b), (js "severity", c),
        (js "actionItems", d)] (js "technicalAreas") = some b ∧
    JsObject.get [(js "mainPoints", a), (js "technicalAreas", b), (js "severity", c),
        (js "actionItems", d)] (js "severity") = some c ∧
    JsObject.get [(js "mainPoints", a), (js "technicalAreas", b), (js "severity", c),
        (js "actionItems", d)] (js "actionItems") = some d := by
  have h12 : (js "mainPoints" = js "technicalAreas") = False := eq_false (by decide)
  have h13 : (js "mainPoints" = js "severity") = False := eq_false (by decide)
  have h14 : (js "mainPoints" = js "actionItems") = False := eq_false (by decide)
  have h21 : (js "technicalAreas" = js "mainPoints") = False := eq_false (by decide)
  have h23 : (js "technicalAreas" = js "severity") = False := eq_false (by decide)
  have h24 : (js "technicalAreas" = js "actionItems") = False := eq_false (by decide)
  have h31 : (js "severity" = js "mainPoints") = False := eq_false (by decide)
  have h32 : (js "severity" = js "technicalAreas") = False := eq_false (by decide)
  have h34 : (js "severity" = js "actionItems") = False := eq_false (by decide)
  have h41 : (js "actionItems" = js "mainPoints") = False := eq_false (by decide)
  have h42 : (js "actionItems" = js "technicalAreas") = False := eq_false (by decide)
  have h43 : (js "actionItems" = js "severity") = False := eq_false (by decide)
  simp only [JsObject.get, List.foldl_cons, List.foldl_nil, h12, h13, h14, h21, h23, h24, h31,
    h32, h34, h41, h42, h43, if_true, if_false, and_self]

theorem parseAnalysisResponse_obj (jsonParse : JsString → Option Json) (useAzure : Bool)
    (response type source : JsString) (usage : Option Usage) (r : JsObject)
    (h : jsonParse response = some (Json.obj r)) :
    parseAnalysisResponse jsonParse useAzure response type source usage =
      Except.ok
        { type := type
          source := source
          confidence := Json.orDefault (JsObject.get r (js "confidence"))
            (Json.num JsNum.fourFifths)
          analysis :=
            [(js "mainPoints", Json.orDefault (JsObject.get r (js "mainPoints")) (Json.arr [])),
             (js "technicalAreas",
               Json.orDefault (JsObject.get r (js "technicalAreas")) (Json.arr [])),
             (js "severity",
               Json.orDefault (JsObject.get r (js "severity")) (Json.str (js "medium"))),
             (js "actionItems",
               Json.orDefault (JsObject.get r (js "actionItems")) (Json.arr []))] ++ r
          metadata :=
            { processingTime := 0
              modelUsed := if useAzure then js "azure" else js "openai"
              promptTokens := orZero (usage.map (fun u => u.promptTokens))
              completionTokens := orZero (usage.map (fun u => u.completionTokens)) } } := by
  simp only [parseAnalysisResponse, h, Json.prop, Json.ownProperties]

/-- C14: when the response text parses to a JSON object `r`, `parseAnalysisResponse`
returns a result whose `analysis` has every key of `r` with the value `r` gives it, and
in which each of `mainPoints`, `technicalAreas` and `actionItems` is `[]` and `severity`
is `"medium"` whenever `r` does not have that key. -/
theorem parseAnalysisResponse_analysis (jsonParse : JsString → Option Json) (useAzure : Bool)
    (response type source : JsString) (usage : Option Usage) (r : JsObject)
    (h : jsonParse response = some (Json.obj r)) :
    ∃ result, parseAnalysisResponse jsonParse useAzure response type source usage =
        Except.ok result ∧
      (∀ key value, JsObject.get r key = some value →
        JsObject.get result.analysis key = some value) ∧
      (JsObject.get r (js "mainPoints") = none →
        JsObject.get result.analysis (js "mainPoints") = some (Json.arr [])) ∧
      (JsObject.get r (js "technicalAreas") = none →
        JsObject.get result.analysis (js "technicalAreas") = some (Json.arr [])) ∧
      (JsObject.get r (js "actionItems") = none →
        JsObject.get result.analysis (js "actionItems") = some (Json.arr [])) ∧
      (JsObject.get r (js "severity") = none →
        JsObject.get result.analysis (js "severity") = some (Json.str (js "medium"))) := by
  refine ⟨_, parseAnalysisResponse_obj jsonParse useAzure response type source usage r h,
    ?_, ?_, ?_, ?_, ?_⟩
  · intro key value hkey
    simp only [get_append, hkey]
  · intro hnone
    simp only [get_append, hnone, Json.orDefault]
    exact (get_defaults _ _ _ _).1
  · intro hnone
    simp only [get_append, hnone, Json.orDefault]
    exact (get_defaults _ _ _ _).2.1
  · intro hnone
    simp only [get_append, hnone, Json.orDefault]
    exact (get_defaults _ _ _ _).2.2.2
  · intro hnone
    simp only [get_append, hnone, Json.orDefault]
    exact (get_defaults _ _ _ _).2.2.1

theorem parseAnalysisResponse_analysis_witness :
    ∃ result,
      parseAnalysisResponse exampleJsonParse false
        (js "\x7b\"severity\": \"high\", \"impact\": \"wide\"\x7d") (js "bug") (js "github")
        none = Except.ok result ∧
      JsObject.get result.analysis (js "impact") = some (Json.str (js "wide")) ∧
      JsObject.get result.analysis (js "severity") = some (Json.str (js "high")) ∧
      JsObject.get result.analysis (js "mainPoints") = some (Json.arr []) := by
  obtain ⟨result, hres, hkeys, hmain, _⟩ := parseAnalysisResponse_analysis exampleJsonParse false
    (js "\x7b\"severity\": \"high\", \"impact\": \"wide\"\x7d") (js "bug") (js "github") none
    [(js "severity", Json.str (js "high")), (js "impact", Json.str (js "wide"))] rfl
  exact ⟨result, hres, hkeys _ _ rfl, hkeys _ _ rfl, hmain rfl⟩

/-- What a successful `parseAnalysisResponse` call has done: the text parsed to a value
other than `null`, and type, source and confidence of the result come from the
arguments and from that value. -/
theorem parseAnalysisResponse_ok (jsonParse : JsString → Option Json) (useAzure : Bool)
    (response type source : JsString) (usage : Option Usage) (result : AnalysisResult)
    (h : parseAnalysisResponse jsonParse useAzure response type source usage =
      Except.ok result) :
    ∃ parsed, jsonParse response = some parsed ∧
      result.type = type ∧ result.source = source ∧
      result.confidence =
        Json.orDefault (parsed.prop (js "confidence")) (Json.num JsNum.fourFifths) := by
  unfold parseAnalysisResponse at h
  cases hp : jsonParse response with
  | none => simp [hp] at h
  | some parsed =>
    refine ⟨parsed, rfl, ?_⟩
    cases parsed with
    | null => simp [hp] at h
    | bool b =>
      simp only [hp, Except.ok.injEq] at h
      subst h
      exact ⟨rfl, rfl, rfl⟩
    | num x =>
      simp only [hp, Except.ok.injEq] at h
      subst h
      exact ⟨rfl, rfl, rfl⟩
    | str t =>
      simp only [hp, Except.ok.injEq] at h
      subst h
      exact ⟨rfl, rfl, rfl⟩
    | arr items =>
      simp only [hp, Except.ok.injEq] at h
      subst h
      exact ⟨rfl, rfl, rfl⟩
    | obj members =>
      simp only [hp, Except.ok.injEq] at h
      subst h
      exact ⟨rfl, rfl, rfl⟩

theorem fourFifths_inUnitInterval : (Json.num JsNum.fourFifths).InUnitInterval :=
  ⟨JsNum.fourFifths, rfl, by decide, by decide⟩

/-- C15, as stated, fails: the response text `{"confidence": 5}` is turned into a result
whose confidence is 5, which is not in the closed interval from 0 to 1; and the response
text `{"confidence": 0}` is turned into a result whose confidence is 0.8, not the value 0
that the response gives. -/
theorem confidence_outside_unit_interval :
    (∃ result,
      parseAnalysisResponse exampleJsonParse false (js "\x7b\"confidence\": 5\x7d") (js "bug")
        (js "github") none = Except.ok result ∧
      result.confidence = Json.num (JsNum.ofInt 5) ∧
      ¬ result.confidence.InUnitInterval) ∧
    (∃ result,
      parseAnalysisResponse exampleJsonParse false (js "\x7b\"confidence\": 0\x7d") (js "bug")
        (js "github") none = Except.ok result ∧
      result.confidence = Json.num JsNum.fourFifths ∧
      JsNum.fourFifths ≠ JsNum.ofInt 0) := by
  refine ⟨⟨_, parseAnalysisResponse_obj exampleJsonParse false (js "\x7b\"confidence\": 5\x7d")
    (js "bug") (js "github") none [(js "confidence", Json.num (JsNum.ofInt 5))] rfl, rfl, ?_⟩,
    ⟨_, parseAnalysisResponse_obj exampleJsonParse false (js "\x7b\"confidence\": 0\x7d")
    (js "bug") (js "github") none [(js "confidence", Json.num (JsNum.ofInt 0))] rfl, rfl,
    by decide⟩⟩
  rintro ⟨x, hx, _, hle⟩
  have h5 : Json.num (JsNum.ofInt 5) = Json.num x := hx
  cases h5
  exact absurd hle (by decide)

/-- C15, amended: the confidence of every `AnalysisResult` returned by
`parseAnalysisResponse` is the value the response gives when that value is truthy, and
0.8 when the response omits confidence or gives a falsy one (`0`, `null`, `false`, `""`);
so it is in the closed interval from 0 to 1 whenever the response omits confidence or
gives a number of that interval. -/
theorem confidence_spec (jsonParse : JsString → Option Json) (useAzure : Bool)
    (response type source : JsString) (usage : Option Usage) (result : AnalysisResult)
    (h : parseAnalysisResponse jsonParse useAzure response type source usage =
      Except.ok result) :
    ∃ parsed, jsonParse response = some parsed ∧
      (parsed.prop (js "confidence") = none →
        result.confidence = Json.num JsNum.fourFifths) ∧
      (∀ value, parsed.prop (js "confidence") = some value → value.truthy = true →
        result.confidence = value) ∧
      (∀ value, parsed.prop (js "confidence") = some value → value.truthy = false →
        result.confidence = Json.num JsNum.fourFifths) ∧
      ((∀ value, parsed.prop (js "confidence") = some value → value.InUnitInterval) →
        result.confidence.InUnitInterval) := by
  obtain ⟨parsed, hparsed, _, _, hconf⟩ :=
    parseAnalysisResponse_ok jsonParse useAzure response type source usage result h
  refine ⟨parsed, hparsed, ?_, ?_, ?_, ?_⟩
  · intro hnone
    rw [hconf, hnone]
    rfl
  · intro value hsome htruthy
    rw [hconf, hsome]
    simp [Json.orDefault, htruthy]
  · intro value hsome hfalsy
    rw [hconf, hsome]
    simp [Json.orDefault, hfalsy]
  · intro hunit
    rw [hconf]
    cases hprop : parsed.prop (js "confidence") with
    | none => exact fourFifths_inUnitInterval
    | some value =>
      simp only [Json.orDefault]
      split_ifs
      · exact hunit value hprop
      · exact fourFifths_inUnitInterval

theorem confidence_spec_witness :
    ∃ result,
      parseAnalysisResponse exampleJsonParse false (js "\x7b\x7d") (js "bug") (js "github")
        none = Except.ok result ∧
      result.confidence = Json.num JsNum.fourFifths := by
  have hres := parseAnalysisResponse_obj exampleJsonParse false (js "\x7b\x7d") (js "bug")
    (js "github") none [] rfl
  obtain ⟨parsed, hparsed, hnone, _⟩ := confidence_spec exampleJsonParse false (js "\x7b\x7d")
    (js "bug") (js "github") none _ hres
  have hp : parsed = Json.obj [] := by
    have : exampleJsonParse (js "\x7b\x7d") = some (Json.obj []) := rfl
    rw [this] at hparsed
    exact (Option.some.inj hparsed).symm
  subst hp
  exact ⟨_, hres, hnone rfl⟩

/-- C16: for every response text that is not valid JSON, `parseAnalysisResponse` throws
the error 'Failed to parse analysis response' and returns no result; the empty text is
such a text. -/
theorem parseAnalysisResponse_invalid_json (jsonParse : JsString → Option Json) (useAzure : Bool)
    (type source : JsString) (usage : Option Usage) :
    (∀ response, jsonParse response = none →
      parseAnalysisResponse jsonParse useAzure response type source usage =
        Except.error (js "Failed to parse analysis response")) ∧
    (jsonParse [] = none →
      parseAnalysisResponse jsonParse useAzure [] type source usage =
        Except.error (js "Failed to parse analysis response")) := by
  have hall : ∀ response, jsonParse response = none →
      parseAnalysisResponse jsonParse useAzure response type source usage =
        Except.error (js "Failed to parse analysis response") := by
    intro response h
    simp only [parseAnalysisResponse, h]
    rfl
  exact ⟨hall, hall []⟩

theorem parseAnalysisResponse_invalid_json_witness :
    parseAnalysisResponse exampleJsonParse true (js "not json") (js "bug") (js "github") none =
      Except.error (js "Failed to parse analysis response") ∧
    parseAnalysisResponse exampleJsonParse true [] (js "bug") (js "github") none =
      Except.error (js "Failed to parse analysis response") :=
  ⟨(parseAnalysisResponse_invalid_json exampleJsonParse true (js "bug") (js "github") none).1
      (js "not json") rfl,
    (parseAnalysisResponse_invalid_json exampleJsonParse true (js "bug") (js "github") none).2
      rfl⟩

/-! ## Theorems: route `GET /analyze/text` -/

/-- C12: in `GET /analyze/text` (with a text to analyze) the effective analysis type,
which is the type passed to the analyzer and, when the analysis succeeds, echoed in the
response, is the value of the `type` parameter when that is `bug`, `feature` or
`sentiment`, and `general` for every other value and for a missing parameter. -/
theorem getAnalyzeText_effective_type {ρ : Type}
    (analyzeFeedback : FeedbackItem → JsString → Except JsString ρ)
    (query : TextQuery) (storedAnalyses : List ρ) (text : JsString)
    (htext : query.text = some text) (hne : text ≠ []) :
    ∃ effective,
      (getAnalyzeText analyzeFeedback query storedAnalyses).analyzerCalls =
        [({ title := js "User Provided Feedback", body := text, source := js "user" },
          effective)] ∧
      (∀ analysis,
        analyzeFeedback { title := js "User Provided Feedback", body := text, source := js "user" }
          effective = Except.ok analysis →
        (getAnalyzeText analyzeFeedback query storedAnalyses).response.status = 200 ∧
        (getAnalyzeText analyzeFeedback query storedAnalyses).response.type = some effective) ∧
      (∀ value, query.type = some value →
        value = js "bug" ∨ value = js "feature" ∨ value = js "sentiment" →
        effective = value) ∧
      ((∀ value, query.type = some value →
          ¬ (value = js "bug" ∨ value = js "feature" ∨ value = js "sentiment")) →
        effective = js "general") := by
  have htruthy : truthy text = true := by
    cases text with
    | nil => exact absurd rfl hne
    | cons c cs => rfl
  refine ⟨feedbackType (query.type.getD (js "general")), ?_, ?_, ?_, ?_⟩
  · simp only [getAnalyzeText, htext, Option.getD_some, htruthy, Bool.not_true,
      Bool.false_eq_true, if_false]
    cases analyzeFeedback
      { title := js "User Provided Feedback", body := text, source := js "user" }
      (feedbackType (query.type.getD (js "general"))) <;> rfl
  · intro analysis hok
    simp only [getAnalyzeText, htext, Option.getD_some, htruthy, Bool.not_true,
      Bool.false_eq_true, if_false, hok, and_self]
  · intro value hvalue hmem
    simp only [hvalue, Option.getD_some, feedbackType, if_pos hmem]
  · intro hnot
    cases hq : query.type with
    | none =>
      simp only [Option.getD_none]
      decide
    | some value =>
      simp only [Option.getD_some, feedbackType, if_neg (hnot value hq)]

theorem getAnalyzeText_effective_type_witness :
    (getAnalyzeText (fun item _ => Except.ok item.body)
      { text := some (js "it crashes"), type := some (js "urgent") } []).analyzerCalls =
      [({ title := js "User Provided Feedback", body := js "it crashes", source := js "user" },
        js "general")] := by
  obtain ⟨effective, hcalls, _, _, hgeneral⟩ :=
    getAnalyzeText_effective_type (fun item _ => Except.ok item.body)
      { text := some (js "it crashes"), type := some (js "urgent") } [] (js "it crashes") rfl
      (by decide)
  have heff : effective = js "general" := by
    apply hgeneral
    intro value hvalue
    cases hvalue
    decide
  rw [hcalls, heff]

/-! ## Theorems: retrying the analysis -/

theorem analyzeFeedback_of_three_failures {σ : Type} (analyzer : Analyzer σ)
    (feedback : FeedbackItem) (type : JsString) (s : σ) (e1 e2 e3 : JsString)
    (h1 : resultAt (analysisOperation analyzer feedback type) 0 s = Except.error e1)
    (h2 : resultAt (analysisOperation analyzer feedback type) 1 s = Except.error e2)
    (h3 : resultAt (analysisOperation analyzer feedback type) 2 s = Except.error e3) :
    analyzeFeedback analyzer feedback type s =
      { result := Except.error (some e3)
        state := stateAfter (analysisOperation analyzer feedback type) 3 s
        trace := [RetryEvent.invoke, RetryEvent.wait 1000, RetryEvent.invoke,
          RetryEvent.wait 2000, RetryEvent.invoke] } := by
  simp only [analyzeFeedback,
    retryOperation_three_failures (analysisOperation analyzer feedback type) s e1 e2 e3 h1 h2 h3]

theorem analyzeFeedback_of_first_success {σ : Type} (analyzer : Analyzer σ)
    (feedback : FeedbackItem) (type : JsString) (s : σ) (result : AnalysisResult)
    (h1 : resultAt (analysisOperation analyzer feedback type) 0 s = Except.ok result) :
    analyzeFeedback analyzer feedback type s =
      { result := Except.ok
          { result with
            metadata := { result.metadata with
              processingTime :=
                analyzer.now (stateAfter (analysisOperation analyzer feedback type) 1 s) -
                  analyzer.now s } }
        state := stateAfter (analysisOperation analyzer feedback type) 1 s
        trace := [RetryEvent.invoke] } := by
  simp only [analyzeFeedback,
    retryOperation_first_success (analysisOperation analyzer feedback type) s result h1]

/-- An answer that is not valid JSON makes the operation fail with the parse error. -/
theorem analysisOperation_of_invalid_json {σ : Type} (analyzer : Analyzer σ)
    (feedback : FeedbackItem) (type : JsString)
    (h : AnswersInvalidJson analyzer feedback type) (s : σ) :
    (analysisOperation analyzer feedback type s).1 = Except.error parseErrorMessage := by
  unfold AnswersInvalidJson at h
  unfold analysisOperation
  by_cases hazure : analyzer.useAzure = true
  · rw [if_pos hazure] at h ⊢
    obtain ⟨text, htext, hparse⟩ := h s
    unfold analyzeWithAzure
    rcases hcall : analyzer.getCompletions (createAnalysisPrompt feedback type) s with ⟨r, s1⟩
    rw [hcall] at htext
    simp only at htext
    subst htext
    simp only [parseAnalysisResponse, hparse]
  · rw [if_neg hazure] at h ⊢
    obtain ⟨reply, hreply, hparse⟩ := h s
    unfold analyzeWithOpenAI
    rcases hcall : analyzer.chatCompletionsCreate createDefaultPrompt.systemMessage
      (createAnalysisPrompt feedback type) s with ⟨r, s1⟩
    rw [hcall] at hreply
    simp only at hreply
    subst hreply
    simp only [parseAnalysisResponse, hparse]

/-- C17, as stated, fails: when the provider answers every request with the text
`not json`, `analyzeFeedback` fails with the parse error only after three requests to
the provider (the call counter ends at 3) and waits of 1000 ms and 2000 ms, not after
one request without delay. -/
theorem parse_error_is_retried :
    (analyzeFeedback (exampleAnalyzer (js "not json")) exampleItem (js "bug") 0).result =
      Except.error (some (js "Failed to parse analysis response")) ∧
    (analyzeFeedback (exampleAnalyzer (js "not json")) exampleItem (js "bug") 0).state = 3 ∧
    invocations (analyzeFeedback (exampleAnalyzer (js "not json")) exampleItem
      (js "bug") 0).trace = 3 ∧
    totalDelay (analyzeFeedback (exampleAnalyzer (js "not json")) exampleItem
      (js "bug") 0).trace = 3000 := by
  rw [analyzeFeedback_of_three_failures (exampleAnalyzer (js "not json")) exampleItem (js "bug") 0
    parseErrorMessage parseErrorMessage parseErrorMessage rfl rfl rfl]
  exact ⟨rfl, rfl, rfl, rfl⟩

/-- C17, amended: a parse error is retried like every other failure. When the provider
answers every request of an `analyzeFeedback` call with text that is not valid JSON,
`analyzeFeedback` fails with the parse error after exactly three requests to the
provider, having waited 1000 ms after the first and 2000 ms after the second. -/
theorem parse_error_after_three_requests {σ : Type} (analyzer : Analyzer σ)
    (feedback : FeedbackItem) (type : JsString) (s : σ)
    (h : AnswersInvalidJson analyzer feedback type) :
    (analyzeFeedback analyzer feedback type s).result =
      Except.error (some (js "Failed to parse analysis response")) ∧
    invocations (analyzeFeedback analyzer feedback type s).trace = 3 ∧
    (analyzeFeedback analyzer feedback type s).trace =
      [RetryEvent.invoke, RetryEvent.wait 1000, RetryEvent.invoke, RetryEvent.wait 2000,
        RetryEvent.invoke] := by
  have hfail : ∀ n, resultAt (analysisOperation analyzer feedback type) n s =
      Except.error parseErrorMessage :=
    fun n => analysisOperation_of_invalid_json analyzer feedback type h _
  rw [analyzeFeedback_of_three_failures analyzer feedback type s parseErrorMessage
    parseErrorMessage parseErrorMessage (hfail 0) (hfail 1) (hfail 2)]
  exact ⟨rfl, rfl, rfl⟩

theorem parse_error_after_three_requests_witness :
    AnswersInvalidJson (exampleAnalyzer (js "not json")) exampleItem (js "bug") ∧
    invocations (analyzeFeedback (exampleAnalyzer (js "not json")) exampleItem
      (js "bug") 0).trace = 3 := by
  have h : AnswersInvalidJson (exampleAnalyzer (js "not json")) exampleItem (js "bug") := by
    unfold AnswersInvalidJson
    rw [if_neg (by decide)]
    intro s
    exact ⟨{ content := some (js "not json") }, rfl, rfl⟩
  exact ⟨h, (parse_error_after_three_requests (exampleAnalyzer (js "not json")) exampleItem
    (js "bug") 0 h).2.1⟩

/-! ## Theorems: route `GET /analyze`, type and batch failure -/

theorem getAnalyze_of_ok {ρ : Type} (services : Services ρ) (query : Query)
    (storedAnalyses : List ρ) (analysisResults : List ρ)
    (hitems : feedbackToAnalyze services query ≠ [])
    (hok : services.batchAnalyzeFeedback (feedbackToAnalyze services query)
      (orElse query.type (js "general")) = Except.ok analysisResults) :
    (getAnalyze services query storedAnalyses).response.status = 200 ∧
    (getAnalyze services query storedAnalyses).response.success = true ∧
    (∃ data, (getAnalyze services query storedAnalyses).response.data = some data ∧
      data.analysis = analysisResults) ∧
    (getAnalyze services query storedAnalyses).storedAnalyses =
      storedAnalyses ++ analysisResults ∧
    (getAnalyze services query storedAnalyses).analyzerCalls =
      [(feedbackToAnalyze services query, orElse query.type (js "general"))] := by
  have hlen : ¬ (feedbackToAnalyze services query).length = 0 := by
    intro h
    exact hitems (List.length_eq_zero.1 h)
  simp [getAnalyze, hlen, hok]

theorem getAnalyze_of_error {ρ : Type} (services : Services ρ) (query : Query)
    (storedAnalyses : List ρ) (message : JsString)
    (hitems : feedbackToAnalyze services query ≠ [])
    (herr : services.batchAnalyzeFeedback (feedbackToAnalyze services query)
      (orElse query.type (js "general")) = Except.error message) :
    (getAnalyze services query storedAnalyses).response.status = 500 ∧
    (getAnalyze services query storedAnalyses).response.success = false ∧
    (getAnalyze services query storedAnalyses).response.error = some message ∧
    (getAnalyze services query storedAnalyses).storedAnalyses = storedAnalyses := by
  have hlen : ¬ (feedbackToAnalyze services query).length = 0 := by
    intro h
    exact hitems (List.length_eq_zero.1 h)
  simp [getAnalyze, hlen, herr]

/-- The batch fails as soon as the analysis of one of its items fails. -/
theorem batchAnalyzeFeedback_error {ρ : Type}
    (analyzeFeedback : FeedbackItem → JsString → Except JsString ρ) (type : JsString)
    (items : List FeedbackItem)
    (h : ∃ item ∈ items, ∃ e, analyzeFeedback item type = Except.error e) :
    ∃ e, batchAnalyzeFeedback analyzeFeedback items type = Except.error e := by
  induction items with
  | nil =>
    obtain ⟨item, hmem, _⟩ := h
    cases hmem
  | cons first rest ih =>
    simp only [batchAnalyzeFeedback]
    cases hfirst : analyzeFeedback first type with
    | error e => exact ⟨e, rfl⟩
    | ok result =>
      have hrest : ∃ item ∈ rest, ∃ e, analyzeFeedback item type = Except.error e := by
        obtain ⟨item, hmem, e, he⟩ := h
        rcases List.mem_cons.1 hmem with rfl | hmem2
        · rw [hfirst] at he
          cases he
        · exact ⟨item, hmem2, e, he⟩
      obtain ⟨e, he⟩ := ih hrest
      exact ⟨e, by simp only [he]⟩

/-- The batch of items whose analyses all succeed resolves with their results in order. -/
theorem batchAnalyzeFeedback_ok {ρ : Type}
    (analyzeFeedback : FeedbackItem → JsString → Except JsString ρ) (type : JsString)
    (result : FeedbackItem → ρ) (items : List FeedbackItem)
    (h : ∀ item ∈ items, analyzeFeedback item type = Except.ok (result item)) :
    batchAnalyzeFeedback analyzeFeedback items type = Except.ok (items.map result) := by
  induction items with
  | nil => rfl
  | cons first rest ih =>
    simp only [batchAnalyzeFeedback, h first (List.mem_cons_self _ _),
      ih (fun item hmem => h item (List.mem_cons_of_mem _ hmem)), List.map_cons]

theorem analyzeFeedbackIn_example (item : FeedbackItem) (type : JsString) :
    ∃ result, analyzeFeedbackIn (exampleAnalyzer (js "\x7b\x7d")) 0 item type =
        Except.ok result ∧ result.type = type := by
  have hop : resultAt (analysisOperation (exampleAnalyzer (js "\x7b\x7d")) item type) 0 0 =
      Except.ok
        { type := type
          source := item.source
          confidence := Json.num JsNum.fourFifths
          analysis :=
            [(js "mainPoints", Json.arr []), (js "technicalAreas", Json.arr []),
             (js "severity", Json.str (js "medium")), (js "actionItems", Json.arr [])]
          metadata :=
            { processingTime := 0
              modelUsed := js "openai"
              promptTokens := JsNum.ofInt 0
              completionTokens := JsNum.ofInt 0 } } := rfl
  have hrun := analyzeFeedback_of_first_success (exampleAnalyzer (js "\x7b\x7d")) item type 0 _ hop
  unfold analyzeFeedbackIn
  rw [hrun]
  exact ⟨_, rfl, rfl⟩

/-- C13, at the failing input `GET /analyze?type=foo` (GitHub has one issue and the
provider answers `{}`): the handler hands the type `foo` to `batchAnalyzeFeedback`, and
the result it returns and stores has the type `foo`, which is none of `bug`, `feature`,
`sentiment` and `general`. -/
theorem getAnalyze_type_not_validated :
    (getAnalyze exampleAnalysisServices { type := some (js "foo") } []).analyzerCalls.map
      (fun call => call.2) = [js "foo"] ∧
    (getAnalyze exampleAnalysisServices { type := some (js "foo") } []).storedAnalyses.map
      (fun result => result.type) = [js "foo"] ∧
    js "foo" ∉ [js "bug", js "feature", js "sentiment", js "general"] := by
  obtain ⟨result, hres, htype⟩ := analyzeFeedbackIn_example
    (ofGitHubFeedback
      { title := js "Crash", body := none, number := JsNum.ofInt 1, state := js "open",
        url := js "u", created_at := js "100", updated_at := js "100", labels := [] })
    (js "foo")
  have hitems : feedbackToAnalyze exampleAnalysisServices { type := some (js "foo") } =
      [ofGitHubFeedback
        { title := js "Crash", body := none, number := JsNum.ofInt 1, state := js "open",
          url := js "u", created_at := js "100", updated_at := js "100", labels := [] }] := by
    decide
  have hbatch : exampleAnalysisServices.batchAnalyzeFeedback
      (feedbackToAnalyze exampleAnalysisServices { type := some (js "foo") })
      (orElse (some (js "foo")) (js "general")) = Except.ok [result] := by
    rw [hitems]
    show batchAnalyzeFeedback (analyzeFeedbackIn (exampleAnalyzer (js "\x7b\x7d")) 0) _
      (js "foo") = _
    simp only [batchAnalyzeFeedback, hres]
  obtain ⟨_, _, _, hstore, hcalls⟩ := getAnalyze_of_ok exampleAnalysisServices
    { type := some (js "foo") } [] [result] (by rw [hitems]; simp) hbatch
  refine ⟨?_, ?_, by decide⟩
  · rw [hcalls]
    rfl
  · rw [hstore]
    simp [htype]

/-- C18: if the analysis of any one item of the combined batch fails, then
`batchAnalyzeFeedback` fails as a whole, `GET /analyze` responds with status 500 and
`success = false`, and the stored analyses are exactly what they were before the
request. -/
theorem getAnalyze_batch_failure {ρ : Type}
    (ingestGitHubFeedback : Int → List GitHubFeedback)
    (ingestStackOverflowFeedback : Int → List StackOverflowFeedback)
    (analyzeFeedback : FeedbackItem → JsString → Except JsString ρ)
    (query : Query) (storedAnalyses : List ρ)
    (h : ∃ item ∈ feedbackToAnalyze
        (servicesOf ingestGitHubFeedback ingestStackOverflowFeedback analyzeFeedback) query,
      ∃ e, analyzeFeedback item (orElse query.type (js "general")) = Except.error e) :
    (∃ e, batchAnalyzeFeedback analyzeFeedback
      (feedbackToAnalyze
        (servicesOf ingestGitHubFeedback ingestStackOverflowFeedback analyzeFeedback) query)
      (orElse query.type (js "general")) = Except.error e) ∧
    (getAnalyze (servicesOf ingestGitHubFeedback ingestStackOverflowFeedback analyzeFeedback)
      query storedAnalyses).response.status = 500 ∧
    (getAnalyze (servicesOf ingestGitHubFeedback ingestStackOverflowFeedback analyzeFeedback)
      query storedAnalyses).response.success = false ∧
    (getAnalyze (servicesOf ingestGitHubFeedback ingestStackOverflowFeedback analyzeFeedback)
      query storedAnalyses).storedAnalyses = storedAnalyses := by
  obtain ⟨e, he⟩ := batchAnalyzeFeedback_error analyzeFeedback _ _ h
  have hitems : feedbackToAnalyze
      (servicesOf ingestGitHubFeedback ingestStackOverflowFeedback analyzeFeedback) query ≠ [] := by
    obtain ⟨item, hmem, _⟩ := h
    exact List.ne_nil_of_mem hmem
  obtain ⟨hstatus, hsuccess, _, hstore⟩ := getAnalyze_of_error
    (servicesOf ingestGitHubFeedback ingestStackOverflowFeedback analyzeFeedback) query
    storedAnalyses e hitems he
  exact ⟨⟨e, he⟩, hstatus, hsuccess, hstore⟩

theorem getAnalyze_batch_failure_witness :
    (getAnalyze (servicesOf (fun _ => goodAndBad) (fun _ => []) failOnBad)
      { source := some (js "github") } [js "old"]).response.status = 500 ∧
    (getAnalyze (servicesOf (fun _ => goodAndBad) (fun _ => []) failOnBad)
      { source := some (js "github") } [js "old"]).storedAnalyses = [js "old"] :=
  have h := getAnalyze_batch_failure (fun _ => goodAndBad) (fun _ => []) failOnBad
    { source := some (js "github") } [js "old"]
    ⟨ofGitHubFeedback badIssue, by decide, js "Failed to parse analysis response", rfl⟩
  ⟨h.2.1, h.2.2.2⟩

/-! ## Theorems: the store and `GET /analyses/view` -/

theorem analysesView_spec {ρ : Type} (k : Nat) (storedAnalyses : List ρ) :
    (analysesView k storedAnalyses).response.analyses <:+ storedAnalyses ∧
    (analysesView k storedAnalyses).response.analyses.length = min k storedAnalyses.length ∧
    (analysesView k storedAnalyses).response.total = min k storedAnalyses.length ∧
    (analysesView k storedAnalyses).storedAnalyses = storedAnalyses := by
  have hlen : (sliceLast storedAnalyses k).length = min k storedAnalyses.length := by
    simp only [sliceLast, List.length_drop]
    omega
  exact ⟨List.drop_suffix _ _, hlen, hlen, rfl⟩

/-- C19: for every stored sequence of `n` analyses, the response of `GET /analyses/view`
holds exactly the last `min K n` of them in insertion order (it is the suffix of that
length of the stored sequence) and `total` is that count, with `K = 10` in
`feedback.routes` and `K = 100` in `dist/routes/feedback.js`; after 15 results have been
appended to an empty store the view returns exactly the last 10; the request leaves the
store as it was. -/
theorem getAnalysesView_spec {ρ : Type} (storedAnalyses : List ρ) :
    ((getAnalysesView storedAnalyses).response.analyses <:+ storedAnalyses ∧
      (getAnalysesView storedAnalyses).response.analyses.length =
        min 10 storedAnalyses.length ∧
      (getAnalysesView storedAnalyses).response.total = min 10 storedAnalyses.length ∧
      (getAnalysesView storedAnalyses).storedAnalyses = storedAnalyses) ∧
    ((getAnalysesViewDist storedAnalyses).response.analyses <:+ storedAnalyses ∧
      (getAnalysesViewDist storedAnalyses).response.analyses.length =
        min 100 storedAnalyses.length ∧
      (getAnalysesViewDist storedAnalyses).response.total = min 100 storedAnalyses.length ∧
      (getAnalysesViewDist storedAnalyses).storedAnalyses = storedAnalyses) ∧
    (∀ results : List ρ, results.length = 15 →
      (getAnalysesView ([] ++ results)).response.analyses = results.drop 5 ∧
      (getAnalysesView ([] ++ results)).response.total = 10) := by
  refine ⟨analysesView_spec 10 storedAnalyses, analysesView_spec 100 storedAnalyses, ?_⟩
  intro results hlen
  simp [getAnalysesView, analysesView, sliceLast, hlen]

theorem getAnalysesView_spec_witness :
    (getAnalysesView (List.range 15)).response.analyses = [5, 6, 7, 8, 9, 10, 11, 12, 13, 14] ∧
    (getAnalysesView (List.range 15)).response.total = 10 :=
  have h := (getAnalysesView_spec (List.range 15)).2.2 (List.range 15) (by decide)
  ⟨h.1.trans (by decide), h.2⟩

/-- One request leaves in the store what was there, followed by its own results. -/
theorem storeAfter_eq {ρ : Type} (services : Services ρ)
    (analyzeFeedback : FeedbackItem → JsString → Except JsString ρ) (request : Request)
    (storedAnalyses : List ρ) :
    storeAfter services analyzeFeedback request storedAnalyses =
      storedAnalyses ++ resultsOf services analyzeFeedback request := by
  cases request with
  | analyzeText query =>
    simp only [storeAfter, resultsOf, getAnalyzeText]
    split_ifs
    · simp
    · cases analyzeFeedback
        { title := js "User Provided Feedback", body := query.text.getD [], source := js "user" }
        (feedbackType (query.type.getD (js "general"))) <;> simp
  | analyze query =>
    by_cases hitems : (feedbackToAnalyze services query).length = 0
    · simp [storeAfter, resultsOf, getAnalyze, hitems]
    · cases hbatch : services.batchAnalyzeFeedback (feedbackToAnalyze services query)
          (orElse query.type (js "general")) with
      | ok analysisResults => simp [storeAfter, resultsOf, getAnalyze, hitems, hbatch]
      | error message => simp [storeAfter, resultsOf, getAnalyze, hitems, hbatch]
  | view => simp [storeAfter, resultsOf, getAnalysesView, analysesView]

/-- C20, as stated, fails: eleven successful `GET /analyze/text` requests, starting from
an empty store, leave eleven entries in `storedAnalyses`, one more than the cap of 10,
and the oldest entry is still the first. -/
theorem store_exceeds_cap :
    (List.replicate 11 (Request.analyzeText { text := some (js "slow") })).all
      (succeeded exampleServices echoBody) = true ∧
    (storeAfterAll exampleServices echoBody
      (List.replicate 11 (Request.analyzeText { text := some (js "slow") })) []).length = 11 ∧
    ¬ (storeAfterAll exampleServices echoBody
      (List.replicate 11 (Request.analyzeText { text := some (js "slow") })) []).length ≤ 10 := by
  decide

/-- C20, amended: `storedAnalyses` is never capped. After any sequence of
`/analyze/text`, `/analyze` and `/analyses/view` requests it holds the entries it held
before, followed by the results of the successful `/analyze/text` and `/analyze`
requests in the order of the requests; no entry is evicted. -/
theorem store_grows_without_eviction {ρ : Type} (services : Services ρ)
    (analyzeFeedback : FeedbackItem → JsString → Except JsString ρ)
    (requests : List Request) (storedAnalyses : List ρ) :
    storeAfterAll services analyzeFeedback requests storedAnalyses =
      storedAnalyses ++ requests.flatMap (resultsOf services analyzeFeedback) ∧
    storedAnalyses <+: storeAfterAll services analyzeFeedback requests storedAnalyses ∧
    storedAnalyses.length ≤
      (storeAfterAll services analyzeFeedback requests storedAnalyses).length := by
  have heq : ∀ (requests : List Request) (storedAnalyses : List ρ),
      storeAfterAll services analyzeFeedback requests storedAnalyses =
        storedAnalyses ++ requests.flatMap (resultsOf services analyzeFeedback) := by
    intro requests
    induction requests with
    | nil => intro storedAnalyses; simp [storeAfterAll]
    | cons request rest ih =>
      intro storedAnalyses
      simp only [storeAfterAll, ih, storeAfter_eq, List.flatMap_cons, List.append_assoc]
  refine ⟨heq requests storedAnalyses, ?_, ?_⟩
  · rw [heq]
    exact List.prefix_append _ _
  · rw [heq, List.length_append]
    omega

/-! ## Theorems: source adapters -/

theorem processQuestions_of_invalid_date (toISOString : JsNum → Option JsString)
    (items : List RawQuestion)
    (h : ∃ item ∈ items,
      toISOString (JsNum.mul (toNumber item.creation_date) (JsNum.ofInt 1000)) = none) :
    processQuestions toISOString items = none := by
  induction items with
  | nil =>
    obtain ⟨item, hmem, _⟩ := h
    exact absurd hmem (List.not_mem_nil _)
  | cons first rest ih =>
    obtain ⟨item, hmem, hdate⟩ := h
    cases hq : processQuestion toISOString first with
    | none => simp only [processQuestions, hq]
    | some question =>
      rcases List.mem_cons.1 hmem with heq | hrest
      · subst heq
        simp [processQuestion, hdate] at hq
      · simp only [processQuestions, hq, ih ⟨item, hrest, hdate⟩]

/-- C22: `ingestGitHubFeedback` and `ingestStackOverflowFeedback` are functions into
lists, so they never raise to the caller; when the remote request fails they return the
empty list, and so they do when the payload is malformed: a GitHub payload that is not
an array of issues, a GitHub response whose rate-limit header is no valid date, a Stack
Overflow response without an `items` array, a Stack Overflow question whose creation
date is no valid date. -/
theorem adapters_return_empty_on_failure (toISOString : JsNum → Option JsString)
    (stackOverflowKey : Option JsString)
    (getGitHub : GitHubRequest → Except JsString GitHubResponse)
    (getStackOverflow : StackOverflowRequest → Except JsString StackOverflowResponse)
    (tags : List JsString) (limit : Option Int) :
    (∀ e, getGitHub (gitHubRequest limit) = Except.error e →
      ingestGitHubFeedback toISOString getGitHub limit = []) ∧
    (∀ response, getGitHub (gitHubRequest limit) = Except.ok response → response.data = none →
      ingestGitHubFeedback toISOString getGitHub limit = []) ∧
    (∀ e, getStackOverflow (stackOverflowRequest stackOverflowKey tags limit) = Except.error e →
      ingestStackOverflowFeedback toISOString stackOverflowKey getStackOverflow tags limit = []) ∧
    (∀ response,
      getStackOverflow (stackOverflowRequest stackOverflowKey tags limit) = Except.ok response →
      response.items = none →
      ingestStackOverflowFeedback toISOString stackOverflowKey getStackOverflow tags limit =
        []) ∧
    (∀ response, getGitHub (gitHubRequest limit) = Except.ok response →
      toISOString (JsNum.mul response.ratelimitReset (JsNum.ofInt 1000)) = none →
      ingestGitHubFeedback toISOString getGitHub limit = []) ∧
    (∀ response items,
      getStackOverflow (stackOverflowRequest stackOverflowKey tags limit) = Except.ok response →
      response.items = some items →
      (∃ item ∈ items,
        toISOString (JsNum.mul (toNumber item.creation_date) (JsNum.ofInt 1000)) = none) →
      ingestStackOverflowFeedback toISOString stackOverflowKey getStackOverflow tags limit =
        []) := by
  refine ⟨?_, ?_, ?_, ?_, ?_, ?_⟩
  · intro e h
    simp only [ingestGitHubFeedback, h]
  · intro response h hdata
    simp only [ingestGitHubFeedback, h, hdata]
    cases toISOString (JsNum.mul response.ratelimitReset (JsNum.ofInt 1000)) <;> rfl
  · intro e h
    simp only [ingestStackOverflowFeedback, h]
  · intro response h hitems
    simp only [ingestStackOverflowFeedback, h, hitems]
  · intro response h hdate
    simp only [ingestGitHubFeedback, h, hdate]
  · intro response items h hitems hdate
    simp only [ingestStackOverflowFeedback, h, hitems,
      processQuestions_of_invalid_date toISOString items hdate, Option.getD_none]

theorem adapters_return_empty_on_failure_witness :
    ingestGitHubFeedback exampleToISOString failingApi (some 5) = [] ∧
    ingestStackOverflowFeedback exampleToISOString none failingApi [js "microsoft-teams"]
      (some 5) = [] :=
  ⟨(adapters_return_empty_on_failure exampleToISOString none failingApi failingApi
      [js "microsoft-teams"] (some 5)).1 _ rfl,
    (adapters_return_empty_on_failure exampleToISOString none failingApi failingApi
      [js "microsoft-teams"] (some 5)).2.2.1 _ rfl⟩

theorem processQuestions_forall₂ (toISOString : JsNum → Option JsString)
    (items : List RawQuestion)
    (hdates : ∀ item ∈ items,
      toISOString (JsNum.mul (toNumber item.creation_date) (JsNum.ofInt 1000)) ≠ none) :
    ∃ questions, processQuestions toISOString items = some questions ∧
      List.Forall₂ (fun item question => processQuestion toISOString item = some question)
        items questions := by
  induction items with
  | nil => exact ⟨[], rfl, List.Forall₂.nil⟩
  | cons item rest ih =>
    obtain ⟨questions, hrest, hall⟩ := ih (fun i hi => hdates i (List.mem_cons_of_mem _ hi))
    have hdate := hdates item (List.mem_cons_self _ _)
    cases hq : processQuestion toISOString item with
    | none =>
      exfalso
      unfold processQuestion at hq
      cases hd : toISOString (JsNum.mul (toNumber item.creation_date) (JsNum.ofInt 1000)) with
      | none => exact hdate hd
      | some d => simp [hd] at hq
    | some question =>
      refine ⟨question :: questions, ?_, List.Forall₂.cons hq hall⟩
      simp only [processQuestions, hq, hrest]

theorem orElse_some_nil (s : JsString) : orElse (some s) [] = s := by
  cases s <;> rfl

theorem orElse_some_of_ne_nil (s d : JsString) (h : s ≠ []) : orElse (some s) d = s := by
  cases s with
  | nil => exact absurd rfl h
  | cons c cs => rfl

/-- C23, as stated, fails: a raw payload does not always give one item per entry. A
Stack Overflow response whose one question has no `creation_date` and a GitHub response
that carries one issue but no `x-ratelimit-reset` header both make the adapter return
the empty list, because `toISOString()` throws on the invalid date and the `catch`
block answers `[]`. -/
theorem invalid_date_drops_items :
    (undatedStackOverflowApi (stackOverflowRequest none [js "microsoft-teams"]
      (some 5))).toOption.map (fun response => (response.items.getD []).length) = some 1 ∧
    ingestStackOverflowFeedback exampleToISOString none undatedStackOverflowApi
      [js "microsoft-teams"] (some 5) = [] ∧
    (headerlessGitHubApi (gitHubRequest (some 5))).toOption.map
      (fun response => (response.data.getD []).length) = some 1 ∧
    ingestGitHubFeedback exampleToISOString headerlessGitHubApi (some 5) = [] := by
  exact ⟨rfl, by decide, rfl, by decide⟩

/-- C23, amended: for a GitHub response that carries a valid rate-limit header, and for
a Stack Overflow payload in which every creation date is a valid date, the adapter
returns exactly one item per entry of the payload, in the same order. The GitHub mapping
sets `body` to "No description" when the issue body is `null` or empty and `labels` to
the list of the label names, `[]` when the labels are missing, and copies title, number,
state, URL and the two dates. The Stack Overflow mapping sets missing tags to `[]`, a
missing score, view_count or answer_count to 0, a missing body or link to "" and a
missing title to "No Title"; a value that is present is kept (an empty title becomes
"No Title", a score or count that is 0 or `NaN` becomes 0), the id is copied and the
creation date is the ISO form of the date. -/
theorem adapters_normalize (toISOString : JsNum → Option JsString)
    (stackOverflowKey : Option JsString)
    (getGitHub : GitHubRequest → Except JsString GitHubResponse)
    (getStackOverflow : StackOverflowRequest → Except JsString StackOverflowResponse)
    (tags : List JsString) (limit : Option Int) :
    (∀ response issues, getGitHub (gitHubRequest limit) = Except.ok response →
      toISOString (JsNum.mul response.ratelimitReset (JsNum.ofInt 1000)) ≠ none →
      response.data = some issues →
      ingestGitHubFeedback toISOString getGitHub limit = issues.map processIssue ∧
      (ingestGitHubFeedback toISOString getGitHub limit).length = issues.length) ∧
    (∀ issue : RawGitHubIssue,
      ((issue.body = none ∨ issue.body = some []) →
        (processIssue issue).body = some (js "No description")) ∧
      (∀ body, issue.body = some body → body ≠ [] → (processIssue issue).body = some body) ∧
      (issue.labels = none → (processIssue issue).labels = []) ∧
      (∀ labels, issue.labels = some labels →
        (processIssue issue).labels = labels.map (fun label => label.name))) ∧
    (∀ response items,
      getStackOverflow (stackOverflowRequest stackOverflowKey tags limit) = Except.ok response →
      response.items = some items →
      (∀ item ∈ items,
        toISOString (JsNum.mul (toNumber item.creation_date) (JsNum.ofInt 1000)) ≠ none) →
      List.Forall₂ (fun item question => processQuestion toISOString item = some question) items
        (ingestStackOverflowFeedback toISOString stackOverflowKey getStackOverflow tags limit) ∧
      (ingestStackOverflowFeedback toISOString stackOverflowKey getStackOverflow tags
        limit).length = items.length) ∧
    (∀ item question, processQuestion toISOString item = some question →
      (item.tags = none → question.tags = []) ∧
      (item.score = none → question.score = JsNum.ofInt 0) ∧
      (item.view_count = none → question.view_count = JsNum.ofInt 0) ∧
      (item.answer_count = none → question.answer_count = JsNum.ofInt 0) ∧
      (item.body = none → question.body = some []) ∧
      (item.link = none → question.link = []) ∧
      (item.title = none → question.title = js "No Title")) ∧
    (∀ issue : RawGitHubIssue,
      (processIssue issue).title = issue.title ∧
      (processIssue issue).number = issue.number ∧
      (processIssue issue).state = issue.state ∧
      (processIssue issue).url = issue.html_url ∧
      (processIssue issue).created_at = issue.created_at ∧
      (processIssue issue).updated_at = issue.updated_at) ∧
    (∀ item question, processQuestion toISOString item = some question →
      question.question_id = item.question_id ∧
      toISOString (JsNum.mul (toNumber item.creation_date) (JsNum.ofInt 1000)) =
        some question.creation_date ∧
      (∀ title, item.title = some title → title ≠ [] → question.title = title) ∧
      (item.title = some [] → question.title = js "No Title") ∧
      (∀ body, item.body = some body → question.body = some body) ∧
      (∀ tags, item.tags = some tags → question.tags = tags) ∧
      (∀ link, item.link = some link → question.link = link) ∧
      (∀ x, item.score = some x → question.score = if x.truthy then x else JsNum.ofInt 0) ∧
      (∀ x, item.view_count = some x →
        question.view_count = if x.truthy then x else JsNum.ofInt 0) ∧
      (∀ x, item.answer_count = some x →
        question.answer_count = if x.truthy then x else JsNum.ofInt 0)) := by
  refine ⟨?_, ?_, ?_, ?_, ?_, ?_⟩
  · intro response issues hget hheader hdata
    have hres : ingestGitHubFeedback toISOString getGitHub limit = issues.map processIssue := by
      simp only [ingestGitHubFeedback, hget, hdata]
      cases hd : toISOString (JsNum.mul response.ratelimitReset (JsNum.ofInt 1000)) with
      | none => exact absurd hd hheader
      | some d => rfl
    exact ⟨hres, by rw [hres, List.length_map]⟩
  · intro issue
    refine ⟨?_, ?_, ?_, ?_⟩
    · rintro (h | h) <;> simp [processIssue, h, orElse, truthy]
    · intro body h hne
      cases body with
      | nil => exact absurd rfl hne
      | cons c cs => simp [processIssue, h, orElse, truthy]
    · intro h
      simp [processIssue, h]
    · intro labels h
      simp [processIssue, h]
  · intro response items hget hitems hdates
    obtain ⟨questions, hq, hall⟩ := processQuestions_forall₂ toISOString items hdates
    have hres : ingestStackOverflowFeedback toISOString stackOverflowKey getStackOverflow tags
        limit = questions := by
      simp only [ingestStackOverflowFeedback, hget, hitems, hq, Option.getD_some]
    rw [hres]
    exact ⟨hall, hall.length_eq.symm⟩
  · intro item question h
    unfold processQuestion at h
    cases hd : toISOString (JsNum.mul (toNumber item.creation_date) (JsNum.ofInt 1000)) with
    | none => simp [hd] at h
    | some d =>
      simp only [hd, Option.some.injEq] at h
      subst h
      refine ⟨?_, ?_, ?_, ?_, ?_, ?_, ?_⟩ <;> intro hnone <;> simp [hnone, orZero, orElse]
  · intro issue
    exact ⟨rfl, rfl, rfl, rfl, rfl, rfl⟩
  · intro item question h
    unfold processQuestion at h
    cases hd : toISOString (JsNum.mul (toNumber item.creation_date) (JsNum.ofInt 1000)) with
    | none => simp [hd] at h
    | some d =>
      simp only [hd, Option.some.injEq] at h
      subst h
      refine ⟨rfl, rfl, ?_, ?_, ?_, ?_, ?_, ?_, ?_, ?_⟩
      · intro title htitle hne
        simp only [htitle, orElse_some_of_ne_nil title _ hne]
      · intro htitle
        simp only [htitle]
        rfl
      · intro body hbody
        simp only [hbody, orElse_some_nil]
      · intro tags htags
        simp only [htags, Option.getD_some]
      · intro link hlink
        simp only [hlink, orElse_some_nil]
      · intro x hx
        simp only [hx, orZero]
      · intro x hx
        simp only [hx, orZero]
      · intro x hx
        simp only [hx, orZero]

theorem adapters_normalize_witness :
    (ingestGitHubFeedback exampleToISOString exampleGitHubApi (some 5)).map
      (fun item => (item.body, item.labels)) = [(some (js "No description"), [js "bug"])] ∧
    (ingestStackOverflowFeedback exampleToISOString none exampleStackOverflowApi
      [js "microsoft-teams"] (some 5)).length = 1 := by
  have h := adapters_normalize exampleToISOString none exampleGitHubApi exampleStackOverflowApi
    [js "microsoft-teams"] (some 5)
  refine ⟨?_, ?_⟩
  · rw [(h.1 _ _ rfl (by decide) rfl).1]
    decide
  · exact (h.2.2.1 _ _ rfl rfl (by decide)).2

/-- C28: for every raw GitHub issue, the item that the mapping of `ingestGitHubFeedback`
produces has no `view_count`, `comments` or `reactions` property, so
`analyzeFeedbackItem(item, 'github')` gives it the engagement score 0, whatever the
comment and reaction counts of the issue are. -/
theorem github_engagement_score_zero (issue : RawGitHubIssue) :
    (processIssue issue).toItem.view_count = none ∧
    (processIssue issue).toItem.comments = none ∧
    (processIssue issue).toItem.reactions = none ∧
    (analyzeFeedbackItem (processIssue issue).toItem Source.github).engagement_score =
      JsNum.ofInt 0 := by
  refine ⟨rfl, rfl, rfl, ?_⟩
  have hscore : calculateEngagementScore (processIssue issue).toItem = JsNum.ofInt 0 := by
    simp only [calculateEngagementScore, GitHubFeedback.toItem, Option.isSome_none,
      Bool.false_eq_true, if_false, orZero]
    decide
  by_cases hblank : trim (itemText (processIssue issue).toItem) = []
  · rw [analyzeFeedbackItem_of_blank _ _ hblank]
    exact hscore
  · rw [analyzeFeedbackItem_of_not_blank _ _ hblank]
    exact hscore

/-! ## Theorems: keyword presence -/

/-- A word without line feed occurs in two texts joined by a line feed exactly when it
occurs in one of them. -/
theorem infix_append_cons_iff (w a b : List Nat) (c : Nat) (hc : c ∉ w) :
    w <:+: a ++ c :: b ↔ w <:+: a ∨ w <:+: b := by
  constructor
  · rintro ⟨s, t, h⟩
    rw [List.append_assoc] at h
    rcases List.append_eq_append_iff.1 h with ⟨a2, ha, hw⟩ | ⟨c2, hs, hcb⟩
    · rcases List.append_eq_append_iff.1 hw.symm with ⟨x, hx1, hx2⟩ | ⟨y, hy1, hy2⟩
      · cases x with
        | nil =>
          left
          exact ⟨s, [], by simp [ha, hx1]⟩
        | cons x0 xs =>
          exfalso
          simp only [List.cons_append, List.cons.injEq] at hx2
          apply hc
          rw [hx1, ← hx2.1]
          simp
      · left
        exact ⟨s, y, by simp [ha, hy1]⟩
    · cases c2 with
      | nil =>
        simp only [List.nil_append] at hcb
        cases w with
        | nil => left; exact List.nil_infix
        | cons w0 ws =>
          exfalso
          simp only [List.cons_append, List.cons.injEq] at hcb
          apply hc
          rw [hcb.1]
          simp
      | cons c0 cs =>
        right
        simp only [List.cons_append, List.cons.injEq] at hcb
        exact ⟨cs, t, by simp [hcb.2]⟩
  · rintro (h | h)
    · exact h.trans (List.infix_append' [] a (c :: b) |>.trans (by simp))
    · exact h.trans ((List.suffix_cons c b).isInfix.trans (List.suffix_append a (c :: b)).isInfix)

theorem toLowerCase_append (s t : JsString) :
    toLowerCase (s ++ t) = toLowerCase s ++ toLowerCase t := by
  simp [toLowerCase]

theorem toLowerCase_cons_lf (t : JsString) : toLowerCase (10 :: t) = 10 :: toLowerCase t := by
  have h : lowerCodeUnit 10 = [10] := by decide
  simp [toLowerCase, h]

theorem includes_doubled (w t : JsString) (h : 10 ∉ w) :
    includes (toLowerCase (t ++ 10 :: t)) w = includes (toLowerCase t) w := by
  simp only [includes, toLowerCase_append, toLowerCase_cons_lf,
    infix_append_cons_iff w _ _ 10 h, or_self]

theorem includes_with_lf (w t : JsString) (h : 10 ∉ w) :
    includes (toLowerCase (t ++ [10])) w = includes (toLowerCase t) w := by
  have hnil : toLowerCase ([] : JsString) = [] := rfl
  have hw : w ≠ [] → ¬ w <:+: ([] : List Nat) := by
    intro hne hinf
    exact hne (List.infix_nil.1 hinf)
  simp only [includes, toLowerCase_append, toLowerCase_cons_lf, hnil,
    infix_append_cons_iff w _ _ 10 h]
  by_cases hwn : w = []
  · subst hwn
    simp
  · simp [hw hwn]

theorem positiveCount_doubled (t : JsString) :
    positiveCount (t ++ 10 :: t) = positiveCount t ∧ positiveCount (t ++ [10]) = positiveCount t := by
  have hkeys : ∀ w ∈ positiveKeywords, 10 ∉ w := by decide
  constructor
  · unfold positiveCount
    congr 1
    exact List.filter_congr (fun w hw => includes_doubled w t (hkeys w hw))
  · unfold positiveCount
    congr 1
    exact List.filter_congr (fun w hw => includes_with_lf w t (hkeys w hw))

theorem negativeCount_doubled (t : JsString) :
    negativeCount (t ++ 10 :: t) = negativeCount t ∧ negativeCount (t ++ [10]) = negativeCount t := by
  have hkeys : ∀ w ∈ negativeKeywords, 10 ∉ w := by decide
  constructor
  · unfold negativeCount
    congr 1
    exact List.filter_congr (fun w hw => includes_doubled w t (hkeys w hw))
  · unfold negativeCount
    congr 1
    exact List.filter_congr (fun w hw => includes_with_lf w t (hkeys w hw))

/-- C27: `analyzeFeedbackItem` counts each keyword at most once, by its presence as a
substring, so both counts are at most 8, and repetition does not change the result: the
sentiment computed for a text `t` followed by a line feed and `t` again is the sentiment
computed for `t`, and the item whose title and body are both `t` gets the sentiment of
the item whose title is `t` and whose body is empty. The statement is made for texts on
which `toLowerCase` is the Unicode mapping of the program (`InCaseModel`); there the
lower-case form of a character does not depend on its neighbours. -/
theorem sentiment_of_repeated_text (t : JsString) (source : Source)
    (_ht : InCaseModel t) :
    positiveCount t ≤ 8 ∧ negativeCount t ≤ 8 ∧
    positiveCount t = positiveKeywords.countP (fun w => decide (w <:+: toLowerCase t)) ∧
    negativeCount t = negativeKeywords.countP (fun w => decide (w <:+: toLowerCase t)) ∧
    sentimentOf (t ++ 10 :: t) = sentimentOf t ∧
    (analyzeFeedbackItem { title := some t, body := some t } source).sentiment =
      (analyzeFeedbackItem { title := some t } source).sentiment := by
  have hp := positiveCount_doubled t
  have hn := negativeCount_doubled t
  refine ⟨?_, ?_, ?_, ?_, ?_, ?_⟩
  · exact (List.length_filter_le _ _).trans (by decide)
  · exact (List.length_filter_le _ _).trans (by decide)
  · simp only [positiveCount, includes, List.countP_eq_length_filter]
  · simp only [negativeCount, includes, List.countP_eq_length_filter]
  · simp only [sentimentOf, hp.1, hn.1]
  · have htext2 : itemText { title := some t, body := some t } = t ++ 10 :: t := by
      simp [itemText, orElse_nil]
    have htext1 : itemText { title := some t } = t ++ [10] := by
      simp [itemText, orElse_nil]
    have hblank : trim (itemText { title := some t, body := some t }) = [] ↔
        trim (itemText { title := some t }) = [] := by
      rw [trim_itemText_eq_nil_iff, trim_itemText_eq_nil_iff]
      simp
    by_cases hb : trim (itemText { title := some t }) = []
    · rw [analyzeFeedbackItem_of_blank _ source hb,
        analyzeFeedbackItem_of_blank _ source (hblank.2 hb)]
    · rw [analyzeFeedbackItem_of_not_blank _ source hb,
        analyzeFeedbackItem_of_not_blank _ source (fun h => hb (hblank.1 h))]
      simp only [htext1, htext2, sentimentOf, hp.1, hp.2, hn.1, hn.2]

theorem sentiment_of_repeated_text_witness :
    InCaseModel (js "Good fix, wor\u212as") ∧
    sentimentOf (js "Good fix, wor\u212as" ++ 10 :: js "Good fix, wor\u212as") =
      Sentiment.positive ∧
    positiveCount (js "Good fix, wor\u212as") = 2 :=
  ⟨by decide,
    (sentiment_of_repeated_text (js "Good fix, wor\u212as") Source.github
      (by decide)).2.2.2.2.1.trans (by decide),
    (sentiment_of_repeated_text (js "Good fix, wor\u212as") Source.github
      (by decide)).2.2.1.trans (by decide)⟩

/-! ## Theorems: counts of `analyzeRecentFeedback` -/

/-- C29: for every limit `L ≥ 0` and every pair of fetched lists, `total_items` is the
length of the returned analysis list and is `min L (github_items + stackoverflow_items)`,
while `github_items` and `stackoverflow_items` are the numbers of fetched items, before
truncation; so `total_items ≤ github_items + stackoverflow_items`, strictly when more
than `L` items were fetched. -/
theorem analyzeRecentFeedback_counts (getTime : Option JsString → Option Int)
    (ingestGitHubFeedback ingestStackOverflowFeedback : Int → List Item) (L : Int)
    (hL : 0 ≤ L) :
    (analyzeRecentFeedback getTime ingestGitHubFeedback ingestStackOverflowFeedback
      (some L)).total_items =
      (analyzeRecentFeedback getTime ingestGitHubFeedback ingestStackOverflowFeedback
        (some L)).analysis.length ∧
    (analyzeRecentFeedback getTime ingestGitHubFeedback ingestStackOverflowFeedback
      (some L)).github_items = (ingestGitHubFeedback L).length ∧
    (analyzeRecentFeedback getTime ingestGitHubFeedback ingestStackOverflowFeedback
      (some L)).stackoverflow_items = (ingestStackOverflowFeedback L).length ∧
    ((analyzeRecentFeedback getTime ingestGitHubFeedback ingestStackOverflowFeedback
      (some L)).total_items : Int) =
      min L (((analyzeRecentFeedback getTime ingestGitHubFeedback ingestStackOverflowFeedback
          (some L)).github_items +
        (analyzeRecentFeedback getTime ingestGitHubFeedback ingestStackOverflowFeedback
          (some L)).stackoverflow_items : Nat) : Int) ∧
    (analyzeRecentFeedback getTime ingestGitHubFeedback ingestStackOverflowFeedback
      (some L)).total_items ≤
      (analyzeRecentFeedback getTime ingestGitHubFeedback ingestStackOverflowFeedback
          (some L)).github_items +
        (analyzeRecentFeedback getTime ingestGitHubFeedback ingestStackOverflowFeedback
          (some L)).stackoverflow_items ∧
    (L < ((ingestGitHubFeedback L).length + (ingestStackOverflowFeedback L).length : Nat) →
      (analyzeRecentFeedback getTime ingestGitHubFeedback ingestStackOverflowFeedback
        (some L)).total_items <
        (analyzeRecentFeedback getTime ingestGitHubFeedback ingestStackOverflowFeedback
            (some L)).github_items +
          (analyzeRecentFeedback getTime ingestGitHubFeedback ingestStackOverflowFeedback
            (some L)).stackoverflow_items) := by
  have hlen : (analyzeRecentFeedback getTime ingestGitHubFeedback ingestStackOverflowFeedback
      (some L)).total_items =
      min L.toNat ((ingestGitHubFeedback L).length + (ingestStackOverflowFeedback L).length) := by
    simp only [analyzeRecentFeedback, Option.getD_some, sliceTo, not_lt.2 hL, if_false,
      List.length_take, (sortBy_perm _ _).length_eq, List.length_append, List.length_map]
  have hg : (analyzeRecentFeedback getTime ingestGitHubFeedback ingestStackOverflowFeedback
      (some L)).github_items = (ingestGitHubFeedback L).length := by
    simp [analyzeRecentFeedback]
  have hs : (analyzeRecentFeedback getTime ingestGitHubFeedback ingestStackOverflowFeedback
      (some L)).stackoverflow_items = (ingestStackOverflowFeedback L).length := by
    simp [analyzeRecentFeedback]
  refine ⟨rfl, hg, hs, ?_, ?_, ?_⟩
  · rw [hlen, hg, hs]
    omega
  · rw [hlen, hg, hs]
    omega
  · intro hlt
    rw [hlen, hg, hs]
    omega

theorem analyzeRecentFeedback_counts_witness :
    (analyzeRecentFeedback exampleGetTime (fun _ => exampleIssues) (fun _ => exampleQuestions)
      (some 2)).total_items = 2 ∧
    (analyzeRecentFeedback exampleGetTime (fun _ => exampleIssues) (fun _ => exampleQuestions)
      (some 2)).github_items = 2 ∧
    (analyzeRecentFeedback exampleGetTime (fun _ => exampleIssues) (fun _ => exampleQuestions)
      (some 2)).stackoverflow_items = 1 := by
  have h := analyzeRecentFeedback_counts exampleGetTime (fun _ => exampleIssues)
    (fun _ => exampleQuestions) 2 (by decide)
  exact ⟨h.1.trans (by decide), h.2.1.trans (by decide), h.2.2.1.trans (by decide)⟩

/-! ## Theorems: limits -/

theorem not_digit_of_isWhiteSpace {c : Nat} (h : isWhiteSpace c = true) : c < 48 ∨ 57 < c := by
  simp only [isWhiteSpace, Bool.or_eq_true, Bool.and_eq_true, decide_eq_true_eq] at h
  omega

theorem isDigitOf_ten_of_digit {c : Nat} (h : 48 ≤ c ∧ c ≤ 57) : isDigitOf 10 c = true := by
  simp only [isDigitOf, digitValue, if_pos h, decide_eq_true_eq]
  omega

theorem digitValue_of_digit {c : Nat} (h : 48 ≤ c ∧ c ≤ 57) :
    (digitValue c).getD 0 = c - 48 := by
  simp only [digitValue, if_pos h, Option.getD_some]

theorem foldl_digits (digits : JsString) (h : AllDecimalDigits digits) (init : Nat) :
    digits.foldl (fun acc c => acc * 10 + (digitValue c).getD 0) init =
      digits.foldl (fun acc c => acc * 10 + (c - 48)) init := by
  induction digits generalizing init with
  | nil => rfl
  | cons c cs ih =>
    simp only [List.foldl_cons, digitValue_of_digit (h c (List.mem_cons_self _ _))]
    exact ih (fun d hd => h d (List.mem_cons_of_mem _ hd)) _

/-- The number that `parseInt` reads from a string of decimal digits, unsigned. -/
theorem parseInt_digits (digits : JsString) (hne : digits ≠ []) (h : AllDecimalDigits digits) :
    parseInt (some digits) = some (decimalValue digits : Int) := by
  cases digits with
  | nil => exact absurd rfl hne
  | cons c cs =>
    have hc := h c (List.mem_cons_self _ _)
    have hws : ¬ isWhiteSpace c = true := fun hw => by
      have := not_digit_of_isWhiteSpace hw
      omega
    have hdrop : (c :: cs).dropWhile isWhiteSpace = c :: cs := List.dropWhile_cons_of_neg hws
    have h45 : ¬ c = 45 := by omega
    have h43 : ¬ c = 43 := by omega
    have hhex : ¬ ((c :: cs).take 2 = [48, 120] ∨ (c :: cs).take 2 = [48, 88]) := by
      cases cs with
      | nil => simp
      | cons d ds =>
        have hd := h d (List.mem_cons_of_mem _ (List.mem_cons_self _ _))
        simp only [List.take_succ_cons, List.take_zero, List.cons.injEq, and_true, not_or,
          not_and]
        constructor <;> intro _ <;> omega
    have htake : (c :: cs).takeWhile (isDigitOf 10) = c :: cs :=
      List.takeWhile_eq_self_iff.2 (fun d hd => isDigitOf_ten_of_digit (h d hd))
    simp only [parseInt, hdrop, List.head?_cons, Option.some.injEq, h45, h43, or_self, if_false,
      hhex, htake, decide_False, Bool.false_eq_true, List.cons_ne_nil, not_false_eq_true,
      foldl_digits (c :: cs) h, decimalValue]

/-- The number that `parseInt` reads from a minus sign followed by decimal digits. -/
theorem parseInt_minus_digits (digits : JsString) (hne : digits ≠ [])
    (h : AllDecimalDigits digits) :
    parseInt (some (45 :: digits)) = some (-(decimalValue digits : Int)) := by
  cases digits with
  | nil => exact absurd rfl hne
  | cons c cs =>
    have hdrop : (45 :: c :: cs).dropWhile isWhiteSpace = 45 :: c :: cs :=
      List.dropWhile_cons_of_neg (by decide)
    have hhex : ¬ ((c :: cs).take 2 = [48, 120] ∨ (c :: cs).take 2 = [48, 88]) := by
      cases cs with
      | nil => simp
      | cons d ds =>
        have hd := h d (List.mem_cons_of_mem _ (List.mem_cons_self _ _))
        simp only [List.take_succ_cons, List.take_zero, List.cons.injEq, and_true, not_or,
          not_and]
        constructor <;> intro _ <;> omega
    have htake : (c :: cs).takeWhile (isDigitOf 10) = c :: cs :=
      List.takeWhile_eq_self_iff.2 (fun d hd => isDigitOf_ten_of_digit (h d hd))
    simp only [parseInt, hdrop, List.head?_cons, true_or, if_true, List.tail_cons, hhex,
      if_false, htake, List.cons_ne_nil, foldl_digits (c :: cs) h, decimalValue]

theorem effectiveLimit_ne_zero (query : Query) : effectiveLimit query ≠ 0 := by
  unfold effectiveLimit
  cases parseInt query.limit with
  | none => decide
  | some n =>
    simp only
    split_ifs with h
    · decide
    · exact h

/-- C30: `GET /analyze` never uses the effective limit 0. A `limit` query value that is
missing, that is not numeric (`parseInt` gives `NaN`) or that is 0 yields the default 5,
and every other integer, written in decimal digits with or without a minus sign and of
magnitude at most `2 ^ 53` (where a JavaScript number is exact), is passed through
unchanged. Likewise each adapter requests 30 items when its limit
argument is missing or 0, and the given number of items otherwise. -/
theorem limit_defaults (query : Query) :
    effectiveLimit query ≠ 0 ∧
    (query.limit = none → effectiveLimit query = 5) ∧
    (parseInt query.limit = none → effectiveLimit query = 5) ∧
    (parseInt query.limit = some 0 → effectiveLimit query = 5) ∧
    (∀ n, parseInt query.limit = some n → n ≠ 0 → effectiveLimit query = n) ∧
    (∀ digits, digits ≠ [] → AllDecimalDigits digits → decimalValue digits ≠ 0 →
      decimalValue digits ≤ 9007199254740992 →
      query.limit = some digits → effectiveLimit query = decimalValue digits) ∧
    (∀ digits, digits ≠ [] → AllDecimalDigits digits → decimalValue digits ≠ 0 →
      decimalValue digits ≤ 9007199254740992 →
      query.limit = some (45 :: digits) → effectiveLimit query = -(decimalValue digits : Int)) ∧
    (∀ digits, digits ≠ [] → AllDecimalDigits digits → decimalValue digits = 0 →
      query.limit = some digits → effectiveLimit query = 5) ∧
    (gitHubRequest none).per_page = 30 ∧ (gitHubRequest (some 0)).per_page = 30 ∧
    (∀ key tags, (stackOverflowRequest key tags none).pagesize = 30 ∧
      (stackOverflowRequest key tags (some 0)).pagesize = 30) ∧
    (∀ n : Int, n ≠ 0 → (gitHubRequest (some n)).per_page = n ∧
      ∀ key tags, (stackOverflowRequest key tags (some n)).pagesize = n) := by
  refine ⟨effectiveLimit_ne_zero query, ?_, ?_, ?_, ?_, ?_, ?_, ?_, rfl, rfl,
    fun _ _ => ⟨rfl, rfl⟩, ?_⟩
  · intro h
    simp [effectiveLimit, h, parseInt]
  · intro h
    simp [effectiveLimit, h]
  · intro h
    simp [effectiveLimit, h]
  · intro n h hn
    simp [effectiveLimit, h, hn]
  · intro digits hne hall hval _ hq
    have hv : (decimalValue digits : Int) ≠ 0 := by exact_mod_cast hval
    simp [effectiveLimit, hq, parseInt_digits digits hne hall, hv]
  · intro digits hne hall hval _ hq
    have hv : (decimalValue digits : Int) ≠ 0 := by exact_mod_cast hval
    simp [effectiveLimit, hq, parseInt_minus_digits digits hne hall, hv]
  · intro digits hne hall hval hq
    simp [effectiveLimit, hq, parseInt_digits digits hne hall, hval]
  · intro n hn
    exact ⟨by simp [gitHubRequest, limitOr, hn],
      fun key tags => by simp [stackOverflowRequest, limitOr, hn]⟩

theorem limit_defaults_witness :
    effectiveLimit { limit := some (js "12") } = 12 ∧
    effectiveLimit { limit := some (js "-3") } = -3 ∧
    effectiveLimit { limit := some (js "0") } = 5 ∧
    effectiveLimit { limit := some (js "abc") } = 5 ∧
    effectiveLimit {} = 5 := by
  have h12 := (limit_defaults { limit := some (js "12") }).2.2.2.2.2.1 (js "12") (by decide)
    (by decide) (by decide) (by decide) rfl
  have h3 := (limit_defaults { limit := some (js "-3") }).2.2.2.2.2.2.1 (js "3") (by decide)
    (by decide) (by decide) (by decide) rfl
  have h0 := (limit_defaults { limit := some (js "0") }).2.2.2.2.2.2.2.1 (js "0") (by decide)
    (by decide) (by decide) rfl
  have habc := (limit_defaults { limit := some (js "abc") }).2.2.1 (by decide)
  have hmissing := (limit_defaults {}).2.1 rfl
  exact ⟨h12.trans (by decide), h3.trans (by decide), h0, habc, hmissing⟩

/-! ## Theorems: prompt construction -/

set_option maxRecDepth 100000

theorem userMessageTemplate_eq :
    createDefaultPrompt.userMessageTemplate =
      promptBeforeSource ++ (js "\x7b\x7bsource\x7d\x7d" ++ (promptBeforeTitle ++
        (js "\x7b\x7btitle\x7d\x7d" ++ (promptBeforeBody ++
          (js "\x7b\x7bbody\x7d\x7d" ++ promptAfterBody))))) := by
  decide

/-- C24, counterexample: for the title `$&` the prompt built by `createAnalysisPrompt` is
not the literal substitution, the placeholder of the title is still in it; and for a
source that is the placeholder of the title, the title is put where the source belongs. -/
theorem dollar_title_not_literal :
    createAnalysisPrompt dollarTitle (js "general") ≠ literalPrompt dollarTitle ∧
    includes (createAnalysisPrompt dollarTitle (js "general")) (js "\x7b\x7btitle\x7d\x7d") =
      true ∧
    createAnalysisPrompt placeholderSource (js "general") ≠ literalPrompt placeholderSource ∧
    createAnalysisPrompt placeholderSource (js "general") =
      promptBeforeSource ++ js "Crash" ++ promptBeforeTitle ++ js "\x7b\x7btitle\x7d\x7d" ++
        promptBeforeBody ++ js "It crashes" ++ promptAfterBody := by
  decide

theorem expandReplacement_of_no_pattern (matched before after : JsString) :
    ∀ replacement : JsString, hasDollarPattern replacement = false →
      expandReplacement matched before after replacement = replacement
  | [], _ => by simp [expandReplacement]
  | [c], _ => by
    by_cases hc : c = 36
    · subst hc
      simp [expandReplacement]
    · simp [expandReplacement]
  | c :: d :: rest, h => by
    have ih := expandReplacement_of_no_pattern matched before after (d :: rest)
    simp only [hasDollarPattern, Bool.or_eq_false_iff, Bool.and_eq_false_imp,
      decide_eq_true_eq, Bool.or_eq_false_iff, decide_eq_false_iff_not] at h
    have ih2 := ih h.2
    by_cases hc : c = 36
    · have hd := h.1 hc
      rw [expandReplacement]
      · rw [ih2]
      all_goals
        intro rest2 _ h2
        injection h2 with h2 h3
        omega
    · rw [expandReplacement]
      · rw [ih2]
      all_goals
        intro rest2 h1
        exact absurd h1 hc

/-- A stretch that does not hold the first code unit of the pattern is skipped by the
search for the first occurrence. -/
theorem splitAtFirst_skip_of_head (p s : JsString) (c : Nat) (hc : p.head? = some c) :
    ∀ pre : JsString, c ∉ pre →
      splitAtFirst p (pre ++ s) = (splitAtFirst p s).map (fun q => (pre ++ q.1, q.2))
  | [], _ => by simp
  | x :: rest, h => by
    have ih := splitAtFirst_skip_of_head p s c hc rest (fun hm => h (List.mem_cons_of_mem _ hm))
    have hx : ¬ p <+: x :: (rest ++ s) := by
      intro hpre
      cases p with
      | nil => simp at hc
      | cons y p2 =>
        simp only [List.head?_cons, Option.some.injEq] at hc
        rw [List.cons_prefix_cons] at hpre
        exact h (by rw [← hc, hpre.1]; exact List.mem_cons_self _ _)
    rw [List.cons_append, splitAtFirst, if_neg hx, ih, Option.map_map]
    rfl

/-- A stretch in which the pattern does not occur, followed by a code unit that is not
in the pattern, is skipped by the search for the first occurrence. -/
theorem splitAtFirst_skip_of_not_infix (p s : JsString) (d : Nat) (hs : s.head? = some d)
    (hd : d ∉ p) :
    ∀ mid : JsString, ¬ p <:+: mid →
      splitAtFirst p (mid ++ s) = (splitAtFirst p s).map (fun q => (mid ++ q.1, q.2))
  | [], _ => by simp
  | x :: rest, h => by
    have ih := splitAtFirst_skip_of_not_infix p s d hs hd rest
      (fun hm => h (List.infix_cons hm))
    have hx : ¬ p <+: x :: (rest ++ s) := by
      intro hpre
      rw [← List.cons_append] at hpre
      rcases List.prefix_or_prefix_of_prefix hpre (List.prefix_append (x :: rest) s) with h1 | h1
      · exact h h1.isInfix
      · obtain ⟨t, rfl⟩ := h1
        rw [List.prefix_append_right_inj] at hpre
        cases t with
        | nil => exact h (by simp)
        | cons y t2 =>
          cases s with
          | nil => simp at hs
          | cons z s2 =>
            simp only [List.head?_cons, Option.some.injEq] at hs
            rw [List.cons_prefix_cons] at hpre
            exact hd (by rw [← hs, ← hpre.1]; simp)
    rw [List.cons_append, splitAtFirst, if_neg hx, ih, Option.map_map]
    rfl

theorem splitAtFirst_prefix (p s : JsString) (hp : p ≠ []) :
    splitAtFirst p (p ++ s) = some ([], s) := by
  cases p with
  | nil => exact absurd rfl hp
  | cons c p2 =>
    have hpre : c :: p2 <+: c :: (p2 ++ s) := List.prefix_append (c :: p2) s
    rw [List.cons_append, splitAtFirst, if_pos hpre]
    simp

theorem replace_of_split (s p r u v : JsString) (hsplit : splitAtFirst p s = some (u, v))
    (hr : hasDollarPattern r = false) : replace s p r = u ++ r ++ v := by
  simp only [replace, hsplit, expandReplacement_of_no_pattern p u v r hr]

theorem promptBeforeTitle_head (s : JsString) : (promptBeforeTitle ++ s).head? = some 10 := rfl

theorem promptBeforeBody_head (s : JsString) : (promptBeforeBody ++ s).head? = some 10 := rfl

/-- C24, amended: when none of source, title and body of the item holds a replacement
pattern (`$` followed by `$`, `&`, a backquote or an apostrophe), the source holds
neither the placeholder of the title nor that of the body, and the title does not hold
the placeholder of the body, the prompt built by `createAnalysisPrompt` is the literal
substitution: the fixed texts of the template with the three values between them. -/
theorem createAnalysisPrompt_literal (feedback : FeedbackItem) (type : JsString)
    (hsource : hasDollarPattern feedback.source = false)
    (htitle : hasDollarPattern feedback.title = false)
    (hbody : hasDollarPattern feedback.body = false)
    (hst : includes feedback.source (js "\x7b\x7btitle\x7d\x7d") = false)
    (hsb : includes feedback.source (js "\x7b\x7bbody\x7d\x7d") = false)
    (htb : includes feedback.title (js "\x7b\x7bbody\x7d\x7d") = false) :
    createAnalysisPrompt feedback type = literalPrompt feedback := by
  have hst2 : ¬ js "\x7b\x7btitle\x7d\x7d" <:+: feedback.source := by
    simpa [includes] using hst
  have hsb2 : ¬ js "\x7b\x7bbody\x7d\x7d" <:+: feedback.source := by
    simpa [includes] using hsb
  have htb2 : ¬ js "\x7b\x7bbody\x7d\x7d" <:+: feedback.title := by
    simpa [includes] using htb
  have h1 : splitAtFirst (js "\x7b\x7bsource\x7d\x7d") createDefaultPrompt.userMessageTemplate =
      some (promptBeforeSource, promptBeforeTitle ++ (js "\x7b\x7btitle\x7d\x7d" ++
        (promptBeforeBody ++ (js "\x7b\x7bbody\x7d\x7d" ++ promptAfterBody)))) := by
    rw [userMessageTemplate_eq,
      splitAtFirst_skip_of_head _ _ 123 (by decide) promptBeforeSource (by decide),
      splitAtFirst_prefix _ _ (by decide)]
    simp
  have h2 : splitAtFirst (js "\x7b\x7btitle\x7d\x7d")
      (promptBeforeSource ++ (feedback.source ++ (promptBeforeTitle ++
        (js "\x7b\x7btitle\x7d\x7d" ++ (promptBeforeBody ++
          (js "\x7b\x7bbody\x7d\x7d" ++ promptAfterBody)))))) =
      some (promptBeforeSource ++ (feedback.source ++ promptBeforeTitle),
        promptBeforeBody ++ (js "\x7b\x7bbody\x7d\x7d" ++ promptAfterBody)) := by
    rw [splitAtFirst_skip_of_head _ _ 123 (by decide) promptBeforeSource (by decide),
      splitAtFirst_skip_of_not_infix _ _ 10 (promptBeforeTitle_head _) (by decide)
        feedback.source hst2,
      splitAtFirst_skip_of_head _ _ 123 (by decide) promptBeforeTitle (by decide),
      splitAtFirst_prefix _ _ (by decide)]
    simp
  have h3 : splitAtFirst (js "\x7b\x7bbody\x7d\x7d")
      (promptBeforeSource ++ (feedback.source ++ (promptBeforeTitle ++
        (feedback.title ++ (promptBeforeBody ++
          (js "\x7b\x7bbody\x7d\x7d" ++ promptAfterBody)))))) =
      some (promptBeforeSource ++ (feedback.source ++ (promptBeforeTitle ++
        (feedback.title ++ promptBeforeBody))), promptAfterBody) := by
    rw [splitAtFirst_skip_of_head _ _ 123 (by decide) promptBeforeSource (by decide),
      splitAtFirst_skip_of_not_infix _ _ 10 (promptBeforeTitle_head _) (by decide)
        feedback.source hsb2,
      splitAtFirst_skip_of_head _ _ 123 (by decide) promptBeforeTitle (by decide),
      splitAtFirst_skip_of_not_infix _ _ 10 (promptBeforeBody_head _) (by decide)
        feedback.title htb2,
      splitAtFirst_skip_of_head _ _ 123 (by decide) promptBeforeBody (by decide),
      splitAtFirst_prefix _ _ (by decide)]
    simp
  unfold createAnalysisPrompt literalPrompt
  rw [replace_of_split _ _ _ _ _ h1 hsource]
  simp only [List.append_assoc]
  rw [replace_of_split _ _ _ _ _ h2 htitle]
  simp only [List.append_assoc]
  rw [replace_of_split _ _ _ _ _ h3 hbody]
  simp only [List.append_assoc]

theorem createAnalysisPrompt_literal_witness :
    createAnalysisPrompt exampleItem (js "bug") = literalPrompt exampleItem :=
  createAnalysisPrompt_literal exampleItem (js "bug") (by decide) (by decide) (by decide)
    (by decide) (by decide) (by decide)

/-! ## Theorems: prompt selection -/

/-- C25: the enhanced analyzer does not select a template by type. For every item and
every two types the user message is the same, every analyzer leaves the same requests
behind whichever of the two types it is called with, and a recording provider sees
one and the same request: the system message of `createDefaultPrompt` and the user
message built from its one template. The template table of the first analyzer, by
contrast, has four entries with pairwise different system messages, none of them the
system message of `createDefaultPrompt`, and answers every other type with the general
entry. -/
theorem analysis_request_ignores_type (feedback : FeedbackItem) (type1 type2 : JsString) :
    createAnalysisPrompt feedback type1 = createAnalysisPrompt feedback type2 ∧
    (∀ (σ : Type) (analyzer : Analyzer σ) (s : σ),
      (analysisOperation analyzer feedback type1 s).2 =
        (analysisOperation analyzer feedback type2 s).2) ∧
    (analysisOperation recordingAnalyzer feedback type1 []).2 =
      [(createDefaultPrompt.systemMessage, createAnalysisPrompt feedback type2)] ∧
    (getPromptTemplate (js "bug")).systemMessage ≠
      (getPromptTemplate (js "feature")).systemMessage ∧
    (getPromptTemplate (js "bug")).systemMessage ≠
      (getPromptTemplate (js "sentiment")).systemMessage ∧
    (getPromptTemplate (js "bug")).systemMessage ≠
      (getPromptTemplate (js "general")).systemMessage ∧
    (getPromptTemplate (js "feature")).systemMessage ≠
      (getPromptTemplate (js "sentiment")).systemMessage ∧
    (getPromptTemplate (js "feature")).systemMessage ≠
      (getPromptTemplate (js "general")).systemMessage ∧
    (getPromptTemplate (js "sentiment")).systemMessage ≠
      (getPromptTemplate (js "general")).systemMessage ∧
    (∀ type, (getPromptTemplate type).systemMessage ≠ createDefaultPrompt.systemMessage) ∧
    (∀ type, type ≠ js "bug" → type ≠ js "feature" → type ≠ js "sentiment" →
      getPromptTemplate type = feedbackAnalysisPrompt) := by
  refine ⟨rfl, ?_, rfl, by decide, by decide, by decide, by decide, by decide, by decide,
    ?_, ?_⟩
  · intro σ analyzer s
    have h : createAnalysisPrompt feedback type1 = createAnalysisPrompt feedback type2 := rfl
    unfold analysisOperation analyzeWithAzure analyzeWithOpenAI
    rw [h]
    split_ifs
    · rcases analyzer.getCompletions (createAnalysisPrompt feedback type2) s with ⟨r | r, s1⟩ <;>
        rfl
    · rcases analyzer.chatCompletionsCreate createDefaultPrompt.systemMessage
        (createAnalysisPrompt feedback type2) s with ⟨r | r, s1⟩ <;> rfl
  · intro type
    unfold getPromptTemplate
    split_ifs <;> decide
  · intro type h1 h2 h3
    simp [getPromptTemplate, h1, h2, h3]

/-! ## Theorems: order of `GET /analyze`, status codes of `GET /analyze/text` -/

/-- C21, at the failing input `GET /analyze?source=all&limit=1` (each adapter answers
with one item, the GitHub issue created at the time 100, the Stack Overflow question
at the time 200): the effective limit is 1, yet the response is a success whose
`data.analysis` has 2 entries, in the order GitHub, Stack Overflow, that is with the
older item first. The handler neither sorts nor truncates. -/
theorem getAnalyze_not_sorted_truncated :
    effectiveLimit limitOneQuery = 1 ∧
    (getAnalyze twoSourceServices limitOneQuery []).response.status = 200 ∧
    (getAnalyze twoSourceServices limitOneQuery []).response.success = true ∧
    creationTimes (getAnalyze twoSourceServices limitOneQuery []).response =
      some [some (js "100"), some (js "200")] ∧
    (getAnalyze twoSourceServices limitOneQuery []).response.data.map
      (fun data => data.total_items) = some 2 ∧
    exampleGetTime (some (js "100")) = some 100 ∧
    exampleGetTime (some (js "200")) = some 200 := by
  decide

theorem analyzeFeedbackIn_not_json (item : FeedbackItem) (type : JsString) :
    analyzeFeedbackIn (exampleAnalyzer (js "not json")) 0 item type =
      Except.error (js "Failed to parse analysis response") := by
  unfold analyzeFeedbackIn
  rw [analyzeFeedback_of_three_failures (exampleAnalyzer (js "not json")) item type 0
    parseErrorMessage parseErrorMessage parseErrorMessage rfl rfl rfl]
  rfl

/-- C26: the status codes of `GET /analyze/text`. A request without a text (the
parameter is missing or empty) is answered with 400, `success = false` and a message;
but a request whose analysis fails in the backend with an error message is answered
with 400 as well, not with 500, with `success = false` and that message. No request
is answered with 500. -/
theorem getAnalyzeText_failure_status {ρ : Type}
    (analyzeFeedback : FeedbackItem → JsString → Except JsString ρ) (query : TextQuery)
    (storedAnalyses : List ρ) :
    (truthy (query.text.getD []) = false →
      (getAnalyzeText analyzeFeedback query storedAnalyses).response.status = 400 ∧
      (getAnalyzeText analyzeFeedback query storedAnalyses).response.success = false ∧
      (getAnalyzeText analyzeFeedback query storedAnalyses).response.message =
        js "Text parameter is required for analysis") ∧
    (∀ message, truthy (query.text.getD []) = true →
      analyzeFeedback
        { title := js "User Provided Feedback", body := query.text.getD [], source := js "user" }
        (feedbackType (query.type.getD (js "general"))) = Except.error message →
      (getAnalyzeText analyzeFeedback query storedAnalyses).response.status = 400 ∧
      (getAnalyzeText analyzeFeedback query storedAnalyses).response.success = false ∧
      (getAnalyzeText analyzeFeedback query storedAnalyses).response.message = message) ∧
    (getAnalyzeText analyzeFeedback query storedAnalyses).response.status ≠ 500 := by
  refine ⟨?_, ?_, ?_⟩
  · intro h
    simp [getAnalyzeText, h]
  · intro message h herr
    simp [getAnalyzeText, h, herr]
  · unfold getAnalyzeText
    by_cases h : truthy (query.text.getD []) = true
    · simp only [h, Bool.not_true, Bool.false_eq_true, if_false]
      cases analyzeFeedback
        { title := js "User Provided Feedback", body := query.text.getD [], source := js "user" }
        (feedbackType (query.type.getD (js "general"))) <;> simp
    · simp [h]

theorem getAnalyzeText_failure_status_witness :
    (getAnalyzeText (analyzeFeedbackIn (exampleAnalyzer (js "not json")) 0)
      { text := some (js "hello") } []).response.status = 400 ∧
    (getAnalyzeText (analyzeFeedbackIn (exampleAnalyzer (js "not json")) 0)
      { text := some (js "hello") } []).response.message =
        js "Failed to parse analysis response" ∧
    (getAnalyzeText (analyzeFeedbackIn (exampleAnalyzer (js "not json")) 0)
      {} []).response.status = 400 := by
  have hfail := (getAnalyzeText_failure_status
    (analyzeFeedbackIn (exampleAnalyzer (js "not json")) 0) { text := some (js "hello") } []).2.1
    (js "Failed to parse analysis response") (by decide) (analyzeFeedbackIn_not_json _ _)
  have hmissing := (getAnalyzeText_failure_status
    (analyzeFeedbackIn (exampleAnalyzer (js "not json")) 0) {} []).1 (by decide)
  exact ⟨hfail.1, hfail.2.2, hmissing.1⟩

end CodeEcho
